import Mathlib

/-!
# Lifecycle orchestration of a Power Systems virtual server instance

A shallow embedding of `ibm/resource_ibm_pi_instance.go`: the create / read /
update / delete / exists entry points of the `ibm_pi_instance` resource, the
four polling waits they are built from, and the stop / modify / start sequence
used for resizes above the current ceilings.

Conventions of the embedding.

* The remote service is a deterministic machine over an arbitrary state type
  `σ`; quantifying over `σ`, the machine and its start state covers every
  remote behaviour.
* Every function of the source that talks to the service is a `Run σ α`: it
  maps a remote state to the list of events it caused (one per remote call,
  plus a marker when a wait begins and when it ends) and either a returned
  value with the next remote state, or nothing when the Go code panics
  (index out of range, nil dereference).
* A Go `error` is an `Error`; a Go `(value, error)` return is an `Except`, a
  bare `error` return is an `Option Error` (`none` is `nil`).
* `float64` attributes (memory, processors, replicants) are rationals: the
  code only compares them and truncates them, and every finite `float64` is a
  rational on which those operations agree.
-/

namespace PIInstance

/-! ## Errors -/

/-- Go error values that occur in the resource. -/
inductive Error where
  /-- An error implementing `bmxerror.RequestFailure`, with its HTTP status code. -/
  | requestFailure (statusCode : Nat) (message : String)
  /-- Any other error value returned by the session or the instance client. -/
  | remote (message : String)
  /-- An error built by `fmt.Errorf`. -/
  | errorf (message : String)
  /-- The `base64.CorruptInputError` of the decoder (its byte offset is not modelled). -/
  | corruptInput
  /-- The `resource.TimeoutError` of the poller. -/
  | timeout (expected : List String)
  /-- The `resource.UnexpectedStateError` of the poller. -/
  | unexpectedState (state : String) (expected : List String)
  deriving DecidableEq

deriving instance DecidableEq for Except

/-- The text `err.Error()` that `%s` formatting prints for an error. -/
def Error.msg : Error → String
  | .requestFailure _ m => m
  | .remote m => m
  | .errorf m => m
  | .corruptInput => "illegal base64 data"
  | .timeout _ => "timeout while waiting for state"
  | .unexpectedState s _ => "unexpected state " ++ s

/-! ## Remote data (`power-go-client/power/models`) -/

/-- The `models.PVMInstanceHealth` record. -/
structure PVMInstanceHealth where
  Status : String
  deriving DecidableEq

/-- One entry of `PVMInstance.Networks`. -/
structure PVMInstanceNetwork where
  NetworkID : String
  deriving DecidableEq

/-- One entry of `PVMInstance.Addresses`. -/
structure PVMInstanceAddress where
  IP : String := ""
  NetworkName : String := ""
  NetworkID : String := ""
  MacAddress : String := ""
  AddressType : String := ""
  ExternalIP : String := ""
  deriving DecidableEq

/-- The snapshot `models.PVMInstance` returned by `Get` and `Create`. The
required pointer fields `Status` and `PvmInstanceID` are taken to be non-nil;
`Health` is a pointer the code itself tests against nil, so it is optional. -/
structure PVMInstance where
  PvmInstanceID : String
  ServerName : String := ""
  Status : String
  Health : Option PVMInstanceHealth := none
  Memory : ℚ := 0
  Processors : ℚ := 0
  ProcType : String := ""
  Migratable : Bool := false
  Minproc : ℚ := 0
  Minmem : ℚ := 0
  Maxproc : ℚ := 0
  Maxmem : ℚ := 0
  Progress : ℚ := 0
  ImageID : String := ""
  Networks : Option (List (Option PVMInstanceNetwork)) := none
  VolumeIds : List String := []
  SysType : String := ""
  PinPolicy : String := ""
  Addresses : Option (List PVMInstanceAddress) := none
  deriving DecidableEq

/-- The body `models.PVMInstanceCreate` of a create call. -/
structure PVMInstanceCreate where
  NetworkIds : List String
  Processors : ℚ
  Memory : ℚ
  ServerName : String
  SysType : String
  KeyPairName : String
  ImageID : String
  ProcType : String
  Replicants : ℚ
  UserData : String
  ReplicantNamingScheme : String
  ReplicantAffinityPolicy : String
  VolumeIds : List String := []
  PinPolicy : String := ""
  deriving DecidableEq

/-- The body `models.PVMInstanceUpdate` of an update call; a field the code
leaves out of the literal has Go's zero value. -/
structure PVMInstanceUpdate where
  Memory : ℚ := 0
  ProcType : String := ""
  Processors : ℚ := 0
  ServerName : String := ""
  deriving DecidableEq

/-- The answer `models.PVMInstanceUpdateResponse` of an update call. -/
structure PVMInstanceUpdateResponse where
  ServerName : String := ""
  StatusURL : String := ""
  deriving DecidableEq

/-! ## Events and runs -/

/-- The four waits of the resource, named after the functions that build them. -/
inductive Wait where
  /-- The wait built by `isWaitForPIInstanceDeleted`. -/
  | Deleted
  /-- The wait built by `isWaitForPIInstanceAvailable`. -/
  | Available
  /-- The wait built by `isWaitForPIInstanceStopped`. -/
  | Stopped
  /-- The wait built by `isWaitforPIInstanceUpdate`. -/
  | Update
  deriving DecidableEq

/-- What a run does that is visible from outside: the calls on the instance
client, and the begin and end of each wait. -/
inductive Event where
  | Create (powerinstanceid : String) (body : PVMInstanceCreate)
  | Get (id powerinstanceid : String)
  | Update (id powerinstanceid : String) (body : PVMInstanceUpdate)
  | Action (id powerinstanceid : String) (action : String)
  | Delete (id powerinstanceid : String)
  /-- The wait function was entered (its opening `log.Printf`). -/
  | WaitBegin (wait : Wait) (id : String)
  /-- The call `stateConf.WaitForState()` returned, with a nil error or not. -/
  | WaitEnd (wait : Wait) (id : String) (ok : Bool)
  deriving DecidableEq

/-- Whether an event is a `Get` call. -/
def Event.isGet : Event → Bool
  | .Get _ _ => true
  | _ => false

/-- The events of a run without the state reads of the probes and of `Read`:
the mutating calls and the wait markers, in order. -/
def steps (events : List Event) : List Event :=
  events.filter (fun e => !e.isGet)

/-- What a run leaves behind: its events and, unless the code panicked, the
returned value and the next remote state. -/
structure Outcome (σ α : Type) where
  events : List Event
  result : Option (α × σ)

/-- A computation against the remote service. -/
def Run (σ α : Type) : Type := σ → Outcome σ α

/-- Return a value without touching the service. -/
def Run.pure {σ α : Type} (a : α) : Run σ α := fun s => ⟨[], some (a, s)⟩

/-- Sequence two computations; a panic in the first ends the run. -/
def Run.bind {σ α β : Type} (x : Run σ α) (f : α → Run σ β) : Run σ β := fun s =>
  match x s with
  | ⟨ev, none⟩ => ⟨ev, none⟩
  | ⟨ev, some (a, s1)⟩ => ⟨ev ++ (f a s1).events, (f a s1).result⟩

/-- A Go runtime panic. -/
def Run.panic {σ α : Type} : Run σ α := fun _ => ⟨[], none⟩

/-- Record an event. -/
def Run.emit {σ : Type} (e : Event) : Run σ Unit := fun s => ⟨[e], some ((), s)⟩

instance {σ : Type} : Monad (Run σ) where
  pure := Run.pure
  bind := Run.bind

/-! ## The instance client (`power-go-client/clients/instance`) -/

/-- The remote service behind `st.IBMPIInstanceClient`: each operation maps
the remote state to its answer and the next remote state. -/
structure IBMPIInstanceClient (σ : Type) where
  Create : PVMInstanceCreate → String → σ → Except Error (List PVMInstance) × σ
  Get : String → String → σ → Except Error PVMInstance × σ
  Update : String → String → PVMInstanceUpdate → σ → Except Error PVMInstanceUpdateResponse × σ
  Action : String → String → String → σ → Except Error Unit × σ
  Delete : String → String → σ → Option Error × σ

variable {σ : Type}

/-- The call `client.Create(&...PostParams{Body: body}, powerinstanceid)`. -/
def IBMPIInstanceClient.create (client : IBMPIInstanceClient σ) (body : PVMInstanceCreate)
    (powerinstanceid : String) : Run σ (Except Error (List PVMInstance)) := fun s =>
  ⟨[.Create powerinstanceid body], some (client.Create body powerinstanceid s)⟩

/-- The call `client.Get(id, powerinstanceid)`. -/
def IBMPIInstanceClient.get (client : IBMPIInstanceClient σ) (id powerinstanceid : String) :
    Run σ (Except Error PVMInstance) := fun s =>
  ⟨[.Get id powerinstanceid], some (client.Get id powerinstanceid s)⟩

/-- The call `client.Update(id, powerinstanceid, &...PutParams{Body: body})`. -/
def IBMPIInstanceClient.update (client : IBMPIInstanceClient σ) (id powerinstanceid : String)
    (body : PVMInstanceUpdate) : Run σ (Except Error PVMInstanceUpdateResponse) := fun s =>
  ⟨[.Update id powerinstanceid body], some (client.Update id powerinstanceid body s)⟩

/-- The call `client.Action(&...ActionPostParams{Body: {Action: action}}, id, powerinstanceid)`. -/
def IBMPIInstanceClient.action (client : IBMPIInstanceClient σ) (action id powerinstanceid : String) :
    Run σ (Except Error Unit) := fun s =>
  ⟨[.Action id powerinstanceid action], some (client.Action id powerinstanceid action s)⟩

/-- The call `client.Delete(id, powerinstanceid)`. -/
def IBMPIInstanceClient.delete (client : IBMPIInstanceClient σ) (id powerinstanceid : String) :
    Run σ (Option Error) := fun s =>
  ⟨[.Delete id powerinstanceid], some (client.Delete id powerinstanceid s)⟩

/-! ## Constants of `power-go-client/helpers` -/

/-- Modelled from the spec: the constant `helpers.PIInstanceAvailable` (the
package is not under `src/`); the available wait targets status `ACTIVE`. -/
def helpers.PIInstanceAvailable : String := "ACTIVE"

/-- Modelled from the spec: the constant `helpers.PIInstanceBuilding`; the
available wait is pending on `BUILD`. -/
def helpers.PIInstanceBuilding : String := "BUILD"

/-- Modelled from the spec: the constant `helpers.PIInstanceHealthOk`, the
health value `OK`. -/
def helpers.PIInstanceHealthOk : String := "OK"

/-- Modelled from the spec: the constant `helpers.PIInstanceHealthWarning`,
the health value `WARNING`. -/
def helpers.PIInstanceHealthWarning : String := "WARNING"

/-- Modelled from the spec: the constant `helpers.PIInstanceDeleting`; the
deleted wait is pending on `DELETING`. -/
def helpers.PIInstanceDeleting : String := "DELETING"

/-- Modelled from the spec: the constant `helpers.PIInstanceNotFound`, the
target label `NOT_FOUND` of the deleted wait. -/
def helpers.PIInstanceNotFound : String := "NOT_FOUND"

/-! ## The poller (`terraform-plugin-sdk/helper/resource`) -/

/-- What a `resource.StateRefreshFunc` returns: `(result, state, err)`. -/
abbrev Refreshed : Type := Option PVMInstance × String × Option Error

/-- The record `resource.StateChangeConf`; durations are in seconds. -/
structure StateChangeConf (σ : Type) where
  Pending : List String
  Target : List String
  Refresh : Run σ Refreshed
  Delay : Nat
  MinTimeout : Nat
  Timeout : Nat

/-- Modelled from the spec: the polling loop of `WaitForState` (the SDK is not
under `src/`), run for at most `n` probes. A probe that errors ends the wait
with that error; a label in `Target` ends it successfully; a label in
`Pending` continues; a label in neither is an unexpected-state failure; when
the probes the timeout allows are used up the wait fails with a timeout. -/
def StateChangeConf.poll (conf : StateChangeConf σ) : Nat → Run σ (Except Error (Option PVMInstance))
  | 0 => pure (.error (.timeout conf.Target))
  | n + 1 => do
    let (res, currentState, err) ← conf.Refresh
    match err with
    | some e => pure (.error e)
    | none =>
      if currentState ∈ conf.Target then pure (.ok res)
      else if currentState ∈ conf.Pending then conf.poll n
      else pure (.error (.unexpectedState currentState conf.Target))

/-- Modelled from the spec: `stateConf.WaitForState()`. Real time is outside
the model: `probes t` is the number of probes that fit into a timeout of `t`
seconds. -/
def StateChangeConf.WaitForState (conf : StateChangeConf σ) (probes : Nat → Nat) :
    Run σ (Except Error (Option PVMInstance)) :=
  conf.poll (probes conf.Timeout)

/-- Whether a Go `(value, error)` pair has a nil error. -/
def errIsNil {α : Type} : Except Error α → Bool
  | .ok _ => true
  | .error _ => false

/-! ## The probes and the four waits -/

/-- The probe `isPIInstanceDeleteRefreshFunc`: both branches return the
not-found label with a nil error; after a failed `Get` the result is a nil
`*models.PVMInstance`. -/
def isPIInstanceDeleteRefreshFunc (client : IBMPIInstanceClient σ) (id powerinstanceid : String) :
    Run σ Refreshed := do
  let r ← client.get id powerinstanceid
  match r with
  | .error _ => pure (none, helpers.PIInstanceNotFound, none)
  | .ok pvm => pure (some pvm, helpers.PIInstanceNotFound, none)

/-- The `stateConf` of `isWaitForPIInstanceDeleted`. -/
def deletedStateConf (client : IBMPIInstanceClient σ) (id powerinstanceid : String) :
    StateChangeConf σ where
  Pending := ["retry", helpers.PIInstanceDeleting]
  Target := [helpers.PIInstanceNotFound]
  Refresh := isPIInstanceDeleteRefreshFunc client id powerinstanceid
  Delay := 10
  MinTimeout := 10
  Timeout := 10 * 60

/-- The wait `isWaitForPIInstanceDeleted`; its `timeout` argument is unused, as in the source. -/
def isWaitForPIInstanceDeleted (client : IBMPIInstanceClient σ) (probes : Nat → Nat)
    (id : String) (_timeout : Nat) (powerinstanceid : String) :
    Run σ (Except Error (Option PVMInstance)) := do
  Run.emit (.WaitBegin .Deleted id)
  let r ← (deletedStateConf client id powerinstanceid).WaitForState probes
  Run.emit (.WaitEnd .Deleted id (errIsNil r))
  pure r

/-- The probe `isPIInstanceRefreshFunc`: it looks at the status only. -/
def isPIInstanceRefreshFunc (client : IBMPIInstanceClient σ) (id powerinstanceid : String) :
    Run σ Refreshed := do
  let r ← client.get id powerinstanceid
  match r with
  | .error err => pure (none, "", some err)
  | .ok pvm =>
    if pvm.Status = helpers.PIInstanceAvailable then
      pure (some pvm, helpers.PIInstanceAvailable, none)
    else
      pure (some pvm, helpers.PIInstanceBuilding, none)

/-- The `stateConf` of `isWaitForPIInstanceAvailable`. -/
def availableStateConf (client : IBMPIInstanceClient σ) (id powerinstanceid : String) :
    StateChangeConf σ where
  Pending := ["PENDING", "BUILD", helpers.PIInstanceHealthWarning]
  Target := ["OK", "ACTIVE", helpers.PIInstanceHealthOk]
  Refresh := isPIInstanceRefreshFunc client id powerinstanceid
  Delay := 10
  MinTimeout := 2 * 60
  Timeout := 60 * 60

/-- The wait `isWaitForPIInstanceAvailable`. -/
def isWaitForPIInstanceAvailable (client : IBMPIInstanceClient σ) (probes : Nat → Nat)
    (id : String) (_timeout : Nat) (powerinstanceid : String) :
    Run σ (Except Error (Option PVMInstance)) := do
  Run.emit (.WaitBegin .Available id)
  let r ← (availableStateConf client id powerinstanceid).WaitForState probes
  Run.emit (.WaitEnd .Available id (errIsNil r))
  pure r

/-- The function `checkPIActive`; `none` is the nil dereference of `vminstance.Health`. -/
def checkPIActive (vminstance : PVMInstance) : Option Bool :=
  match vminstance.Health with
  | none => none
  | some health => some (decide (health.Status = "OK"))

/-- The Go condition `*pvm.Status == "SHUTOFF" && pvm.Health.Status == helpers.PIInstanceHealthOk`
of the two stopped probes; the right operand is evaluated only when the left
one holds, and `none` is its nil dereference of `pvm.Health`. -/
def shutoffAndHealthOk (pvm : PVMInstance) : Option Bool :=
  if pvm.Status = "SHUTOFF" then
    match pvm.Health with
    | none => none
    | some health => some (decide (health.Status = helpers.PIInstanceHealthOk))
  else some false

/-- The probe `isPIInstanceRefreshFuncOff`. -/
def isPIInstanceRefreshFuncOff (client : IBMPIInstanceClient σ) (id powerinstanceid : String) :
    Run σ Refreshed := do
  let r ← client.get id powerinstanceid
  match r with
  | .error err => pure (none, "", some err)
  | .ok pvm =>
    match shutoffAndHealthOk pvm with
    | none => Run.panic
    | some true => pure (some pvm, "SHUTOFF", none)
    | some false => pure (some pvm, "STOPPING", none)

/-- The `stateConf` of `isWaitForPIInstanceStopped`. -/
def stoppedStateConf (client : IBMPIInstanceClient σ) (id powerinstanceid : String) :
    StateChangeConf σ where
  Pending := ["STOPPING", "RESIZE", "VERIFY_RESIZE", helpers.PIInstanceHealthWarning]
  Target := ["OK", "SHUTOFF"]
  Refresh := isPIInstanceRefreshFuncOff client id powerinstanceid
  Delay := 10
  MinTimeout := 2 * 60
  Timeout := 30 * 60

/-- The wait `isWaitForPIInstanceStopped`. -/
def isWaitForPIInstanceStopped (client : IBMPIInstanceClient σ) (probes : Nat → Nat)
    (id : String) (_timeout : Nat) (powerinstanceid : String) :
    Run σ (Except Error (Option PVMInstance)) := do
  Run.emit (.WaitBegin .Stopped id)
  let r ← (stoppedStateConf client id powerinstanceid).WaitForState probes
  Run.emit (.WaitEnd .Stopped id (errIsNil r))
  pure r

/-- The probe `isPIInstanceShutAfterResourceChange`. -/
def isPIInstanceShutAfterResourceChange (client : IBMPIInstanceClient σ)
    (id powerinstanceid : String) : Run σ Refreshed := do
  let r ← client.get id powerinstanceid
  match r with
  | .error err => pure (none, "", some err)
  | .ok pvm =>
    match shutoffAndHealthOk pvm with
    | none => Run.panic
    | some true => pure (some pvm, "SHUTOFF", none)
    | some false => pure (some pvm, "RESIZE", none)

/-- The `stateConf` of `isWaitforPIInstanceUpdate`. -/
def updateStateConf (client : IBMPIInstanceClient σ) (id powerinstanceid : String) :
    StateChangeConf σ where
  Pending := ["RESIZE", "VERIFY_RESIZE"]
  Target := ["ACTIVE", "SHUTOFF", helpers.PIInstanceHealthOk]
  Refresh := isPIInstanceShutAfterResourceChange client id powerinstanceid
  Delay := 10
  MinTimeout := 5 * 60
  Timeout := 60 * 60

/-- The wait `isWaitforPIInstanceUpdate`. -/
def isWaitforPIInstanceUpdate (client : IBMPIInstanceClient σ) (probes : Nat → Nat)
    (id : String) (_timeout : Nat) (powerinstanceid : String) :
    Run σ (Except Error (Option PVMInstance)) := do
  Run.emit (.WaitBegin .Update id)
  let r ← (updateStateConf client id powerinstanceid).WaitForState probes
  Run.emit (.WaitEnd .Update id (errIsNil r))
  pure r

/-! ## Stop, modify, start -/

/-- The function `performChangeAndReboot`. -/
def performChangeAndReboot (client : IBMPIInstanceClient σ) (probes : Nat → Nat)
    (id powerinstanceid : String) (mem procs : ℚ) : Run σ (Option Error) := do
  let resp ← client.action "immediate-shutdown" id powerinstanceid
  match resp with
  | .error err => pure (some err)
  | .ok _ =>
  let stopped ← isWaitForPIInstanceStopped client probes id 30 powerinstanceid
  match stopped with
  | .error _ => pure (some (.errorf "Failed to stop the lpar"))
  | .ok _ =>
  let body : PVMInstanceUpdate := { Memory := mem, Processors := procs }
  let update_resp ← client.update id powerinstanceid body
  match update_resp with
  | .error update_err =>
    pure (some (.errorf ("Failed to update the lpar with the change, " ++ update_err.msg)))
  | .ok _ =>
  let updated ← isWaitforPIInstanceUpdate client probes id 30 powerinstanceid
  match updated with
  | .error err =>
    pure (some (.errorf
      ("Failed to get an update from the Service after the resource change, " ++ err.msg)))
  | .ok _ =>
  let startresp ← client.action "start" id powerinstanceid
  match startresp with
  | .error starterr => pure (some (.errorf ("The error from the start is " ++ starterr.msg)))
  | .ok _ =>
  let available ← isWaitForPIInstanceAvailable client probes id 30 powerinstanceid
  match available with
  | .error err => pure (some (.errorf ("Failed to stop the lpar " ++ err.msg)))
  | .ok _ => pure none

/-! ## The resource data and its helpers -/

/-- The schema keys the code passes to `d.HasChange`. -/
inductive Attr where
  | PIInstanceProcType
  | PIInstanceMemory
  | PIInstanceProcessors
  deriving DecidableEq

/-- The `*schema.ResourceData` an entry point receives: the resource id, the
value `d.Get` returns for each schema key (fields are named after the key
constants of `helpers`, or after the literal key), the keys for which
`d.HasChange` holds (`changed`), and the configured timeouts in seconds. -/
structure ResourceData where
  Id : String := ""
  PICloudInstanceId : String := ""
  PIInstanceName : String := ""
  PIInstanceSSHKeyName : String := ""
  PIInstanceMemory : ℚ := 0
  PIInstanceProcessors : ℚ := 0
  PIInstanceSystemType : String := ""
  PIInstanceNetworkIds : List String := []
  PIInstanceVolumeIds : List String := []
  PIInstanceReplicants : ℚ := 1
  PIInstanceReplicationPolicy : String := "none"
  PIInstanceReplicationScheme : String := "suffix"
  PIInstanceImageName : String := ""
  PIInstanceProcType : String := ""
  PIInstancePinPolicy : String := "none"
  PIInstanceUserData : String := ""
  PIInstanceProgress : ℚ := 0
  status : String := ""
  migratable : Bool := false
  min_processors : ℚ := 0
  min_memory : ℚ := 0
  max_processors : ℚ := 0
  max_memory : ℚ := 0
  addresses : List PVMInstanceAddress := []
  health_status : String := ""
  instance_id : String := ""
  pin_policy : String := ""
  changed : List Attr := []
  TimeoutCreate : Nat := 60 * 60
  TimeoutUpdate : Nat := 60 * 60
  TimeoutDelete : Nat := 60 * 60
  deriving DecidableEq

/-- The method `d.HasChange(key)`. -/
def ResourceData.HasChange (d : ResourceData) (key : Attr) : Bool :=
  decide (key ∈ d.changed)

/-- The provider configuration `meta.(ClientSession)`: what `IBMPISession()` returns. -/
structure ClientSession where
  IBMPISession : Except Error Unit

/-- Split a list of characters at every `/`, as `strings.Split(id, "/")` does. -/
def splitSlash : List Char → List (List Char)
  | [] => [[]]
  | c :: cs =>
    if c = '/' then [] :: splitSlash cs
    else
      match splitSlash cs with
      | [] => [[c]]
      | part :: parts => (c :: part) :: parts

/-- Modelled from the spec: the helper `idParts` of the package (not under
`src/`), which parses the composite identity `<containerId>/<instanceId>`: an
id that contains `/` is split at every `/`, any other id is an error. -/
def idParts (id : String) : Except Error (List String) :=
  if '/' ∈ id.data then .ok ((splitSlash id.data).map String.mk)
  else .error (.errorf ("The given id " ++ id ++ " does not contain / please check documentation on how to provider id during import command"))

/-! ## Base64 (`encoding/base64`) -/

/-- The value of a character in the standard base64 alphabet, when it has one. -/
def base64.decodeMap (c : Char) : Option Nat :=
  if 'A' ≤ c ∧ c ≤ 'Z' then some (c.toNat - 'A'.toNat)
  else if 'a' ≤ c ∧ c ≤ 'z' then some (c.toNat - 'a'.toNat + 26)
  else if '0' ≤ c ∧ c ≤ '9' then some (c.toNat - '0'.toNat + 52)
  else if c = '+' then some 62
  else if c = '/' then some 63
  else none

/-- Drop leading line breaks, which the decoder ignores. -/
def base64.skipNewlines : List Char → List Char
  | [] => []
  | c :: cs => if c = '\n' ∨ c = '\r' then base64.skipNewlines cs else c :: cs

/-- The decoding loop: `quantum` holds the values of the current group of up to
three characters read so far, `out` the bytes decoded so far. -/
def base64.decodeLoop : List Char → List Nat → List Nat → Except Error (List Nat)
  | [], quantum, out => if quantum = [] then .ok out else .error .corruptInput
  | c :: cs, quantum, out =>
    match base64.decodeMap c with
    | some v =>
      match quantum with
      | [a, b, c3] =>
        base64.decodeLoop cs []
          (out ++ [(a * 4 + b / 16) % 256, (b * 16 + c3 / 4) % 256, (c3 * 64 + v) % 256])
      | _ => base64.decodeLoop cs (quantum ++ [v]) out
    | none =>
      if c = '\n' ∨ c = '\r' then base64.decodeLoop cs quantum out
      else if c ≠ '=' then .error .corruptInput
      else
        match quantum with
        | [a, b] =>
          match base64.skipNewlines cs with
          | c2 :: rest =>
            if c2 = '=' ∧ base64.skipNewlines rest = [] then .ok (out ++ [(a * 4 + b / 16) % 256])
            else .error .corruptInput
          | [] => .error .corruptInput
        | [a, b, c3] =>
          if base64.skipNewlines cs = [] then
            .ok (out ++ [(a * 4 + b / 16) % 256, (b * 16 + c3 / 4) % 256])
          else .error .corruptInput
        | _ => .error .corruptInput

/-- Modelled from the spec: `base64.StdEncoding.DecodeString` of the Go
standard library (not under `src/`), the decoder of standard padded base64:
groups of four alphabet characters, the last group padded with `=` to four,
line breaks ignored, anything else a `CorruptInputError`. -/
def base64.StdEncoding.DecodeString (input : String) : Except Error (List Nat) :=
  base64.decodeLoop input.data [] []

/-- The function `checkBase64`: the error of the decoder, or nil. -/
def checkBase64 (input : String) : Option Error :=
  match base64.StdEncoding.DecodeString input with
  | .error err => some err
  | .ok _ => none

/-! ## The entry points -/

/-- The attributes `resourceIBMPIInstanceRead` sets from a fetched snapshot. -/
def setFromSnapshot (d : ResourceData) (powerinstanceid : String) (powervmdata : PVMInstance) :
    ResourceData :=
  let networks : List String :=
    match powervmdata.Networks with
    | none => []
    | some ns => ns.filterMap (fun n => n.map (fun n => n.NetworkID))
  let d : ResourceData :=
    { d with
      PIInstanceMemory := powervmdata.Memory
      PIInstanceProcessors := powervmdata.Processors
      status := powervmdata.Status
      PIInstanceProcType := powervmdata.ProcType
      migratable := powervmdata.Migratable
      min_processors := powervmdata.Minproc
      PIInstanceProgress := powervmdata.Progress
      PICloudInstanceId := powerinstanceid
      instance_id := powervmdata.PvmInstanceID
      PIInstanceName := powervmdata.ServerName
      PIInstanceImageName := powervmdata.ImageID
      PIInstanceNetworkIds := networks
      PIInstanceVolumeIds := powervmdata.VolumeIds
      PIInstanceSystemType := powervmdata.SysType
      min_memory := powervmdata.Minmem
      max_processors := powervmdata.Maxproc
      max_memory := powervmdata.Maxmem
      pin_policy := powervmdata.PinPolicy }
  let d : ResourceData :=
    match powervmdata.Addresses with
    | none => d
    | some pvmaddress => { d with addresses := pvmaddress }
  match powervmdata.Health with
  | none => d
  | some health => { d with health_status := health.Status }

/-- The entry point `resourceIBMPIInstanceRead`. -/
def resourceIBMPIInstanceRead (client : IBMPIInstanceClient σ) (d : ResourceData)
    (m : ClientSession) : Run σ (Option Error × ResourceData) :=
  match m.IBMPISession with
  | .error err => pure (some err, d)
  | .ok _ =>
  match idParts d.Id with
  | .error err => pure (some err, d)
  | .ok parts =>
  match parts with
  | powerinstanceid :: id :: _ => do
    let powervmdata ← client.get id powerinstanceid
    match powervmdata with
    | .error err => pure (some err, d)
    | .ok powervmdata => pure (none, setFromSnapshot d powerinstanceid powervmdata)
  | _ => Run.panic

/-- The multi create loop `for i := 0; i < int(replicants); i++`: with `n`
rounds left at index `i`, append the id of `(*pvm)[i]`; `none` is the index
out of range panic. -/
def collectIds (pvm : List PVMInstance) : Nat → Nat → List String → Option (List String)
  | 0, _, pvminstanceids => some pvminstanceids
  | n + 1, i, pvminstanceids =>
    match pvm.get? i with
    | none => none
    | some p => collectIds pvm n (i + 1) (pvminstanceids ++ [p.PvmInstanceID])

/-- The ids `resourceIBMPIInstanceCreate` waits on and the resource id it sets,
from the instances the create call returned; `none` is an index out of range
panic. `int(replicants)` truncates, which for a value above 1 is the floor. -/
def createdIds (powerinstanceid : String) (replicants : ℚ) (pvm : List PVMInstance) :
    Option (List String × String) :=
  if replicants > 1 then
    match collectIds pvm ⌊replicants⌋.toNat 0 [] with
    | none => none
    | some pvminstanceids => some (pvminstanceids, String.intercalate "/" pvminstanceids)
  else
    match pvm.get? 0 with
    | none => none
    | some p => some ([p.PvmInstanceID], powerinstanceid ++ "/" ++ p.PvmInstanceID)

/-- The loop `for ids, _ := range pvminstanceids` of `resourceIBMPIInstanceCreate`,
entered with the current value of `err`: `some e` is its `return err`, `none`
is leaving the loop at its end. -/
def waitForEach (client : IBMPIInstanceClient σ) (probes : Nat → Nat) (timeout : Nat)
    (powerinstanceid : String) : Option Error → List String → Run σ (Option Error)
  | _, [] => pure none
  | some err, _ :: _ => pure (some err)
  | none, id :: rest => do
    let r ← isWaitForPIInstanceAvailable client probes id timeout powerinstanceid
    match r with
    | .error err => pure (some err)
    | .ok _ => waitForEach client probes timeout powerinstanceid none rest

/-- The body `resourceIBMPIInstanceCreate` sends. -/
def createBody (d : ResourceData) : PVMInstanceCreate :=
  let pinpolicy := if d.PIInstancePinPolicy = "" then "none" else d.PIInstancePinPolicy
  let body : PVMInstanceCreate :=
    { NetworkIds := d.PIInstanceNetworkIds
      Processors := d.PIInstanceProcessors
      Memory := d.PIInstanceMemory
      ServerName := d.PIInstanceName
      SysType := d.PIInstanceSystemType
      KeyPairName := d.PIInstanceSSHKeyName
      ImageID := d.PIInstanceImageName
      ProcType := d.PIInstanceProcType
      Replicants := d.PIInstanceReplicants
      UserData := d.PIInstanceUserData
      ReplicantNamingScheme := d.PIInstanceReplicationScheme
      ReplicantAffinityPolicy := d.PIInstanceReplicationPolicy }
  let body := if d.PIInstanceVolumeIds.length > 0 then
    { body with VolumeIds := d.PIInstanceVolumeIds } else body
  if d.PIInstancePinPolicy = "soft" ∨ d.PIInstancePinPolicy = "hard" then
    { body with PinPolicy := pinpolicy } else body

/-- The entry point `resourceIBMPIInstanceCreate`. -/
def resourceIBMPIInstanceCreate (client : IBMPIInstanceClient σ) (probes : Nat → Nat)
    (d : ResourceData) (m : ClientSession) : Run σ (Option Error × ResourceData) :=
  match m.IBMPISession with
  | .error err => pure (some err, d)
  | .ok _ =>
  let powerinstanceid := d.PICloudInstanceId
  let replicants := d.PIInstanceReplicants
  let user_data := d.PIInstanceUserData
  match checkBase64 user_data with
  | some err => pure (some err, d)
  | none => do
  let pvm ← client.create (createBody d) powerinstanceid
  match pvm with
  | .error _ => pure (some (.errorf "Failed to provision the instance"), d)
  | .ok pvm =>
  match createdIds powerinstanceid replicants pvm with
  | none => Run.panic
  | some (pvminstanceids, newId) =>
  let d := { d with Id := newId }
  let err ← waitForEach client probes d.TimeoutCreate powerinstanceid none pvminstanceids
  match err with
  | some err => pure (some err, d)
  | none => resourceIBMPIInstanceRead client d m

/-- The block `if d.HasChange(helpers.PIInstanceProcType)` of
`resourceIBMPIInstanceUpdate`: `some e` is its `return err`. -/
def updateProcType (client : IBMPIInstanceClient σ) (probes : Nat → Nat) (d : ResourceData)
    (id powerinstanceid : String) : Run σ (Option Error) := do
  let processortype := d.PIInstanceProcType
  let stopErr ← (if d.status = "SHUTOFF" then pure none else do
    let resp ← client.action "immediate-shutdown" id powerinstanceid
    match resp with
    | .error err => pure (some err)
    | .ok _ =>
    let stopped ← isWaitForPIInstanceStopped client probes id d.TimeoutUpdate powerinstanceid
    match stopped with
    | .error err => pure (some err)
    | .ok _ => pure none : Run σ (Option Error))
  match stopErr with
  | some err => pure (some err)
  | none =>
  let updatebody : PVMInstanceUpdate := { ProcType := processortype }
  let updateresp ← client.update id powerinstanceid updatebody
  match updateresp with
  | .error err => pure (some err)
  | .ok _ =>
  let stopped ← isWaitForPIInstanceStopped client probes id d.TimeoutUpdate powerinstanceid
  match stopped with
  | .error err => pure (some err)
  | .ok _ =>
  let startresp ← client.action "start" id powerinstanceid
  match startresp with
  | .error err => pure (some err)
  | .ok _ =>
  let available ← isWaitForPIInstanceAvailable client probes id d.TimeoutUpdate powerinstanceid
  match available with
  | .error err => pure (some err)
  | .ok _ => pure none

/-- The block `if d.HasChange(helpers.PIInstanceMemory) || d.HasChange(helpers.PIInstanceProcessors)`
of `resourceIBMPIInstanceUpdate`, the resize: `some e` is its `return err`. -/
def updateMemoryProcessors (client : IBMPIInstanceClient σ) (probes : Nat → Nat)
    (d : ResourceData) (id powerinstanceid : String) : Run σ (Option Error) :=
  let name := d.PIInstanceName
  let mem := d.PIInstanceMemory
  let procs := d.PIInstanceProcessors
  let processortype := d.PIInstanceProcType
  let max_mem_lpar := d.max_memory
  let max_cpu_lpar := d.max_processors
  if mem > max_mem_lpar ∨ procs > max_cpu_lpar then do
    let err ← performChangeAndReboot client probes id powerinstanceid mem procs
    match err with
    | some _ => pure (some (.errorf "Failed to perform the operation for the change"))
    | none => pure none
  else
    match idParts d.Id with
    | .error err => pure (some err)
    | .ok parts =>
    match parts with
    | powerinstanceid :: id :: _ => do
      let body : PVMInstanceUpdate :=
        { Memory := mem, ProcType := processortype, Processors := procs, ServerName := name }
      let resp ← client.update id powerinstanceid body
      match resp with
      | .error _ => pure (some (.errorf "Failed to update the lpar with the change"))
      | .ok _ =>
      let available ← isWaitForPIInstanceAvailable client probes id d.TimeoutUpdate powerinstanceid
      match available with
      | .error err => pure (some err)
      | .ok _ => pure none
    | _ => Run.panic

/-- The entry point `resourceIBMPIInstanceUpdate`. -/
def resourceIBMPIInstanceUpdate (client : IBMPIInstanceClient σ) (probes : Nat → Nat)
    (d : ResourceData) (m : ClientSession) : Run σ (Option Error × ResourceData) :=
  match m.IBMPISession with
  | .error _ => pure (some (.errorf "Failed to get the session from the IBM Cloud Service"), d)
  | .ok _ =>
  if d.health_status = "WARNING" then
    pure (some (.errorf
      "The operation cannot be performed when the lpar health in the WARNING State"), d)
  else
  match idParts d.Id with
  | .error err => pure (some err, d)
  | .ok parts =>
  match parts with
  | powerinstanceid :: id :: _ => do
    let err ← (if d.HasChange .PIInstanceProcType then
      updateProcType client probes d id powerinstanceid else pure none : Run σ (Option Error))
    match err with
    | some err => pure (some err, d)
    | none =>
    let err ← (if d.HasChange .PIInstanceMemory ∨ d.HasChange .PIInstanceProcessors then
      updateMemoryProcessors client probes d id powerinstanceid
      else pure none : Run σ (Option Error))
    match err with
    | some err => pure (some err, d)
    | none => resourceIBMPIInstanceRead client d m
  | _ => Run.panic

/-- The entry point `resourceIBMPIInstanceDelete`; the error of the session is
dropped, as in the source. -/
def resourceIBMPIInstanceDelete (client : IBMPIInstanceClient σ) (probes : Nat → Nat)
    (d : ResourceData) (_m : ClientSession) : Run σ (Option Error × ResourceData) :=
  match idParts d.Id with
  | .error err => pure (some err, d)
  | .ok parts =>
  match parts with
  | powerinstanceid :: id :: _ => do
    let err ← client.delete id powerinstanceid
    match err with
    | some err => pure (some err, d)
    | none =>
    let deleted ← isWaitForPIInstanceDeleted client probes id d.TimeoutDelete powerinstanceid
    match deleted with
    | .error err => pure (some err, d)
    | .ok _ => pure (none, { d with Id := "" })
  | _ => Run.panic

/-- The entry point `resourceIBMPIInstanceExists`. -/
def resourceIBMPIInstanceExists (client : IBMPIInstanceClient σ) (d : ResourceData)
    (m : ClientSession) : Run σ (Bool × Option Error) :=
  match m.IBMPISession with
  | .error err => pure (false, some err)
  | .ok _ =>
  match idParts d.Id with
  | .error err => pure (false, some err)
  | .ok parts =>
  match parts with
  | powerinstanceid :: id :: _ => do
    let pvminstance ← client.get id powerinstanceid
    match pvminstance with
    | .error err =>
      match err with
      | .requestFailure 404 _ => pure (false, none)
      | _ => pure (false, some (.errorf ("Error communicating with the API: " ++ err.msg)))
    | .ok pvminstance => pure (decide (pvminstance.PvmInstanceID = id), none)
  | _ => Run.panic

/-! ## Remotes used as concrete inputs -/

/-- A remote whose `Get` returns the snapshots of a script one after the other
(not found once the script is used up), whose `Create` returns the script, and
whose other calls succeed. -/
def scripted : IBMPIInstanceClient (List PVMInstance) where
  Create := fun _ _ s => (.ok s, s)
  Get := fun _ _ s =>
    match s with
    | [] => (.error (.requestFailure 404 "not found"), [])
    | pvm :: rest => (.ok pvm, rest)
  Update := fun _ _ _ s => (.ok {}, s)
  Action := fun _ _ _ s => (.ok (), s)
  Delete := fun _ _ s => (none, s)

/-- A remote that answers every `Get` with the same snapshot and accepts every
other call; its state counts the calls. -/
def steady (pvm : PVMInstance) : IBMPIInstanceClient Nat where
  Create := fun _ _ n => (.ok [pvm], n + 1)
  Get := fun _ _ n => (.ok pvm, n + 1)
  Update := fun _ _ _ n => (.ok {}, n + 1)
  Action := fun _ _ _ n => (.ok (), n + 1)
  Delete := fun _ _ n => (none, n + 1)

/-- A snapshot with the given id, status and health. -/
def snapshot (id status health : String) : PVMInstance :=
  { PvmInstanceID := id, Status := status, Health := some ⟨health⟩ }

/-- A provider configuration whose session is obtained. -/
def session : ClientSession := ⟨.ok ()⟩

/-- A remote on which every call fails with the same error. -/
def refusing (e : Error) : IBMPIInstanceClient Nat where
  Create := fun _ _ n => (.error e, n + 1)
  Get := fun _ _ n => (.error e, n + 1)
  Update := fun _ _ _ n => (.error e, n + 1)
  Action := fun _ _ _ n => (.error e, n + 1)
  Delete := fun _ _ n => (some e, n + 1)

/-- A remote like `scripted` whose `Update` fails with the given error. -/
def updateRefused (e : Error) : IBMPIInstanceClient (List PVMInstance) where
  Create := fun _ _ s => (.ok s, s)
  Get := fun _ _ s =>
    match s with
    | [] => (.error (.requestFailure 404 "not found"), [])
    | pvm :: rest => (.ok pvm, rest)
  Update := fun _ _ _ s => (.error e, s)
  Action := fun _ _ _ s => (.ok (), s)
  Delete := fun _ _ s => (none, s)

/-! ## Vocabulary of the statements -/

/-- A run that only reads: the events it causes are all `Get` calls. -/
def ReadOnly {α : Type} (x : Run σ α) : Prop := ∀ s, steps (x s).events = []

/-- A run that never panics. -/
def NoPanic {α : Type} (x : Run σ α) : Prop := ∀ s, ∃ a s1, (x s).result = some (a, s1)

/-- Whether an event is an `Update` call. -/
def Event.isUpdate : Event → Bool
  | .Update _ _ _ => true
  | _ => false

/-- Whether an event is an `Action` call. -/
def Event.isAction : Event → Bool
  | .Action _ _ _ => true
  | _ => false

/-- Whether an event is a `Delete` call. -/
def Event.isDelete : Event → Bool
  | .Delete _ _ => true
  | _ => false

/-- The steps of a wait: its begin marker and, unless a probe panicked, its end
marker, which tells whether the wait succeeded. -/
def waitSteps (w : Wait) (id : String) {α β : Type} (result : Option (Except Error α × β)) :
    List Event :=
  Event.WaitBegin w id ::
    (match result with
     | none => []
     | some (r, _) => [Event.WaitEnd w id (errIsNil r)])

/-- The steps of a completed stop, modify, start sequence for the instance,
with `w` the wait that follows the update call. -/
def stopModifyStart (id cloud : String) (body : PVMInstanceUpdate) (w : Wait) : List Event :=
  [.Action id cloud "immediate-shutdown", .WaitBegin .Stopped id, .WaitEnd .Stopped id true,
   .Update id cloud body, .WaitBegin w id, .WaitEnd w id true,
   .Action id cloud "start", .WaitBegin .Available id, .WaitEnd .Available id true]

/-- The steps of a completed processor type change: a stop unless the recorded
status is `SHUTOFF`, then the update, the stopped wait, the start and the
available wait. -/
def expectedProcTypeSteps (d : ResourceData) (id cloud : String) : List Event :=
  (if d.status = "SHUTOFF" then []
   else [.Action id cloud "immediate-shutdown", .WaitBegin .Stopped id, .WaitEnd .Stopped id true])
  ++ [.Update id cloud { ProcType := d.PIInstanceProcType },
      .WaitBegin .Stopped id, .WaitEnd .Stopped id true,
      .Action id cloud "start", .WaitBegin .Available id, .WaitEnd .Available id true]

/-- The steps of an in-place resize whose update call was accepted, with the
outcome of the available wait. -/
def expectedInPlaceSteps (d : ResourceData) (id cloud : String) (ok : Bool) : List Event :=
  [.Update id cloud
      { Memory := d.PIInstanceMemory, ProcType := d.PIInstanceProcType,
        Processors := d.PIInstanceProcessors, ServerName := d.PIInstanceName },
    .WaitBegin .Available id, .WaitEnd .Available id ok]

/-- The steps of a completed resize: stop, modify, start above a ceiling, the
in-place update otherwise. -/
def expectedResizeSteps (d : ResourceData) (id cloud : String) : List Event :=
  if d.PIInstanceMemory > d.max_memory ∨ d.PIInstanceProcessors > d.max_processors then
    stopModifyStart id cloud
      { Memory := d.PIInstanceMemory, Processors := d.PIInstanceProcessors } .Update
  else expectedInPlaceSteps d id cloud true

/-- The steps of available waits that ended in success, one instance after the other. -/
def availableSteps : List String → List Event
  | [] => []
  | id :: rest =>
    .WaitBegin .Available id :: .WaitEnd .Available id true :: availableSteps rest

/-- The steps of the available wait that failed on the first of the instances
left, if any is left. -/
def failedStep : List String → List Event
  | [] => []
  | id :: _ => [.WaitBegin .Available id, .WaitEnd .Available id false]

/-- The steps of a run of `performChangeAndReboot` that ends at the failure of
its step `k`, the steps being the stop action (1), the stopped wait (2), the
update call (3), the post-resize wait (4), the start action (5) and the
available wait (6): the steps before `k` completed and step `k`, nothing
after it. -/
def rebootAbortedAt (id cloud : String) (body : PVMInstanceUpdate) : Nat → List Event
  | 1 => [.Action id cloud "immediate-shutdown"]
  | 2 => [.Action id cloud "immediate-shutdown",
          .WaitBegin .Stopped id, .WaitEnd .Stopped id false]
  | 3 => [.Action id cloud "immediate-shutdown",
          .WaitBegin .Stopped id, .WaitEnd .Stopped id true,
          .Update id cloud body]
  | 4 => [.Action id cloud "immediate-shutdown",
          .WaitBegin .Stopped id, .WaitEnd .Stopped id true,
          .Update id cloud body, .WaitBegin .Update id, .WaitEnd .Update id false]
  | 5 => [.Action id cloud "immediate-shutdown",
          .WaitBegin .Stopped id, .WaitEnd .Stopped id true,
          .Update id cloud body, .WaitBegin .Update id, .WaitEnd .Update id true,
          .Action id cloud "start"]
  | 6 => [.Action id cloud "immediate-shutdown",
          .WaitBegin .Stopped id, .WaitEnd .Stopped id true,
          .Update id cloud body, .WaitBegin .Update id, .WaitEnd .Update id true,
          .Action id cloud "start", .WaitBegin .Available id, .WaitEnd .Available id false]
  | _ => []

/-- The error `e` is the error of one of the remote calls or waits of the
processor type block of the update, as that call or wait returned it. -/
def procTypeFailure (client : IBMPIInstanceClient σ) (probes : Nat → Nat) (d : ResourceData)
    (id cloud : String) (e : Error) : Prop :=
  (∃ s0, (client.Action id cloud "immediate-shutdown" s0).1 = .error e) ∨
  (∃ s0, (client.Update id cloud { ProcType := d.PIInstanceProcType } s0).1 = .error e) ∨
  (∃ s0, (client.Action id cloud "start" s0).1 = .error e) ∨
  (∃ s0 s1, (isWaitForPIInstanceStopped client probes id d.TimeoutUpdate cloud s0).result =
    some (.error e, s1)) ∨
  (∃ s0 s1, (isWaitForPIInstanceAvailable client probes id d.TimeoutUpdate cloud s0).result =
    some (.error e, s1))

/-! ## Resources used as concrete inputs -/

/-- A resource whose memory was raised within the ceilings. -/
def resizedWithin : ResourceData :=
  { Id := "cloud1/vm1", PIInstanceName := "lpar", PIInstanceProcType := "shared",
    PIInstanceMemory := 4, PIInstanceProcessors := 2, max_memory := 8, max_processors := 4,
    status := "ACTIVE", health_status := "OK", changed := [.PIInstanceMemory] }

/-- A resource whose memory was raised above the ceiling. -/
def resizedAbove : ResourceData :=
  { Id := "cloud1/vm1", PIInstanceName := "lpar", PIInstanceProcType := "shared",
    PIInstanceMemory := 16, PIInstanceProcessors := 2, max_memory := 8, max_processors := 4,
    status := "ACTIVE", health_status := "OK", changed := [.PIInstanceMemory] }

/-- A running resource whose processor type was changed. -/
def retyped : ResourceData :=
  { Id := "cloud1/vm1", PIInstanceName := "lpar", PIInstanceProcType := "dedicated",
    PIInstanceMemory := 4, PIInstanceProcessors := 2, max_memory := 8, max_processors := 4,
    status := "ACTIVE", health_status := "OK", changed := [.PIInstanceProcType] }

/-- A create request for three replicants. -/
def requested : ResourceData :=
  { PICloudInstanceId := "cloud1", PIInstanceName := "lpar", PIInstanceProcType := "shared",
    PIInstanceMemory := 4, PIInstanceProcessors := 2, PIInstanceReplicants := 3,
    PIInstanceUserData := "IyEvYmluL3No" }

/-! ## Reasoning about runs -/

theorem run_bind {α β : Type} (x : Run σ α) (f : α → Run σ β) (s : σ) :
    (x >>= f) s = match x s with
      | ⟨ev, none⟩ => ⟨ev, none⟩
      | ⟨ev, some (a, s1)⟩ => ⟨ev ++ (f a s1).events, (f a s1).result⟩ := rfl

theorem run_pure {α : Type} (a : α) (s : σ) : (pure a : Run σ α) s = ⟨[], some (a, s)⟩ := rfl

theorem run_emit (e : Event) (s : σ) : Run.emit e s = ⟨[e], some ((), s)⟩ := rfl

theorem run_panic {α : Type} (s : σ) : (Run.panic : Run σ α) s = ⟨[], none⟩ := rfl

theorem get_apply (client : IBMPIInstanceClient σ) (id cloud : String) (s : σ) :
    client.get id cloud s =
      ⟨[.Get id cloud], some ((client.Get id cloud s).1, (client.Get id cloud s).2)⟩ := rfl

theorem create_apply (client : IBMPIInstanceClient σ) (body : PVMInstanceCreate) (cloud : String)
    (s : σ) :
    client.create body cloud s =
      ⟨[.Create cloud body], some ((client.Create body cloud s).1, (client.Create body cloud s).2)⟩ :=
  rfl

theorem update_apply (client : IBMPIInstanceClient σ) (id cloud : String) (body : PVMInstanceUpdate)
    (s : σ) :
    client.update id cloud body s =
      ⟨[.Update id cloud body],
        some ((client.Update id cloud body s).1, (client.Update id cloud body s).2)⟩ := rfl

theorem action_apply (client : IBMPIInstanceClient σ) (action id cloud : String) (s : σ) :
    client.action action id cloud s =
      ⟨[.Action id cloud action],
        some ((client.Action id cloud action s).1, (client.Action id cloud action s).2)⟩ := rfl

theorem delete_apply (client : IBMPIInstanceClient σ) (id cloud : String) (s : σ) :
    client.delete id cloud s =
      ⟨[.Delete id cloud], some ((client.Delete id cloud s).1, (client.Delete id cloud s).2)⟩ := rfl

theorem steps_nil : steps [] = [] := rfl

theorem steps_append (l1 l2 : List Event) : steps (l1 ++ l2) = steps l1 ++ steps l2 := by
  simp [steps]

theorem steps_cons (e : Event) (l : List Event) :
    steps (e :: l) = if e.isGet then steps l else e :: steps l := by
  cases h : e.isGet <;> simp [steps, h]

theorem poll_readOnly (conf : StateChangeConf σ) (h : ReadOnly conf.Refresh) (n : Nat) :
    ReadOnly (conf.poll n) := by
  induction n with
  | zero => intro s; rfl
  | succ n ih =>
    intro s
    have hs := h s
    simp only [StateChangeConf.poll, run_bind]
    rcases hx : conf.Refresh s with ⟨ev, _ | ⟨⟨res, st, err⟩, s1⟩⟩
    · simpa [hx] using hs
    · rw [hx] at hs
      cases err with
      | some e => simpa [run_pure, steps_append] using hs
      | none =>
        simp only
        split_ifs
        · simpa [run_pure, steps_append] using hs
        · have := ih s1
          simp only [steps_append] at this hs ⊢
          rw [this, hs]; rfl
        · simpa [run_pure, steps_append] using hs

theorem isPIInstanceDeleteRefreshFunc_readOnly (client : IBMPIInstanceClient σ)
    (id cloud : String) : ReadOnly (isPIInstanceDeleteRefreshFunc client id cloud) := by
  intro s
  simp only [isPIInstanceDeleteRefreshFunc, run_bind, get_apply]
  rcases client.Get id cloud s with ⟨_ | pvm, s1⟩ <;> rfl

theorem isPIInstanceRefreshFunc_readOnly (client : IBMPIInstanceClient σ) (id cloud : String) :
    ReadOnly (isPIInstanceRefreshFunc client id cloud) := by
  intro s
  simp only [isPIInstanceRefreshFunc, run_bind, get_apply]
  rcases client.Get id cloud s with ⟨_ | pvm, s1⟩
  · rfl
  · simp only
    split_ifs <;> rfl

theorem isPIInstanceRefreshFuncOff_readOnly (client : IBMPIInstanceClient σ) (id cloud : String) :
    ReadOnly (isPIInstanceRefreshFuncOff client id cloud) := by
  intro s
  simp only [isPIInstanceRefreshFuncOff, run_bind, get_apply]
  rcases client.Get id cloud s with ⟨_ | pvm, s1⟩
  · rfl
  · simp only
    rcases shutoffAndHealthOk pvm with _ | _ | _ <;> rfl

theorem isPIInstanceShutAfterResourceChange_readOnly (client : IBMPIInstanceClient σ)
    (id cloud : String) : ReadOnly (isPIInstanceShutAfterResourceChange client id cloud) := by
  intro s
  simp only [isPIInstanceShutAfterResourceChange, run_bind, get_apply]
  rcases client.Get id cloud s with ⟨_ | pvm, s1⟩
  · rfl
  · simp only
    rcases shutoffAndHealthOk pvm with _ | _ | _ <;> rfl

/-- The shape shared by the four wait functions. -/
theorem wait_shape (conf : StateChangeConf σ) (probes : Nat → Nat) (w : Wait) (id : String)
    (h : ReadOnly conf.Refresh) (s : σ) :
    let o := (do
      Run.emit (.WaitBegin w id)
      let r ← conf.WaitForState probes
      Run.emit (.WaitEnd w id (errIsNil r))
      pure r : Run σ (Except Error (Option PVMInstance))) s
    steps o.events = waitSteps w id o.result := by
  have hp := poll_readOnly conf h (probes conf.Timeout) s
  simp only [run_bind, run_emit, StateChangeConf.WaitForState, waitSteps]
  rcases hx : conf.poll (probes conf.Timeout) s with ⟨ev, _ | ⟨r, s1⟩⟩
  · rw [hx] at hp
    simp only [steps_append, List.singleton_append] at hp ⊢
    simp [steps_cons, Event.isGet, hp, steps_append, steps_nil]
  · rw [hx] at hp
    simp only at hp
    simp [steps_append, run_pure, hp, steps_cons, Event.isGet, steps_nil]

theorem isWaitForPIInstanceDeleted_steps (client : IBMPIInstanceClient σ) (probes : Nat → Nat)
    (id : String) (t : Nat) (cloud : String) (s : σ) :
    steps (isWaitForPIInstanceDeleted client probes id t cloud s).events =
      waitSteps .Deleted id (isWaitForPIInstanceDeleted client probes id t cloud s).result :=
  wait_shape (deletedStateConf client id cloud) probes .Deleted id
    (isPIInstanceDeleteRefreshFunc_readOnly client id cloud) s

theorem isWaitForPIInstanceAvailable_steps (client : IBMPIInstanceClient σ) (probes : Nat → Nat)
    (id : String) (t : Nat) (cloud : String) (s : σ) :
    steps (isWaitForPIInstanceAvailable client probes id t cloud s).events =
      waitSteps .Available id (isWaitForPIInstanceAvailable client probes id t cloud s).result :=
  wait_shape (availableStateConf client id cloud) probes .Available id
    (isPIInstanceRefreshFunc_readOnly client id cloud) s

theorem isWaitForPIInstanceStopped_steps (client : IBMPIInstanceClient σ) (probes : Nat → Nat)
    (id : String) (t : Nat) (cloud : String) (s : σ) :
    steps (isWaitForPIInstanceStopped client probes id t cloud s).events =
      waitSteps .Stopped id (isWaitForPIInstanceStopped client probes id t cloud s).result :=
  wait_shape (stoppedStateConf client id cloud) probes .Stopped id
    (isPIInstanceRefreshFuncOff_readOnly client id cloud) s

theorem isWaitforPIInstanceUpdate_steps (client : IBMPIInstanceClient σ) (probes : Nat → Nat)
    (id : String) (t : Nat) (cloud : String) (s : σ) :
    steps (isWaitforPIInstanceUpdate client probes id t cloud s).events =
      waitSteps .Update id (isWaitforPIInstanceUpdate client probes id t cloud s).result :=
  wait_shape (updateStateConf client id cloud) probes .Update id
    (isPIInstanceShutAfterResourceChange_readOnly client id cloud) s

theorem poll_noPanic (conf : StateChangeConf σ) (h : NoPanic conf.Refresh) (n : Nat) :
    NoPanic (conf.poll n) := by
  induction n with
  | zero => intro s; exact ⟨_, _, rfl⟩
  | succ n ih =>
    intro s
    obtain ⟨⟨res, st, err⟩, s1, hs⟩ := h s
    simp only [StateChangeConf.poll, run_bind]
    rcases hx : conf.Refresh s with ⟨ev, r⟩
    rw [hx] at hs
    simp only at hs
    subst hs
    cases err with
    | some e => exact ⟨_, _, rfl⟩
    | none =>
      simp only
      split_ifs
      · exact ⟨_, _, rfl⟩
      · exact ih s1
      · exact ⟨_, _, rfl⟩

theorem isPIInstanceRefreshFunc_noPanic (client : IBMPIInstanceClient σ) (id cloud : String) :
    NoPanic (isPIInstanceRefreshFunc client id cloud) := by
  intro s
  simp only [isPIInstanceRefreshFunc, run_bind, get_apply]
  rcases client.Get id cloud s with ⟨_ | pvm, s1⟩
  · exact ⟨_, _, rfl⟩
  · simp only
    split_ifs <;> exact ⟨_, _, rfl⟩

theorem isWaitForPIInstanceAvailable_noPanic (client : IBMPIInstanceClient σ)
    (probes : Nat → Nat) (id : String) (t : Nat) (cloud : String) :
    NoPanic (isWaitForPIInstanceAvailable client probes id t cloud) := by
  intro s
  obtain ⟨r, s1, h⟩ := poll_noPanic (availableStateConf client id cloud)
    (isPIInstanceRefreshFunc_noPanic client id cloud)
    (probes (availableStateConf client id cloud).Timeout) s
  simp only [isWaitForPIInstanceAvailable, run_bind, run_emit, StateChangeConf.WaitForState]
  revert h
  rcases (availableStateConf client id cloud).poll
    (probes (availableStateConf client id cloud).Timeout) s with ⟨ev, _ | ⟨r1, s2⟩⟩
  · simp
  · intro _
    exact ⟨_, _, rfl⟩

theorem resourceIBMPIInstanceRead_readOnly (client : IBMPIInstanceClient σ) (d : ResourceData)
    (m : ClientSession) : ReadOnly (resourceIBMPIInstanceRead client d m) := by
  intro s
  unfold resourceIBMPIInstanceRead
  rcases m.IBMPISession with _ | _
  · rfl
  simp only
  rcases idParts d.Id with _ | parts
  · rfl
  simp only
  rcases parts with _ | ⟨cloud, _ | ⟨id, rest⟩⟩
  · rfl
  · rfl
  simp only [run_bind, get_apply]
  rcases client.Get id cloud s with ⟨_ | pvm, s1⟩ <;> rfl

theorem filter_steps (p : Event → Bool) (hp : ∀ e, p e = true → e.isGet = false)
    (events : List Event) : (steps events).filter p = events.filter p := by
  induction events with
  | nil => rfl
  | cons e l ih =>
    rw [steps_cons]
    cases hg : e.isGet
    · simp [List.filter_cons, ih]
    · have : p e = false := by
        cases hpe : p e
        · rfl
        · rw [hp e hpe] at hg; cases hg
      simp [List.filter_cons, ih, this]
theorem performChangeAndReboot_success (client : IBMPIInstanceClient σ) (probes : Nat → Nat)
    (id cloud : String) (mem procs : ℚ) (s s' : σ)
    (h : (performChangeAndReboot client probes id cloud mem procs s).result = some (none, s')) :
    steps (performChangeAndReboot client probes id cloud mem procs s).events =
      stopModifyStart id cloud { Memory := mem, Processors := procs } .Update := by
  revert h
  simp only [performChangeAndReboot, run_bind, action_apply, update_apply]
  rcases client.Action id cloud "immediate-shutdown" s with ⟨_ | _, s1⟩
  · simp [run_pure]
  simp only [run_bind, action_apply, update_apply]
  have h1 := isWaitForPIInstanceStopped_steps client probes id 30 cloud s1
  revert h1
  rcases isWaitForPIInstanceStopped client probes id 30 cloud s1 with ⟨ev1, _ | ⟨_ | _, s2⟩⟩
  · simp
  · simp [run_pure]
  intro h1
  simp only [waitSteps, run_bind, action_apply, update_apply] at h1 ⊢
  rcases client.Update id cloud { Memory := mem, Processors := procs } s2 with ⟨_ | _, s3⟩
  · simp [run_pure]
  simp only [run_bind, action_apply, update_apply]
  have h2 := isWaitforPIInstanceUpdate_steps client probes id 30 cloud s3
  revert h2
  rcases isWaitforPIInstanceUpdate client probes id 30 cloud s3 with ⟨ev2, _ | ⟨_ | _, s4⟩⟩
  · simp
  · simp [run_pure]
  intro h2
  simp only [waitSteps, run_bind, action_apply, update_apply] at h2 ⊢
  rcases client.Action id cloud "start" s4 with ⟨_ | _, s5⟩
  · simp [run_pure]
  simp only [run_bind, action_apply, update_apply]
  have h3 := isWaitForPIInstanceAvailable_steps client probes id 30 cloud s5
  revert h3
  rcases isWaitForPIInstanceAvailable client probes id 30 cloud s5 with ⟨ev3, _ | ⟨_ | _, s6⟩⟩
  · simp
  · simp [run_pure]
  intro h3 _
  simp only [waitSteps] at h3 ⊢
  simp [steps_append, steps_cons, Event.isGet, h1, h2, h3, run_pure, steps_nil, stopModifyStart, errIsNil]
/-- The part of the processor type block after the optional stop. -/
theorem updateProcType_tail (client : IBMPIInstanceClient σ) (probes : Nat → Nat)
    (d : ResourceData) (id cloud : String) (s s' : σ) :
    let o := (do
      let updateresp ← client.update id cloud { ProcType := d.PIInstanceProcType }
      match updateresp with
      | .error err => pure (some err)
      | .ok _ =>
      let stopped ← isWaitForPIInstanceStopped client probes id d.TimeoutUpdate cloud
      match stopped with
      | .error err => pure (some err)
      | .ok _ =>
      let startresp ← client.action "start" id cloud
      match startresp with
      | .error err => pure (some err)
      | .ok _ =>
      let available ← isWaitForPIInstanceAvailable client probes id d.TimeoutUpdate cloud
      match available with
      | .error err => pure (some err)
      | .ok _ => pure none : Run σ (Option Error)) s
    o.result = some (none, s') →
    steps o.events = [.Update id cloud { ProcType := d.PIInstanceProcType },
      .WaitBegin .Stopped id, .WaitEnd .Stopped id true,
      .Action id cloud "start", .WaitBegin .Available id, .WaitEnd .Available id true] := by
  simp only [run_bind, action_apply, update_apply]
  rcases client.Update id cloud { ProcType := d.PIInstanceProcType } s with ⟨_ | _, s3⟩
  · simp [run_pure]
  simp only [run_bind, action_apply, update_apply]
  have h2 := isWaitForPIInstanceStopped_steps client probes id d.TimeoutUpdate cloud s3
  revert h2
  rcases isWaitForPIInstanceStopped client probes id d.TimeoutUpdate cloud s3 with
    ⟨ev2, _ | ⟨_ | _, s4⟩⟩
  · simp
  · simp [run_pure]
  intro h2
  simp only [waitSteps, run_bind, action_apply, update_apply] at h2 ⊢
  rcases client.Action id cloud "start" s4 with ⟨_ | _, s5⟩
  · simp [run_pure]
  simp only [run_bind, action_apply, update_apply]
  have h3 := isWaitForPIInstanceAvailable_steps client probes id d.TimeoutUpdate cloud s5
  revert h3
  rcases isWaitForPIInstanceAvailable client probes id d.TimeoutUpdate cloud s5 with
    ⟨ev3, _ | ⟨_ | _, s6⟩⟩
  · simp
  · simp [run_pure]
  intro h3 _
  simp only [waitSteps] at h3 ⊢
  simp [steps_append, steps_cons, Event.isGet, h2, h3, run_pure, steps_nil, errIsNil]

theorem updateProcType_success (client : IBMPIInstanceClient σ) (probes : Nat → Nat)
    (d : ResourceData) (id cloud : String) (s s' : σ)
    (h : (updateProcType client probes d id cloud s).result = some (none, s')) :
    steps (updateProcType client probes d id cloud s).events = expectedProcTypeSteps d id cloud := by
  revert h
  unfold updateProcType expectedProcTypeSteps
  by_cases hst : d.status = "SHUTOFF"
  · simp only [if_pos hst, run_bind, run_pure, List.nil_append]
    exact updateProcType_tail client probes d id cloud s s'
  · simp only [if_neg hst]
    rw [run_bind, run_bind]
    simp only [action_apply]
    rcases client.Action id cloud "immediate-shutdown" s with ⟨_ | _, s1⟩
    · simp [run_pure]
    simp only [run_bind]
    have h1 := isWaitForPIInstanceStopped_steps client probes id d.TimeoutUpdate cloud s1
    revert h1
    rcases isWaitForPIInstanceStopped client probes id d.TimeoutUpdate cloud s1 with
      ⟨ev1, _ | ⟨_ | _, s2⟩⟩
    · simp
    · simp [run_pure]
    intro h1
    simp only [waitSteps, run_pure, List.append_nil] at h1 ⊢
    intro h
    have := updateProcType_tail client probes d id cloud s2 s' h
    simp only [steps_append, steps_cons, Event.isGet, h1, this]
    simp [errIsNil, steps_nil]

/-- The resize within the ceilings: one update call, then at most the available wait. -/
theorem updateMemoryProcessors_inPlace (client : IBMPIInstanceClient σ) (probes : Nat → Nat)
    (d : ResourceData) (id cloud id0 cloud0 : String) (rest : List String) (s : σ)
    (hid : idParts d.Id = .ok (cloud :: id :: rest))
    (hfit : ¬ (d.PIInstanceMemory > d.max_memory ∨ d.PIInstanceProcessors > d.max_processors)) :
    let o := updateMemoryProcessors client probes d id0 cloud0 s
    (steps o.events = (expectedInPlaceSteps d id cloud true).take 1 ∧
      ∃ s', o.result = some (some (.errorf "Failed to update the lpar with the change"), s')) ∨
    (steps o.events = expectedInPlaceSteps d id cloud false ∧
      ∃ e s', o.result = some (some e, s')) ∨
    (steps o.events = expectedInPlaceSteps d id cloud true ∧
      ∃ s', o.result = some (none, s')) := by
  simp only [updateMemoryProcessors, if_neg hfit, hid, run_bind, update_apply,
    expectedInPlaceSteps]
  rcases client.Update id cloud
    { Memory := d.PIInstanceMemory, ProcType := d.PIInstanceProcType,
      Processors := d.PIInstanceProcessors, ServerName := d.PIInstanceName } s with ⟨_ | _, s1⟩
  · left
    exact ⟨by simp [run_pure, steps_cons, Event.isGet, steps_nil], _, rfl⟩
  right
  simp only [run_bind]
  have h1 := isWaitForPIInstanceAvailable_steps client probes id d.TimeoutUpdate cloud s1
  obtain ⟨r, s2, h2⟩ := isWaitForPIInstanceAvailable_noPanic client probes id d.TimeoutUpdate cloud s1
  revert h1 h2
  rcases isWaitForPIInstanceAvailable client probes id d.TimeoutUpdate cloud s1 with
    ⟨ev1, _ | ⟨_ | _, s2⟩⟩
  · simp
  · intro h1 _
    left
    simp only [waitSteps] at h1
    exact ⟨by simp [run_pure, steps_append, steps_cons, Event.isGet, steps_nil, h1, errIsNil],
      _, _, rfl⟩
  · intro h1 _
    right
    simp only [waitSteps] at h1
    exact ⟨by simp [run_pure, steps_append, steps_cons, Event.isGet, steps_nil, h1, errIsNil],
      _, rfl⟩

/-- The resize above a ceiling, completed: the stop, modify, start sequence. -/
theorem updateMemoryProcessors_reboot (client : IBMPIInstanceClient σ) (probes : Nat → Nat)
    (d : ResourceData) (id cloud : String) (s s' : σ)
    (hbig : d.PIInstanceMemory > d.max_memory ∨ d.PIInstanceProcessors > d.max_processors)
    (h : (updateMemoryProcessors client probes d id cloud s).result = some (none, s')) :
    steps (updateMemoryProcessors client probes d id cloud s).events =
      stopModifyStart id cloud
        { Memory := d.PIInstanceMemory, Processors := d.PIInstanceProcessors } .Update := by
  revert h
  simp only [updateMemoryProcessors, if_pos hbig, run_bind]
  have h1 := performChangeAndReboot_success client probes id cloud d.PIInstanceMemory
    d.PIInstanceProcessors s
  revert h1
  rcases performChangeAndReboot client probes id cloud d.PIInstanceMemory
    d.PIInstanceProcessors s with ⟨ev, _ | ⟨_ | _, s1⟩⟩
  · simp
  · intro h1 h
    simp [run_pure, steps_append, steps_nil, h1 s1 rfl]
  · simp [run_pure]
/-- The update entry point past its guards: the two blocks, then the read. -/
theorem resourceIBMPIInstanceUpdate_blocks (client : IBMPIInstanceClient σ) (probes : Nat → Nat)
    (d : ResourceData) (m : ClientSession) (id cloud : String) (rest : List String)
    (hsess : m.IBMPISession = .ok ()) (hhealth : d.health_status ≠ "WARNING")
    (hid : idParts d.Id = .ok (cloud :: id :: rest)) :
    resourceIBMPIInstanceUpdate client probes d m = (do
      let err ← (if d.HasChange .PIInstanceProcType then
        updateProcType client probes d id cloud else pure none : Run σ (Option Error))
      match err with
      | some err => pure (some err, d)
      | none =>
      let err ← (if d.HasChange .PIInstanceMemory ∨ d.HasChange .PIInstanceProcessors then
        updateMemoryProcessors client probes d id cloud
        else pure none : Run σ (Option Error))
      match err with
      | some err => pure (some err, d)
      | none => resourceIBMPIInstanceRead client d m) := by
  simp only [resourceIBMPIInstanceUpdate, hsess, hid, if_neg hhealth]

/-- A completed update: the steps of the processor type change, if any, then
the steps of the resize, if any. -/
theorem resourceIBMPIInstanceUpdate_success (client : IBMPIInstanceClient σ) (probes : Nat → Nat)
    (d d' : ResourceData) (m : ClientSession) (id cloud : String) (rest : List String) (s s' : σ)
    (hsess : m.IBMPISession = .ok ()) (hhealth : d.health_status ≠ "WARNING")
    (hid : idParts d.Id = .ok (cloud :: id :: rest))
    (h : (resourceIBMPIInstanceUpdate client probes d m s).result = some ((none, d'), s')) :
    steps (resourceIBMPIInstanceUpdate client probes d m s).events =
      (if d.HasChange .PIInstanceProcType then expectedProcTypeSteps d id cloud else []) ++
      (if d.HasChange .PIInstanceMemory ∨ d.HasChange .PIInstanceProcessors then
        expectedResizeSteps d id cloud else []) := by
  revert h
  rw [resourceIBMPIInstanceUpdate_blocks client probes d m id cloud rest hsess hhealth hid]
  rw [run_bind]
  have h1 : ∀ s1, ((if d.HasChange .PIInstanceProcType then
        updateProcType client probes d id cloud else pure none : Run σ (Option Error)) s).result
        = some (none, s1) →
      steps ((if d.HasChange .PIInstanceProcType then
        updateProcType client probes d id cloud else pure none : Run σ (Option Error)) s).events
      = (if d.HasChange .PIInstanceProcType then expectedProcTypeSteps d id cloud else []) := by
    intro s1
    split_ifs
    · exact updateProcType_success client probes d id cloud s s1
    · intro _; rfl
  revert h1
  rcases ((if d.HasChange .PIInstanceProcType then
        updateProcType client probes d id cloud else pure none : Run σ (Option Error)) s) with
    ⟨ev1, _ | ⟨_ | _, s1⟩⟩
  · simp
  swap
  · simp [run_pure]
  intro h1
  simp only [run_bind]
  have h2 : ∀ s2, ((if d.HasChange .PIInstanceMemory ∨ d.HasChange .PIInstanceProcessors then
        updateMemoryProcessors client probes d id cloud
        else pure none : Run σ (Option Error)) s1).result = some (none, s2) →
      steps ((if d.HasChange .PIInstanceMemory ∨ d.HasChange .PIInstanceProcessors then
        updateMemoryProcessors client probes d id cloud
        else pure none : Run σ (Option Error)) s1).events
      = (if d.HasChange .PIInstanceMemory ∨ d.HasChange .PIInstanceProcessors then
        expectedResizeSteps d id cloud else []) := by
    intro s2
    split_ifs with hc
    · unfold expectedResizeSteps
      split_ifs with hbig
      · exact updateMemoryProcessors_reboot client probes d id cloud s1 s2 hbig
      · intro hres
        rcases updateMemoryProcessors_inPlace client probes d id cloud id cloud rest s1 hid hbig
          with ⟨_, _, h⟩ | ⟨_, _, _, h⟩ | ⟨h, _⟩
        · rw [hres] at h; cases h
        · rw [hres] at h; cases h
        · exact h
    · intro _; rfl
  revert h2
  rcases ((if d.HasChange .PIInstanceMemory ∨ d.HasChange .PIInstanceProcessors then
        updateMemoryProcessors client probes d id cloud
        else pure none : Run σ (Option Error)) s1) with ⟨ev2, _ | ⟨_ | _, s2⟩⟩
  · simp
  swap
  · simp [run_pure]
  intro h2 _
  simp only [steps_append, h1 s1 rfl, h2 s2 rfl, resourceIBMPIInstanceRead_readOnly client d m s2,
    List.append_nil]

/-- A poll whose probe only returns labels of the target or pending list fails
only by the timeout or with the error of a probe. -/
theorem poll_error (conf : StateChangeConf σ) (P : Error → Prop)
    (hlabel : ∀ s res label s1, (conf.Refresh s).result = some ((res, label, none), s1) →
      label ∈ conf.Pending ∨ label ∈ conf.Target)
    (herr : ∀ s res label e s1, (conf.Refresh s).result = some ((res, label, some e), s1) → P e)
    (n : Nat) (s : σ) (e : Error) (s' : σ)
    (h : ((conf.poll n) s).result = some (.error e, s')) : e = .timeout conf.Target ∨ P e := by
  induction n generalizing s with
  | zero =>
    left
    simp only [StateChangeConf.poll, run_pure, Option.some.injEq, Prod.mk.injEq,
      Except.error.injEq] at h
    exact h.1.symm
  | succ n ih =>
    have hl := hlabel s
    have he := herr s
    revert h hl he
    simp only [StateChangeConf.poll, run_bind]
    rcases conf.Refresh s with ⟨ev, _ | ⟨⟨res, label, _ | e0⟩, s1⟩⟩
    · simp
    · intro h hl _
      simp only at h
      split_ifs at h with ht hp
      · simp [run_pure] at h
      · exact ih s1 h
      · rcases hl res label s1 rfl with hp' | ht'
        · exact absurd hp' hp
        · exact absurd ht' ht
    · intro h _ he
      simp only [run_pure, Option.some.injEq, Prod.mk.injEq, Except.error.injEq] at h
      right
      rw [← h.1]
      exact he res label e0 s1 rfl

/-- The wrappers of a wait do not change what its poll returns. -/
theorem wait_result (conf : StateChangeConf σ) (probes : Nat → Nat) (w : Wait) (id : String)
    (s : σ) :
    ((do
      Run.emit (.WaitBegin w id)
      let r ← conf.WaitForState probes
      Run.emit (.WaitEnd w id (errIsNil r))
      pure r : Run σ (Except Error (Option PVMInstance))) s).result =
    (conf.poll (probes conf.Timeout) s).result := by
  simp only [run_bind, run_emit, StateChangeConf.WaitForState]
  rcases conf.poll (probes conf.Timeout) s with ⟨ev, _ | ⟨r, s1⟩⟩ <;> rfl

theorem isPIInstanceRefreshFunc_label (client : IBMPIInstanceClient σ) (id cloud : String)
    (s : σ) (res : Option PVMInstance) (label : String) (err : Option Error) (s1 : σ)
    (h : (isPIInstanceRefreshFunc client id cloud s).result = some ((res, label, err), s1)) :
    (err = none ∧ (label = "ACTIVE" ∨ label = "BUILD")) ∨
    (∃ e, err = some e ∧ (client.Get id cloud s).1 = .error e) := by
  revert h
  simp only [isPIInstanceRefreshFunc, run_bind, get_apply]
  rcases client.Get id cloud s with ⟨e | pvm, s2⟩
  · simp only [run_pure, List.append_nil, Option.some.injEq, Prod.mk.injEq]
    rintro ⟨⟨-, -, rfl⟩, -⟩
    exact Or.inr ⟨e, rfl, rfl⟩
  · simp only
    split_ifs
    · simp only [run_pure, List.append_nil, Option.some.injEq, Prod.mk.injEq]
      rintro ⟨⟨-, rfl, rfl⟩, -⟩
      exact Or.inl ⟨rfl, Or.inl rfl⟩
    · simp only [run_pure, List.append_nil, Option.some.injEq, Prod.mk.injEq]
      rintro ⟨⟨-, rfl, rfl⟩, -⟩
      exact Or.inl ⟨rfl, Or.inr rfl⟩

theorem isPIInstanceRefreshFuncOff_label (client : IBMPIInstanceClient σ) (id cloud : String)
    (s : σ) (res : Option PVMInstance) (label : String) (err : Option Error) (s1 : σ)
    (h : (isPIInstanceRefreshFuncOff client id cloud s).result = some ((res, label, err), s1)) :
    (err = none ∧ (label = "SHUTOFF" ∨ label = "STOPPING")) ∨
    (∃ e, err = some e ∧ (client.Get id cloud s).1 = .error e) := by
  revert h
  simp only [isPIInstanceRefreshFuncOff, run_bind, get_apply]
  rcases client.Get id cloud s with ⟨e | pvm, s2⟩
  · simp only [run_pure, List.append_nil, Option.some.injEq, Prod.mk.injEq]
    rintro ⟨⟨-, -, rfl⟩, -⟩
    exact Or.inr ⟨e, rfl, rfl⟩
  · simp only
    rcases shutoffAndHealthOk pvm with _ | _ | _
    · simp [run_panic]
    · simp only [run_pure, List.append_nil, Option.some.injEq, Prod.mk.injEq]
      rintro ⟨⟨-, rfl, rfl⟩, -⟩
      exact Or.inl ⟨rfl, Or.inr rfl⟩
    · simp only [run_pure, List.append_nil, Option.some.injEq, Prod.mk.injEq]
      rintro ⟨⟨-, rfl, rfl⟩, -⟩
      exact Or.inl ⟨rfl, Or.inl rfl⟩

theorem isPIInstanceShutAfterResourceChange_label (client : IBMPIInstanceClient σ)
    (id cloud : String) (s : σ) (res : Option PVMInstance) (label : String)
    (err : Option Error) (s1 : σ)
    (h : (isPIInstanceShutAfterResourceChange client id cloud s).result =
      some ((res, label, err), s1)) :
    (err = none ∧ (label = "SHUTOFF" ∨ label = "RESIZE")) ∨
    (∃ e, err = some e ∧ (client.Get id cloud s).1 = .error e) := by
  revert h
  simp only [isPIInstanceShutAfterResourceChange, run_bind, get_apply]
  rcases client.Get id cloud s with ⟨e | pvm, s2⟩
  · simp only [run_pure, List.append_nil, Option.some.injEq, Prod.mk.injEq]
    rintro ⟨⟨-, -, rfl⟩, -⟩
    exact Or.inr ⟨e, rfl, rfl⟩
  · simp only
    rcases shutoffAndHealthOk pvm with _ | _ | _
    · simp [run_panic]
    · simp only [run_pure, List.append_nil, Option.some.injEq, Prod.mk.injEq]
      rintro ⟨⟨-, rfl, rfl⟩, -⟩
      exact Or.inl ⟨rfl, Or.inr rfl⟩
    · simp only [run_pure, List.append_nil, Option.some.injEq, Prod.mk.injEq]
      rintro ⟨⟨-, rfl, rfl⟩, -⟩
      exact Or.inl ⟨rfl, Or.inl rfl⟩

theorem collectIds_eq (pvm : List PVMInstance) (n i : Nat) (acc : List String)
    (h : i + n ≤ pvm.length) :
    collectIds pvm n i acc =
      some (acc ++ ((pvm.drop i).take n).map (fun p => p.PvmInstanceID)) := by
  induction n generalizing i acc with
  | zero => simp [collectIds]
  | succ n ih =>
    have hi : i < pvm.length := by omega
    have hd : pvm.drop i = pvm[i] :: pvm.drop (i + 1) := by
      rw [List.drop_eq_getElem_cons hi]
    simp only [collectIds, List.get?_eq_getElem?, List.getElem?_eq_getElem hi]
    rw [ih (i + 1) _ (by omega), hd]
    simp only [List.take_succ_cons, List.map_cons, List.append_assoc, List.singleton_append]

theorem createdIds_eq (cloud : String) (N : Nat) (pvm : List PVMInstance)
    (hN : 1 ≤ N) (hlen : N ≤ pvm.length) :
    ∃ newId, createdIds cloud (N : ℚ) pvm =
      some ((pvm.take N).map (fun p => p.PvmInstanceID), newId) := by
  unfold createdIds
  by_cases h1 : (N : ℚ) > 1
  · rw [if_pos h1]
    have : ⌊(N : ℚ)⌋.toNat = N := by simp
    rw [this, collectIds_eq pvm N 0 [] (by omega)]
    exact ⟨String.intercalate "/" ((pvm.take N).map (fun p => p.PvmInstanceID)), by simp⟩
  · rw [if_neg h1]
    have hN1 : N = 1 := by
      have : (N : ℚ) ≤ 1 := not_lt.mp h1
      have : N ≤ 1 := by exact_mod_cast this
      omega
    subst hN1
    rcases pvm with _ | ⟨p, rest⟩
    · simp at hlen
    · exact ⟨cloud ++ "/" ++ p.PvmInstanceID, by simp⟩

theorem waitForEach_steps (client : IBMPIInstanceClient σ) (probes : Nat → Nat) (t : Nat)
    (cloud : String) (ids : List String) (s : σ) :
    ∃ waited left, ids = waited ++ left ∧
      steps (waitForEach client probes t cloud none ids s).events =
        availableSteps waited ++ failedStep left ∧
      ((left = [] ∧ ∃ s', (waitForEach client probes t cloud none ids s).result =
          some (none, s')) ∨
       (∃ id rest e s0 s', left = id :: rest ∧
          (isWaitForPIInstanceAvailable client probes id t cloud s0).result =
            some (.error e, s') ∧
          (waitForEach client probes t cloud none ids s).result = some (some e, s'))) := by
  induction ids generalizing s with
  | nil => exact ⟨[], [], rfl, rfl, Or.inl ⟨rfl, s, rfl⟩⟩
  | cons id ids ih =>
    have h1 := isWaitForPIInstanceAvailable_steps client probes id t cloud s
    obtain ⟨r, s1, h2⟩ := isWaitForPIInstanceAvailable_noPanic client probes id t cloud s
    have h3 : ∀ e s', (isWaitForPIInstanceAvailable client probes id t cloud s).result =
        some (.error e, s') → ∃ s0, (isWaitForPIInstanceAvailable client probes id t cloud
          s0).result = some (.error e, s') := fun e s' h => ⟨s, h⟩
    revert h1 h2 h3
    simp only [waitForEach, run_bind]
    rcases isWaitForPIInstanceAvailable client probes id t cloud s with ⟨ev, _ | ⟨e | _, s2⟩⟩
    · simp
    · intro h1 _ h3
      obtain ⟨s0, hs0⟩ := h3 e s2 rfl
      refine ⟨[], id :: ids, rfl, ?_, Or.inr ⟨id, ids, e, s0, s2, rfl, hs0, rfl⟩⟩
      simp only [waitSteps, errIsNil] at h1
      simp [run_pure, steps_append, steps_nil, h1, availableSteps, failedStep]
    · intro h1 _ _
      obtain ⟨waited, left, hids, hsteps, hres⟩ := ih s2
      refine ⟨id :: waited, left, by rw [hids]; rfl, ?_, ?_⟩
      · simp only [waitSteps, errIsNil] at h1
        simp only [steps_append, h1, hsteps, availableSteps]
        rfl
      · exact hres

theorem isPIInstanceShutAfterResourceChange_ok (client : IBMPIInstanceClient σ)
    (id cloud : String) (s s1 : σ) (pvm : PVMInstance)
    (hget : client.Get id cloud s = (.ok pvm, s1)) :
    isPIInstanceShutAfterResourceChange client id cloud s =
      match shutoffAndHealthOk pvm with
      | none => ⟨[.Get id cloud], none⟩
      | some true => ⟨[.Get id cloud], some ((some pvm, "SHUTOFF", none), s1)⟩
      | some false => ⟨[.Get id cloud], some ((some pvm, "RESIZE", none), s1)⟩ := by
  simp only [isPIInstanceShutAfterResourceChange, run_bind, get_apply, hget]
  rcases shutoffAndHealthOk pvm with _ | _ | _ <;> rfl

/-- A poll whose probe keeps returning a pending label uses up its probes and
ends in the timeout. -/
theorem poll_pending (conf : StateChangeConf σ)
    (h : ∀ s, ∃ ev res label s1, conf.Refresh s = ⟨ev, some ((res, label, none), s1)⟩ ∧
      label ∉ conf.Target ∧ label ∈ conf.Pending) (n : Nat) (s : σ) :
    ∃ s', ((conf.poll n) s).result = some (.error (.timeout conf.Target), s') := by
  induction n generalizing s with
  | zero => exact ⟨s, rfl⟩
  | succ n ih =>
    obtain ⟨ev, res, label, s1, hr, ht, hp⟩ := h s
    obtain ⟨s', hs'⟩ := ih s1
    refine ⟨s', ?_⟩
    simp only [StateChangeConf.poll, run_bind, hr, if_neg ht, if_pos hp]
    exact hs'


theorem isPIInstanceRefreshFuncOff_ok (client : IBMPIInstanceClient σ)
    (id cloud : String) (s s1 : σ) (pvm : PVMInstance)
    (hget : client.Get id cloud s = (.ok pvm, s1)) :
    isPIInstanceRefreshFuncOff client id cloud s =
      match shutoffAndHealthOk pvm with
      | none => ⟨[.Get id cloud], none⟩
      | some true => ⟨[.Get id cloud], some ((some pvm, "SHUTOFF", none), s1)⟩
      | some false => ⟨[.Get id cloud], some ((some pvm, "STOPPING", none), s1)⟩ := by
  simp only [isPIInstanceRefreshFuncOff, run_bind, get_apply, hget]
  rcases shutoffAndHealthOk pvm with _ | _ | _ <;> rfl

/-- The classification of the stopped probe on a snapshot that carries a health
record: SHUTOFF exactly for status SHUTOFF with health OK, STOPPING otherwise. -/
theorem isPIInstanceRefreshFuncOff_with_health (client : IBMPIInstanceClient σ)
    (id cloud : String) (s s1 : σ) (pvm : PVMInstance) (health : PVMInstanceHealth)
    (hget : client.Get id cloud s = (.ok pvm, s1)) (hhealth : pvm.Health = some health) :
    isPIInstanceRefreshFuncOff client id cloud s =
      ⟨[.Get id cloud],
        some ((some pvm, if pvm.Status = "SHUTOFF" ∧ health.Status = "OK" then "SHUTOFF"
          else "STOPPING", none), s1)⟩ := by
  rw [isPIInstanceRefreshFuncOff_ok client id cloud s s1 pvm hget]
  simp only [shutoffAndHealthOk, hhealth, helpers.PIInstanceHealthOk]
  by_cases h1 : pvm.Status = "SHUTOFF"
  · by_cases h2 : health.Status = "OK"
    · simp [h1, h2]
    · simp [h1, h2]
  · simp [h1]

/-- The stopped probe on a snapshot whose status is not SHUTOFF, with or
without a health record: STOPPING. -/
theorem isPIInstanceRefreshFuncOff_not_shutoff (client : IBMPIInstanceClient σ)
    (id cloud : String) (s s1 : σ) (pvm : PVMInstance)
    (hget : client.Get id cloud s = (.ok pvm, s1)) (hstatus : pvm.Status ≠ "SHUTOFF") :
    isPIInstanceRefreshFuncOff client id cloud s =
      ⟨[.Get id cloud], some ((some pvm, "STOPPING", none), s1)⟩ := by
  rw [isPIInstanceRefreshFuncOff_ok client id cloud s s1 pvm hget]
  simp [shutoffAndHealthOk, hstatus]

/-- The stopped probe after a failed `Get`: that error. -/
theorem isPIInstanceRefreshFuncOff_error (client : IBMPIInstanceClient σ)
    (id cloud : String) (s s1 : σ) (e : Error)
    (hget : client.Get id cloud s = (.error e, s1)) :
    isPIInstanceRefreshFuncOff client id cloud s =
      ⟨[.Get id cloud], some ((none, "", some e), s1)⟩ := by
  simp only [isPIInstanceRefreshFuncOff, run_bind, get_apply, hget]
  rfl

/-- The id set for at most one replicant: container id, `/`, instance id. -/
theorem createdIds_single (cloud : String) (replicants : ℚ) (p : PVMInstance)
    (pvm : List PVMInstance) (h : replicants ≤ 1) :
    createdIds cloud replicants (p :: pvm) =
      some ([p.PvmInstanceID], cloud ++ "/" ++ p.PvmInstanceID) := by
  simp [createdIds, not_lt.mpr h]

/-- The id set for `N > 1` replicants: the returned instance ids joined by
`/`, without the container id. -/
theorem createdIds_multi (cloud : String) (N : Nat) (pvm : List PVMInstance)
    (hN : 1 < N) (hlen : N ≤ pvm.length) :
    createdIds cloud (N : ℚ) pvm =
      some ((pvm.take N).map (fun p => p.PvmInstanceID),
        String.intercalate "/" ((pvm.take N).map (fun p => p.PvmInstanceID))) := by
  have h1 : (N : ℚ) > 1 := by exact_mod_cast hN
  have h2 : ⌊(N : ℚ)⌋.toNat = N := by simp
  unfold createdIds
  rw [if_pos h1, h2, collectIds_eq pvm N 0 [] (by omega)]
  simp

/-! ### `performChangeAndReboot`, step by step -/

theorem performChangeAndReboot_stop_fails (client : IBMPIInstanceClient σ) (probes : Nat → Nat)
    (id cloud : String) (mem procs : ℚ) (s s1 : σ) (e : Error)
    (h1 : client.Action id cloud "immediate-shutdown" s = (.error e, s1)) :
    performChangeAndReboot client probes id cloud mem procs s =
      ⟨[.Action id cloud "immediate-shutdown"], some (some e, s1)⟩ := by
  simp only [performChangeAndReboot, run_bind, action_apply, h1]
  rfl

theorem performChangeAndReboot_stopped_fails (client : IBMPIInstanceClient σ)
    (probes : Nat → Nat) (id cloud : String) (mem procs : ℚ) (s s1 s2 : σ) (e : Error)
    (ev1 : List Event)
    (h1 : client.Action id cloud "immediate-shutdown" s = (.ok (), s1))
    (h2 : isWaitForPIInstanceStopped client probes id 30 cloud s1 = ⟨ev1, some (.error e, s2)⟩) :
    performChangeAndReboot client probes id cloud mem procs s =
      ⟨.Action id cloud "immediate-shutdown" :: ev1,
        some (some (.errorf "Failed to stop the lpar"), s2)⟩ := by
  simp only [performChangeAndReboot, run_bind, action_apply, h1, h2]
  simp [run_pure]

theorem performChangeAndReboot_update_fails (client : IBMPIInstanceClient σ)
    (probes : Nat → Nat) (id cloud : String) (mem procs : ℚ) (s s1 s2 s3 : σ) (e : Error)
    (ev1 : List Event) (r1 : Option PVMInstance)
    (h1 : client.Action id cloud "immediate-shutdown" s = (.ok (), s1))
    (h2 : isWaitForPIInstanceStopped client probes id 30 cloud s1 = ⟨ev1, some (.ok r1, s2)⟩)
    (h3 : client.Update id cloud { Memory := mem, Processors := procs } s2 = (.error e, s3)) :
    performChangeAndReboot client probes id cloud mem procs s =
      ⟨.Action id cloud "immediate-shutdown" :: ev1 ++
          [.Update id cloud { Memory := mem, Processors := procs }],
        some (some (.errorf ("Failed to update the lpar with the change, " ++ e.msg)), s3)⟩ := by
  simp only [performChangeAndReboot, run_bind, action_apply, update_apply, h1, h2, h3]
  simp [run_pure]

theorem performChangeAndReboot_resized_fails (client : IBMPIInstanceClient σ)
    (probes : Nat → Nat) (id cloud : String) (mem procs : ℚ) (s s1 s2 s3 s4 : σ) (e : Error)
    (ev1 ev2 : List Event) (r1 : Option PVMInstance) (resp : PVMInstanceUpdateResponse)
    (h1 : client.Action id cloud "immediate-shutdown" s = (.ok (), s1))
    (h2 : isWaitForPIInstanceStopped client probes id 30 cloud s1 = ⟨ev1, some (.ok r1, s2)⟩)
    (h3 : client.Update id cloud { Memory := mem, Processors := procs } s2 = (.ok resp, s3))
    (h4 : isWaitforPIInstanceUpdate client probes id 30 cloud s3 = ⟨ev2, some (.error e, s4)⟩) :
    performChangeAndReboot client probes id cloud mem procs s =
      ⟨.Action id cloud "immediate-shutdown" :: ev1 ++
          .Update id cloud { Memory := mem, Processors := procs } :: ev2,
        some (some (.errorf
          ("Failed to get an update from the Service after the resource change, " ++ e.msg)),
          s4)⟩ := by
  simp only [performChangeAndReboot, run_bind, action_apply, update_apply, h1, h2, h3, h4]
  simp [run_pure]

theorem performChangeAndReboot_start_fails (client : IBMPIInstanceClient σ)
    (probes : Nat → Nat) (id cloud : String) (mem procs : ℚ) (s s1 s2 s3 s4 s5 : σ) (e : Error)
    (ev1 ev2 : List Event) (r1 r2 : Option PVMInstance) (resp : PVMInstanceUpdateResponse)
    (h1 : client.Action id cloud "immediate-shutdown" s = (.ok (), s1))
    (h2 : isWaitForPIInstanceStopped client probes id 30 cloud s1 = ⟨ev1, some (.ok r1, s2)⟩)
    (h3 : client.Update id cloud { Memory := mem, Processors := procs } s2 = (.ok resp, s3))
    (h4 : isWaitforPIInstanceUpdate client probes id 30 cloud s3 = ⟨ev2, some (.ok r2, s4)⟩)
    (h5 : client.Action id cloud "start" s4 = (.error e, s5)) :
    performChangeAndReboot client probes id cloud mem procs s =
      ⟨.Action id cloud "immediate-shutdown" :: ev1 ++
          .Update id cloud { Memory := mem, Processors := procs } :: ev2 ++
          [.Action id cloud "start"],
        some (some (.errorf ("The error from the start is " ++ e.msg)), s5)⟩ := by
  simp only [performChangeAndReboot, run_bind, action_apply, update_apply, h1, h2, h3, h4, h5]
  simp [run_pure]

theorem performChangeAndReboot_available_fails (client : IBMPIInstanceClient σ)
    (probes : Nat → Nat) (id cloud : String) (mem procs : ℚ) (s s1 s2 s3 s4 s5 s6 : σ)
    (e : Error) (ev1 ev2 ev3 : List Event) (r1 r2 : Option PVMInstance)
    (resp : PVMInstanceUpdateResponse)
    (h1 : client.Action id cloud "immediate-shutdown" s = (.ok (), s1))
    (h2 : isWaitForPIInstanceStopped client probes id 30 cloud s1 = ⟨ev1, some (.ok r1, s2)⟩)
    (h3 : client.Update id cloud { Memory := mem, Processors := procs } s2 = (.ok resp, s3))
    (h4 : isWaitforPIInstanceUpdate client probes id 30 cloud s3 = ⟨ev2, some (.ok r2, s4)⟩)
    (h5 : client.Action id cloud "start" s4 = (.ok (), s5))
    (h6 : isWaitForPIInstanceAvailable client probes id 30 cloud s5 =
      ⟨ev3, some (.error e, s6)⟩) :
    performChangeAndReboot client probes id cloud mem procs s =
      ⟨.Action id cloud "immediate-shutdown" :: ev1 ++
          .Update id cloud { Memory := mem, Processors := procs } :: ev2 ++
          .Action id cloud "start" :: ev3,
        some (some (.errorf ("Failed to stop the lpar " ++ e.msg)), s6)⟩ := by
  simp only [performChangeAndReboot, run_bind, action_apply, update_apply, h1, h2, h3, h4, h5, h6]
  simp [run_pure]

/-- Every run of `performChangeAndReboot` that returns an error ended at the
failure of one of its six steps. -/
theorem performChangeAndReboot_aborted (client : IBMPIInstanceClient σ) (probes : Nat → Nat)
    (id cloud : String) (mem procs : ℚ) (s s' : σ) (e : Error)
    (h : (performChangeAndReboot client probes id cloud mem procs s).result =
      some (some e, s')) :
    ∃ k, 1 ≤ k ∧ k ≤ 6 ∧
      steps (performChangeAndReboot client probes id cloud mem procs s).events =
        rebootAbortedAt id cloud { Memory := mem, Processors := procs } k := by
  revert h
  simp only [performChangeAndReboot, run_bind, action_apply, update_apply]
  rcases client.Action id cloud "immediate-shutdown" s with ⟨_ | _, s1⟩
  · intro _
    exact ⟨1, by norm_num, by norm_num, by simp [run_pure, steps_cons, Event.isGet, steps_nil,
      rebootAbortedAt]⟩
  simp only [run_bind, action_apply, update_apply]
  have h1 := isWaitForPIInstanceStopped_steps client probes id 30 cloud s1
  revert h1
  rcases isWaitForPIInstanceStopped client probes id 30 cloud s1 with ⟨ev1, _ | ⟨_ | _, s2⟩⟩
  · simp
  · intro h1 _
    simp only [waitSteps, errIsNil] at h1
    exact ⟨2, by norm_num, by norm_num, by simp [run_pure, steps_append, steps_cons, Event.isGet,
      steps_nil, rebootAbortedAt, h1]⟩
  intro h1
  simp only [waitSteps, errIsNil, run_bind, action_apply, update_apply] at h1 ⊢
  rcases client.Update id cloud { Memory := mem, Processors := procs } s2 with ⟨_ | _, s3⟩
  · intro _
    exact ⟨3, by norm_num, by norm_num, by simp [run_pure, steps_append, steps_cons, Event.isGet,
      steps_nil, rebootAbortedAt, h1]⟩
  simp only [run_bind, action_apply, update_apply]
  have h2 := isWaitforPIInstanceUpdate_steps client probes id 30 cloud s3
  revert h2
  rcases isWaitforPIInstanceUpdate client probes id 30 cloud s3 with ⟨ev2, _ | ⟨_ | _, s4⟩⟩
  · simp
  · intro h2 _
    simp only [waitSteps, errIsNil] at h2
    exact ⟨4, by norm_num, by norm_num, by simp [run_pure, steps_append, steps_cons, Event.isGet,
      steps_nil, rebootAbortedAt, h1, h2]⟩
  intro h2
  simp only [waitSteps, errIsNil, run_bind, action_apply, update_apply] at h2 ⊢
  rcases client.Action id cloud "start" s4 with ⟨_ | _, s5⟩
  · intro _
    exact ⟨5, by norm_num, by norm_num, by simp [run_pure, steps_append, steps_cons, Event.isGet,
      steps_nil, rebootAbortedAt, h1, h2]⟩
  simp only [run_bind, action_apply, update_apply]
  have h3 := isWaitForPIInstanceAvailable_steps client probes id 30 cloud s5
  revert h3
  rcases isWaitForPIInstanceAvailable client probes id 30 cloud s5 with ⟨ev3, _ | ⟨_ | _, s6⟩⟩
  · simp
  · intro h3 _
    simp only [waitSteps, errIsNil] at h3
    exact ⟨6, by norm_num, by norm_num, by simp [run_pure, steps_append, steps_cons, Event.isGet,
      steps_nil, rebootAbortedAt, h1, h2, h3]⟩
  · simp [run_pure]

/-- The steps of a wait that returned, from its outcome. -/
theorem steps_of_wait {ev : List Event} {r : Except Error (Option PVMInstance)} {s2 : σ}
    {w : Wait} {id : String} {o : Outcome σ (Except Error (Option PVMInstance))}
    (hsteps : steps o.events = waitSteps w id o.result) (ho : o = ⟨ev, some (r, s2)⟩) :
    steps ev = [.WaitBegin w id, .WaitEnd w id (errIsNil r)] := by
  subst ho
  exact hsteps

/-! ### What the entry points return when a remote call fails -/

theorem resourceIBMPIInstanceCreate_create_fails (client : IBMPIInstanceClient σ)
    (probes : Nat → Nat) (d : ResourceData) (m : ClientSession) (s s1 : σ) (e : Error)
    (hsess : m.IBMPISession = .ok ()) (hdata : checkBase64 d.PIInstanceUserData = none)
    (hcreate : client.Create (createBody d) d.PICloudInstanceId s = (.error e, s1)) :
    resourceIBMPIInstanceCreate client probes d m s =
      ⟨[.Create d.PICloudInstanceId (createBody d)],
        some ((some (.errorf "Failed to provision the instance"), d), s1)⟩ := by
  simp only [resourceIBMPIInstanceCreate, hsess, hdata, run_bind, create_apply, hcreate]
  rfl

theorem resourceIBMPIInstanceDelete_delete_fails (client : IBMPIInstanceClient σ)
    (probes : Nat → Nat) (d : ResourceData) (m : ClientSession) (id cloud : String)
    (rest : List String) (s s1 : σ) (e : Error)
    (hid : idParts d.Id = .ok (cloud :: id :: rest))
    (hdelete : client.Delete id cloud s = (some e, s1)) :
    resourceIBMPIInstanceDelete client probes d m s =
      ⟨[.Delete id cloud], some ((some e, d), s1)⟩ := by
  simp only [resourceIBMPIInstanceDelete, hid, run_bind, delete_apply, hdelete]
  rfl

/-- An update whose processor type block returns an error returns that error. -/
theorem resourceIBMPIInstanceUpdate_procType_error (client : IBMPIInstanceClient σ)
    (probes : Nat → Nat) (d : ResourceData) (m : ClientSession) (id cloud : String)
    (rest : List String) (s s' : σ) (e : Error)
    (hsess : m.IBMPISession = .ok ()) (hhealth : d.health_status ≠ "WARNING")
    (hid : idParts d.Id = .ok (cloud :: id :: rest))
    (hproctype : d.HasChange .PIInstanceProcType = true)
    (h : (updateProcType client probes d id cloud s).result = some (some e, s')) :
    resourceIBMPIInstanceUpdate client probes d m s =
      ⟨(updateProcType client probes d id cloud s).events, some ((some e, d), s')⟩ := by
  rw [resourceIBMPIInstanceUpdate_blocks client probes d m id cloud rest hsess hhealth hid]
  simp only [hproctype, if_true, run_bind]
  revert h
  rcases updateProcType client probes d id cloud s with ⟨ev, _ | ⟨_ | e0, s1⟩⟩
  · simp
  · simp
  · intro h
    simp only [Option.some.injEq, Prod.mk.injEq] at h
    obtain ⟨rfl, rfl⟩ := h
    simp [run_pure]

/-- An update without a processor type change whose resize block returns an
error returns that error. -/
theorem resourceIBMPIInstanceUpdate_resize_error (client : IBMPIInstanceClient σ)
    (probes : Nat → Nat) (d : ResourceData) (m : ClientSession) (id cloud : String)
    (rest : List String) (s s' : σ) (e : Error)
    (hsess : m.IBMPISession = .ok ()) (hhealth : d.health_status ≠ "WARNING")
    (hid : idParts d.Id = .ok (cloud :: id :: rest))
    (hproctype : d.HasChange .PIInstanceProcType = false)
    (hchanged : d.HasChange .PIInstanceMemory = true ∨ d.HasChange .PIInstanceProcessors = true)
    (h : (updateMemoryProcessors client probes d id cloud s).result = some (some e, s')) :
    resourceIBMPIInstanceUpdate client probes d m s =
      ⟨(updateMemoryProcessors client probes d id cloud s).events, some ((some e, d), s')⟩ := by
  rw [resourceIBMPIInstanceUpdate_blocks client probes d m id cloud rest hsess hhealth hid]
  simp only [hproctype, Bool.false_eq_true, if_false, run_bind, run_pure, List.nil_append]
  rw [if_pos hchanged]
  revert h
  rcases updateMemoryProcessors client probes d id cloud s with ⟨ev, _ | ⟨_ | e0, s1⟩⟩
  · simp
  · simp
  · intro h
    simp only [Option.some.injEq, Prod.mk.injEq] at h
    obtain ⟨rfl, rfl⟩ := h
    simp [run_pure]

theorem updateProcType_stop_fails (client : IBMPIInstanceClient σ) (probes : Nat → Nat)
    (d : ResourceData) (id cloud : String) (s s1 : σ) (e : Error)
    (hstatus : d.status ≠ "SHUTOFF")
    (h1 : client.Action id cloud "immediate-shutdown" s = (.error e, s1)) :
    updateProcType client probes d id cloud s =
      ⟨[.Action id cloud "immediate-shutdown"], some (some e, s1)⟩ := by
  unfold updateProcType
  simp only [if_neg hstatus]
  rw [run_bind, run_bind]
  simp only [action_apply, h1]
  rfl

theorem updateProcType_update_fails (client : IBMPIInstanceClient σ) (probes : Nat → Nat)
    (d : ResourceData) (id cloud : String) (s s1 : σ) (e : Error)
    (hstatus : d.status = "SHUTOFF")
    (h1 : client.Update id cloud { ProcType := d.PIInstanceProcType } s = (.error e, s1)) :
    updateProcType client probes d id cloud s =
      ⟨[.Update id cloud { ProcType := d.PIInstanceProcType }], some (some e, s1)⟩ := by
  unfold updateProcType
  simp only [if_pos hstatus, run_bind, run_pure, update_apply, h1]
  rfl

theorem updateProcType_start_fails (client : IBMPIInstanceClient σ) (probes : Nat → Nat)
    (d : ResourceData) (id cloud : String) (s s1 s2 s3 : σ) (e : Error)
    (resp : PVMInstanceUpdateResponse) (ev1 : List Event) (r1 : Option PVMInstance)
    (hstatus : d.status = "SHUTOFF")
    (h1 : client.Update id cloud { ProcType := d.PIInstanceProcType } s = (.ok resp, s1))
    (h2 : isWaitForPIInstanceStopped client probes id d.TimeoutUpdate cloud s1 =
      ⟨ev1, some (.ok r1, s2)⟩)
    (h3 : client.Action id cloud "start" s2 = (.error e, s3)) :
    updateProcType client probes d id cloud s =
      ⟨.Update id cloud { ProcType := d.PIInstanceProcType } :: ev1 ++
        [.Action id cloud "start"], some (some e, s3)⟩ := by
  unfold updateProcType
  simp only [if_pos hstatus, run_bind, run_pure, update_apply, action_apply, h1, h2, h3]
  simp

/-- The part of the processor type block after the optional stop returns the
errors of its calls and waits as they are. -/
theorem updateProcType_tail_error (client : IBMPIInstanceClient σ) (probes : Nat → Nat)
    (d : ResourceData) (id cloud : String) (s s' : σ) (e : Error) :
    ((do
      let updateresp ← client.update id cloud { ProcType := d.PIInstanceProcType }
      match updateresp with
      | .error err => pure (some err)
      | .ok _ =>
      let stopped ← isWaitForPIInstanceStopped client probes id d.TimeoutUpdate cloud
      match stopped with
      | .error err => pure (some err)
      | .ok _ =>
      let startresp ← client.action "start" id cloud
      match startresp with
      | .error err => pure (some err)
      | .ok _ =>
      let available ← isWaitForPIInstanceAvailable client probes id d.TimeoutUpdate cloud
      match available with
      | .error err => pure (some err)
      | .ok _ => pure none : Run σ (Option Error)) s).result = some (some e, s') →
    procTypeFailure client probes d id cloud e := by
  simp only [run_bind, action_apply, update_apply]
  rcases h1 : client.Update id cloud { ProcType := d.PIInstanceProcType } s with ⟨e1 | _, s1⟩
  · simp only [run_pure, Option.some.injEq, Prod.mk.injEq]
    rintro ⟨rfl, -⟩
    exact Or.inr (Or.inl ⟨s, by rw [h1]⟩)
  simp only [run_bind, action_apply, update_apply]
  rcases h2 : isWaitForPIInstanceStopped client probes id d.TimeoutUpdate cloud s1 with
    ⟨ev2, _ | ⟨e2 | _, s2⟩⟩
  · simp
  · simp only [run_pure, List.append_nil, Option.some.injEq, Prod.mk.injEq]
    rintro ⟨rfl, -⟩
    exact Or.inr (Or.inr (Or.inr (Or.inl ⟨s1, s2, by rw [h2]⟩)))
  simp only [run_bind, action_apply, update_apply]
  rcases h3 : client.Action id cloud "start" s2 with ⟨e3 | _, s3⟩
  · simp only [run_pure, Option.some.injEq, Prod.mk.injEq]
    rintro ⟨rfl, -⟩
    exact Or.inr (Or.inr (Or.inl ⟨s2, by rw [h3]⟩))
  simp only [run_bind, action_apply, update_apply]
  rcases h4 : isWaitForPIInstanceAvailable client probes id d.TimeoutUpdate cloud s3 with
    ⟨ev4, _ | ⟨e4 | _, s4⟩⟩
  · simp
  · simp only [run_pure, List.append_nil, Option.some.injEq, Prod.mk.injEq]
    rintro ⟨rfl, -⟩
    exact Or.inr (Or.inr (Or.inr (Or.inr ⟨s3, s4, by rw [h4]⟩)))
  · simp [run_pure]

/-- The processor type block returns the errors of its calls and waits as they are. -/
theorem updateProcType_error (client : IBMPIInstanceClient σ) (probes : Nat → Nat)
    (d : ResourceData) (id cloud : String) (s s' : σ) (e : Error)
    (h : (updateProcType client probes d id cloud s).result = some (some e, s')) :
    procTypeFailure client probes d id cloud e := by
  revert h
  unfold updateProcType
  by_cases hst : d.status = "SHUTOFF"
  · simp only [if_pos hst, run_bind, run_pure, List.nil_append]
    exact updateProcType_tail_error client probes d id cloud s s' e
  · simp only [if_neg hst]
    rw [run_bind, run_bind]
    simp only [action_apply]
    rcases h1 : client.Action id cloud "immediate-shutdown" s with ⟨e1 | _, s1⟩
    · simp only [run_pure, List.append_nil, Option.some.injEq, Prod.mk.injEq]
      rintro ⟨rfl, -⟩
      exact Or.inl ⟨s, by rw [h1]⟩
    simp only [run_bind]
    rcases h2 : isWaitForPIInstanceStopped client probes id d.TimeoutUpdate cloud s1 with
      ⟨ev1, _ | ⟨e2 | _, s2⟩⟩
    · simp
    · simp only [run_pure, List.append_nil, Option.some.injEq, Prod.mk.injEq]
      rintro ⟨rfl, -⟩
      exact Or.inr (Or.inr (Or.inr (Or.inl ⟨s1, s2, by rw [h2]⟩)))
    simp only [run_pure, List.append_nil]
    exact updateProcType_tail_error client probes d id cloud s2 s' e

theorem updateMemoryProcessors_update_fails (client : IBMPIInstanceClient σ)
    (probes : Nat → Nat) (d : ResourceData) (id cloud id0 cloud0 : String) (rest : List String)
    (s s1 : σ) (e : Error)
    (hid : idParts d.Id = .ok (cloud :: id :: rest))
    (hfit : ¬ (d.PIInstanceMemory > d.max_memory ∨ d.PIInstanceProcessors > d.max_processors))
    (h1 : client.Update id cloud
      { Memory := d.PIInstanceMemory, ProcType := d.PIInstanceProcType,
        Processors := d.PIInstanceProcessors, ServerName := d.PIInstanceName } s =
      (.error e, s1)) :
    updateMemoryProcessors client probes d id0 cloud0 s =
      ⟨[.Update id cloud
          { Memory := d.PIInstanceMemory, ProcType := d.PIInstanceProcType,
            Processors := d.PIInstanceProcessors, ServerName := d.PIInstanceName }],
        some (some (.errorf "Failed to update the lpar with the change"), s1)⟩ := by
  simp only [updateMemoryProcessors, if_neg hfit, hid, run_bind, update_apply, h1]
  rfl

theorem updateMemoryProcessors_reboot_fails (client : IBMPIInstanceClient σ)
    (probes : Nat → Nat) (d : ResourceData) (id cloud : String) (s s' : σ) (e : Error)
    (hbig : d.PIInstanceMemory > d.max_memory ∨ d.PIInstanceProcessors > d.max_processors)
    (h : (performChangeAndReboot client probes id cloud d.PIInstanceMemory
      d.PIInstanceProcessors s).result = some (some e, s')) :
    updateMemoryProcessors client probes d id cloud s =
      ⟨(performChangeAndReboot client probes id cloud d.PIInstanceMemory
          d.PIInstanceProcessors s).events,
        some (some (.errorf "Failed to perform the operation for the change"), s')⟩ := by
  revert h
  simp only [updateMemoryProcessors, if_pos hbig, run_bind]
  rcases performChangeAndReboot client probes id cloud d.PIInstanceMemory
    d.PIInstanceProcessors s with ⟨ev, _ | ⟨_ | e0, s1⟩⟩
  · simp
  · simp
  · intro h
    simp only [Option.some.injEq, Prod.mk.injEq] at h
    obtain ⟨-, rfl⟩ := h
    simp [run_pure]

/-- A poll that ends successfully ends on a probe that returned a label of the
target list with a nil error. -/
theorem poll_ok (conf : StateChangeConf σ) (n : Nat) (s s' : σ) (res : Option PVMInstance)
    (h : ((conf.poll n) s).result = some (.ok res, s')) :
    ∃ s0 ev label, conf.Refresh s0 = ⟨ev, some ((res, label, none), s')⟩ ∧
      label ∈ conf.Target := by
  induction n generalizing s with
  | zero => simp [StateChangeConf.poll, run_pure] at h
  | succ n ih =>
    revert h
    simp only [StateChangeConf.poll, run_bind]
    rcases hx : conf.Refresh s with ⟨ev, _ | ⟨⟨res0, label, _ | e0⟩, s1⟩⟩
    · simp
    · simp only
      split_ifs with ht hp
      · simp only [run_pure, Option.some.injEq, Prod.mk.injEq, Except.ok.injEq]
        rintro ⟨rfl, rfl⟩
        exact ⟨s, ev, label, hx, ht⟩
      · exact ih s1
      · simp [run_pure]
    · simp [run_pure]

theorem shutoffAndHealthOk_true (pvm : PVMInstance) (h : shutoffAndHealthOk pvm = some true) :
    pvm.Status = "SHUTOFF" ∧ pvm.Health = some ⟨"OK"⟩ := by
  unfold shutoffAndHealthOk at h
  by_cases hst : pvm.Status = "SHUTOFF"
  · rw [if_pos hst] at h
    rcases hh : pvm.Health with _ | ⟨⟨status⟩⟩
    · rw [hh] at h; simp at h
    · rw [hh] at h
      simp only [helpers.PIInstanceHealthOk, Option.some.injEq, decide_eq_true_eq] at h
      exact ⟨hst, by rw [h]⟩
  · rw [if_neg hst] at h
    simp at h

/-- The stopped wait ends successfully only on a probe that fetched a snapshot
with status SHUTOFF and health OK. -/
theorem isWaitForPIInstanceStopped_ok (client : IBMPIInstanceClient σ) (probes : Nat → Nat)
    (id : String) (t : Nat) (cloud : String) (s s' : σ) (res : Option PVMInstance)
    (h : (isWaitForPIInstanceStopped client probes id t cloud s).result = some (.ok res, s')) :
    ∃ s0 pvm, client.Get id cloud s0 = (.ok pvm, s') ∧ res = some pvm ∧
      pvm.Status = "SHUTOFF" ∧ pvm.Health = some ⟨"OK"⟩ := by
  rw [isWaitForPIInstanceStopped, wait_result] at h
  obtain ⟨s0, ev, label, hr, ht⟩ := poll_ok (stoppedStateConf client id cloud) _ s s' res h
  have hr' : isPIInstanceRefreshFuncOff client id cloud s0 =
      ⟨ev, some ((res, label, none), s')⟩ := hr
  have ht' : label ∈ ["OK", "SHUTOFF"] := ht
  rcases hget : client.Get id cloud s0 with ⟨e | pvm, s1⟩
  · rw [isPIInstanceRefreshFuncOff_error client id cloud s0 s1 e hget] at hr'
    simp at hr'
  · rw [isPIInstanceRefreshFuncOff_ok client id cloud s0 s1 pvm hget] at hr'
    rcases hsh : shutoffAndHealthOk pvm with _ | _ | _
    · rw [hsh] at hr'; simp at hr'
    · rw [hsh] at hr'
      simp only [Outcome.mk.injEq, Option.some.injEq, Prod.mk.injEq] at hr'
      obtain ⟨-, ⟨-, hl, -⟩, -⟩ := hr'
      subst hl
      simp at ht'
    · rw [hsh] at hr'
      simp only [Outcome.mk.injEq, Option.some.injEq, Prod.mk.injEq] at hr'
      obtain ⟨-, ⟨hres, -, -⟩, hs⟩ := hr'
      subst hs
      exact ⟨s0, pvm, hget, hres.symm, shutoffAndHealthOk_true pvm hsh⟩

/-- The available wait, in terms of its poll: the begin marker, the events of
the poll, the end marker, and the result of the poll. -/
theorem isWaitForPIInstanceAvailable_of_poll (client : IBMPIInstanceClient σ)
    (probes : Nat → Nat) (id : String) (t : Nat) (cloud : String) (s s1 : σ)
    (ev : List Event) (r : Except Error (Option PVMInstance))
    (h : (availableStateConf client id cloud).poll (probes (60 * 60)) s = ⟨ev, some (r, s1)⟩) :
    isWaitForPIInstanceAvailable client probes id t cloud s =
      ⟨.WaitBegin .Available id :: ev ++ [.WaitEnd .Available id (errIsNil r)],
        some (r, s1)⟩ := by
  have ht : (availableStateConf client id cloud).Timeout = 60 * 60 := rfl
  simp only [isWaitForPIInstanceAvailable, run_bind, run_emit, StateChangeConf.WaitForState,
    ht, h]
  simp [run_pure]

/-- The in-place resize whose update call was accepted: the update call, then
the available wait, whose error, if any, is returned. -/
theorem updateMemoryProcessors_update_ok (client : IBMPIInstanceClient σ)
    (probes : Nat → Nat) (d : ResourceData) (id cloud id0 cloud0 : String) (rest : List String)
    (s s1 s2 : σ) (resp : PVMInstanceUpdateResponse) (ev : List Event)
    (r : Except Error (Option PVMInstance))
    (hid : idParts d.Id = .ok (cloud :: id :: rest))
    (hfit : ¬ (d.PIInstanceMemory > d.max_memory ∨ d.PIInstanceProcessors > d.max_processors))
    (h1 : client.Update id cloud
      { Memory := d.PIInstanceMemory, ProcType := d.PIInstanceProcType,
        Processors := d.PIInstanceProcessors, ServerName := d.PIInstanceName } s =
      (.ok resp, s1))
    (h2 : isWaitForPIInstanceAvailable client probes id d.TimeoutUpdate cloud s1 =
      ⟨ev, some (r, s2)⟩) :
    updateMemoryProcessors client probes d id0 cloud0 s =
      ⟨.Update id cloud
          { Memory := d.PIInstanceMemory, ProcType := d.PIInstanceProcType,
            Processors := d.PIInstanceProcessors, ServerName := d.PIInstanceName } :: ev,
        some ((match r with
          | .error err => some err
          | .ok _ => none), s2)⟩ := by
  simp only [updateMemoryProcessors, if_neg hfit, hid, run_bind, update_apply, h1, h2]
  cases r <;> simp [run_pure]
/-! ## The claims -/

/-- C1. A resize within the ceilings (memory or processors changed, processor
type unchanged, health not WARNING, session obtained, id parsed): the update
entry point issues exactly one `Update` call, whose body carries server name,
processor type, memory and processors, issues no `Action` call, and the only
wait it runs, after the update call, is the available wait. When the update
call fails nothing follows it; when it is accepted the available wait always
runs right after it, polls the instance, and its end marker tells how the poll
ended; the read follows only a wait that succeeded. -/
theorem C1_resize_within_ceilings (client : IBMPIInstanceClient σ) (probes : Nat → Nat)
    (d : ResourceData) (m : ClientSession) (id cloud : String) (rest : List String) (s : σ)
    (hsess : m.IBMPISession = .ok ()) (hhealth : d.health_status ≠ "WARNING")
    (hid : idParts d.Id = .ok (cloud :: id :: rest))
    (hproctype : d.HasChange .PIInstanceProcType = false)
    (hchanged : d.HasChange .PIInstanceMemory = true ∨ d.HasChange .PIInstanceProcessors = true)
    (hmem : d.PIInstanceMemory ≤ d.max_memory)
    (hprocs : d.PIInstanceProcessors ≤ d.max_processors) :
    (steps (resourceIBMPIInstanceUpdate client probes d m s).events =
        [.Update id cloud
          { Memory := d.PIInstanceMemory, ProcType := d.PIInstanceProcType,
            Processors := d.PIInstanceProcessors, ServerName := d.PIInstanceName }] ∨
      ∃ ok, steps (resourceIBMPIInstanceUpdate client probes d m s).events =
        [.Update id cloud
          { Memory := d.PIInstanceMemory, ProcType := d.PIInstanceProcType,
            Processors := d.PIInstanceProcessors, ServerName := d.PIInstanceName },
         .WaitBegin .Available id, .WaitEnd .Available id ok]) ∧
    (resourceIBMPIInstanceUpdate client probes d m s).events.filter Event.isUpdate =
      [.Update id cloud
        { Memory := d.PIInstanceMemory, ProcType := d.PIInstanceProcType,
          Processors := d.PIInstanceProcessors, ServerName := d.PIInstanceName }] ∧
    (resourceIBMPIInstanceUpdate client probes d m s).events.filter Event.isAction = [] ∧
    (∀ e s1,
      client.Update id cloud
        { Memory := d.PIInstanceMemory, ProcType := d.PIInstanceProcType,
          Processors := d.PIInstanceProcessors, ServerName := d.PIInstanceName } s =
        (.error e, s1) →
      resourceIBMPIInstanceUpdate client probes d m s =
        ⟨[.Update id cloud
            { Memory := d.PIInstanceMemory, ProcType := d.PIInstanceProcType,
              Processors := d.PIInstanceProcessors, ServerName := d.PIInstanceName }],
          some ((some (.errorf "Failed to update the lpar with the change"), d), s1)⟩) ∧
    (∀ resp s1,
      client.Update id cloud
        { Memory := d.PIInstanceMemory, ProcType := d.PIInstanceProcType,
          Processors := d.PIInstanceProcessors, ServerName := d.PIInstanceName } s =
        (.ok resp, s1) →
      ∃ ev r s2,
        (availableStateConf client id cloud).poll (probes (60 * 60)) s1 = ⟨ev, some (r, s2)⟩ ∧
        (resourceIBMPIInstanceUpdate client probes d m s).events =
          .Update id cloud
            { Memory := d.PIInstanceMemory, ProcType := d.PIInstanceProcType,
              Processors := d.PIInstanceProcessors, ServerName := d.PIInstanceName } ::
          .WaitBegin .Available id :: ev ++
          .WaitEnd .Available id (errIsNil r) ::
          (match r with
           | .error _ => []
           | .ok _ => (resourceIBMPIInstanceRead client d m s2).events) ∧
        steps (resourceIBMPIInstanceUpdate client probes d m s).events =
          [.Update id cloud
            { Memory := d.PIInstanceMemory, ProcType := d.PIInstanceProcType,
              Processors := d.PIInstanceProcessors, ServerName := d.PIInstanceName },
           .WaitBegin .Available id, .WaitEnd .Available id (errIsNil r)] ∧
        (resourceIBMPIInstanceUpdate client probes d m s).result =
          (match r with
           | .error err => some ((some err, d), s2)
           | .ok _ => (resourceIBMPIInstanceRead client d m s2).result)) := by
  have hfit : ¬ (d.PIInstanceMemory > d.max_memory ∨ d.PIInstanceProcessors > d.max_processors) := by
    rintro (h | h)
    · exact absurd hmem (not_le.mpr h)
    · exact absurd hprocs (not_le.mpr h)
  have hrun : resourceIBMPIInstanceUpdate client probes d m s =
      ((updateMemoryProcessors client probes d id cloud >>= fun err =>
        match err with
        | some err => pure (some err, d)
        | none => resourceIBMPIInstanceRead client d m :
          Run σ (Option Error × ResourceData)) s) := by
    rw [resourceIBMPIInstanceUpdate_blocks client probes d m id cloud rest hsess hhealth hid]
    simp only [hproctype, Bool.false_eq_true, if_false, run_bind, run_pure, List.nil_append]
    rw [if_pos hchanged]
  have hfail : ∀ e s1,
      client.Update id cloud
        { Memory := d.PIInstanceMemory, ProcType := d.PIInstanceProcType,
          Processors := d.PIInstanceProcessors, ServerName := d.PIInstanceName } s =
        (.error e, s1) →
      resourceIBMPIInstanceUpdate client probes d m s =
        ⟨[.Update id cloud
            { Memory := d.PIInstanceMemory, ProcType := d.PIInstanceProcType,
              Processors := d.PIInstanceProcessors, ServerName := d.PIInstanceName }],
          some ((some (.errorf "Failed to update the lpar with the change"), d), s1)⟩ := by
    intro e s1 h1
    rw [hrun, run_bind, updateMemoryProcessors_update_fails client probes d id cloud id cloud
      rest s s1 e hid hfit h1]
    rfl
  have hok : ∀ resp s1,
      client.Update id cloud
        { Memory := d.PIInstanceMemory, ProcType := d.PIInstanceProcType,
          Processors := d.PIInstanceProcessors, ServerName := d.PIInstanceName } s =
        (.ok resp, s1) →
      ∃ ev r s2,
        (availableStateConf client id cloud).poll (probes (60 * 60)) s1 = ⟨ev, some (r, s2)⟩ ∧
        (resourceIBMPIInstanceUpdate client probes d m s).events =
          .Update id cloud
            { Memory := d.PIInstanceMemory, ProcType := d.PIInstanceProcType,
              Processors := d.PIInstanceProcessors, ServerName := d.PIInstanceName } ::
          .WaitBegin .Available id :: ev ++
          .WaitEnd .Available id (errIsNil r) ::
          (match r with
           | .error _ => []
           | .ok _ => (resourceIBMPIInstanceRead client d m s2).events) ∧
        steps (resourceIBMPIInstanceUpdate client probes d m s).events =
          [.Update id cloud
            { Memory := d.PIInstanceMemory, ProcType := d.PIInstanceProcType,
              Processors := d.PIInstanceProcessors, ServerName := d.PIInstanceName },
           .WaitBegin .Available id, .WaitEnd .Available id (errIsNil r)] ∧
        (resourceIBMPIInstanceUpdate client probes d m s).result =
          (match r with
           | .error err => some ((some err, d), s2)
           | .ok _ => (resourceIBMPIInstanceRead client d m s2).result) := by
    intro resp s1 h1
    obtain ⟨r, s2, hres⟩ := poll_noPanic (availableStateConf client id cloud)
      (isPIInstanceRefreshFunc_noPanic client id cloud) (probes (60 * 60)) s1
    have hro := poll_readOnly (availableStateConf client id cloud)
      (isPIInstanceRefreshFunc_readOnly client id cloud) (probes (60 * 60)) s1
    generalize hpoll : (availableStateConf client id cloud).poll (probes (60 * 60)) s1 = o
      at hres hro
    rcases o with ⟨ev, res⟩
    simp only at hres hro
    subst hres
    have hwait := isWaitForPIInstanceAvailable_of_poll client probes id d.TimeoutUpdate cloud
      s1 s2 ev r hpoll
    have hblock := updateMemoryProcessors_update_ok client probes d id cloud id cloud rest s s1
      s2 resp _ r hid hfit h1 hwait
    have hread := resourceIBMPIInstanceRead_readOnly client d m s2
    refine ⟨ev, r, s2, rfl, ?_⟩
    rw [hrun, run_bind, hblock]
    cases r with
    | error err =>
      refine ⟨by simp [run_pure], ?_, by simp [run_pure]⟩
      simp [run_pure, steps_append, steps_cons, steps_nil, Event.isGet, hro, errIsNil]
    | ok res =>
      refine ⟨by simp, ?_, by simp⟩
      simp [steps_append, steps_cons, steps_nil, Event.isGet, hro, hread, errIsNil]
  have key : steps (resourceIBMPIInstanceUpdate client probes d m s).events =
        (expectedInPlaceSteps d id cloud true).take 1 ∨
      ∃ ok, steps (resourceIBMPIInstanceUpdate client probes d m s).events =
        expectedInPlaceSteps d id cloud ok := by
    rcases hupd : client.Update id cloud
        { Memory := d.PIInstanceMemory, ProcType := d.PIInstanceProcType,
          Processors := d.PIInstanceProcessors, ServerName := d.PIInstanceName } s with
      ⟨e | resp, s1⟩
    · left
      rw [hfail e s1 hupd]
      rfl
    · right
      obtain ⟨ev, r, s2, -, -, hsteps, -⟩ := hok resp s1 hupd
      exact ⟨errIsNil r, hsteps⟩
  refine ⟨by simpa [expectedInPlaceSteps] using key, ?_, ?_, hfail, hok⟩
  · rw [← filter_steps Event.isUpdate (by intro e; cases e <;> simp [Event.isUpdate, Event.isGet])]
    rcases key with h | ⟨ok, h⟩ <;> rw [h] <;> rfl
  · rw [← filter_steps Event.isAction (by intro e; cases e <;> simp [Event.isAction, Event.isGet])]
    rcases key with h | ⟨ok, h⟩ <;> rw [h] <;> rfl

theorem C1_resize_within_ceilings_witness :
    resourceIBMPIInstanceUpdate scripted (fun _ => 3) resizedWithin session
        [snapshot "vm1" "BUILD" "OK", snapshot "vm1" "ACTIVE" "OK",
         snapshot "vm1" "ACTIVE" "OK"] =
      ⟨[.Update "vm1" "cloud1"
          { Memory := 4, ProcType := "shared", Processors := 2, ServerName := "lpar" },
        .WaitBegin .Available "vm1", .Get "vm1" "cloud1", .Get "vm1" "cloud1",
        .WaitEnd .Available "vm1" true, .Get "vm1" "cloud1"],
       some ((none, setFromSnapshot resizedWithin "cloud1" (snapshot "vm1" "ACTIVE" "OK")),
         [])⟩ ∧
    (resourceIBMPIInstanceUpdate scripted (fun _ => 3) resizedWithin session
        [snapshot "vm1" "BUILD" "OK", snapshot "vm1" "ACTIVE" "OK",
         snapshot "vm1" "ACTIVE" "OK"]).events.filter Event.isUpdate =
      [.Update "vm1" "cloud1"
        { Memory := 4, ProcType := "shared", Processors := 2, ServerName := "lpar" }] ∧
    (resourceIBMPIInstanceUpdate scripted (fun _ => 3) resizedWithin session
        [snapshot "vm1" "BUILD" "OK", snapshot "vm1" "ACTIVE" "OK",
         snapshot "vm1" "ACTIVE" "OK"]).events.filter Event.isAction = [] :=
  ⟨rfl,
   (C1_resize_within_ceilings scripted (fun _ => 3) resizedWithin session "vm1" "cloud1" []
    [snapshot "vm1" "BUILD" "OK", snapshot "vm1" "ACTIVE" "OK", snapshot "vm1" "ACTIVE" "OK"]
    (by decide) (by decide) (by decide) (by decide) (by decide) (by decide) (by decide)).2.1,
   (C1_resize_within_ceilings scripted (fun _ => 3) resizedWithin session "vm1" "cloud1" []
    [snapshot "vm1" "BUILD" "OK", snapshot "vm1" "ACTIVE" "OK", snapshot "vm1" "ACTIVE" "OK"]
    (by decide) (by decide) (by decide) (by decide) (by decide) (by decide) (by decide)).2.2.1⟩

/-- C2. A resize above a ceiling in which every remote call and wait succeeds
(session obtained, health not WARNING, id parsed): after the steps of the
processor type change, if that changed too, the update entry point runs
`performChangeAndReboot`, whose steps are exactly one stop action, the stopped
wait ending in success, one `Update` call carrying the new memory and
processors, the post-resize wait ending in success, one start action, and the
available wait ending in success, in that order; and every run of
`performChangeAndReboot` that returns no error has exactly these steps. -/
theorem C2_resize_above_ceiling (client : IBMPIInstanceClient σ) (probes : Nat → Nat)
    (d d' : ResourceData) (m : ClientSession) (id cloud : String) (rest : List String) (s s' : σ)
    (hsess : m.IBMPISession = .ok ()) (hhealth : d.health_status ≠ "WARNING")
    (hid : idParts d.Id = .ok (cloud :: id :: rest))
    (hchanged : d.HasChange .PIInstanceMemory = true ∨ d.HasChange .PIInstanceProcessors = true)
    (habove : d.PIInstanceMemory > d.max_memory ∨ d.PIInstanceProcessors > d.max_processors)
    (hok : (resourceIBMPIInstanceUpdate client probes d m s).result = some ((none, d'), s')) :
    steps (resourceIBMPIInstanceUpdate client probes d m s).events =
      (if d.HasChange .PIInstanceProcType then expectedProcTypeSteps d id cloud else []) ++
      [.Action id cloud "immediate-shutdown",
       .WaitBegin .Stopped id, .WaitEnd .Stopped id true,
       .Update id cloud { Memory := d.PIInstanceMemory, Processors := d.PIInstanceProcessors },
       .WaitBegin .Update id, .WaitEnd .Update id true,
       .Action id cloud "start",
       .WaitBegin .Available id, .WaitEnd .Available id true] ∧
    ∀ s0 s1, (performChangeAndReboot client probes id cloud d.PIInstanceMemory
        d.PIInstanceProcessors s0).result = some (none, s1) →
      steps (performChangeAndReboot client probes id cloud d.PIInstanceMemory
        d.PIInstanceProcessors s0).events =
      [.Action id cloud "immediate-shutdown",
       .WaitBegin .Stopped id, .WaitEnd .Stopped id true,
       .Update id cloud { Memory := d.PIInstanceMemory, Processors := d.PIInstanceProcessors },
       .WaitBegin .Update id, .WaitEnd .Update id true,
       .Action id cloud "start",
       .WaitBegin .Available id, .WaitEnd .Available id true] := by
  constructor
  · rw [resourceIBMPIInstanceUpdate_success client probes d d' m id cloud rest s s' hsess hhealth
      hid hok, if_pos hchanged, expectedResizeSteps, if_pos habove]
    rfl
  · intro s0 s1 h
    exact performChangeAndReboot_success client probes id cloud _ _ s0 s1 h

theorem C2_resize_above_ceiling_witness :
    steps (resourceIBMPIInstanceUpdate scripted (fun _ => 3) resizedAbove session
        [snapshot "vm1" "ACTIVE" "OK", snapshot "vm1" "SHUTOFF" "OK", snapshot "vm1" "RESIZE" "OK",
         snapshot "vm1" "SHUTOFF" "OK", snapshot "vm1" "ACTIVE" "OK",
         snapshot "vm1" "ACTIVE" "OK"]).events =
      [.Action "vm1" "cloud1" "immediate-shutdown",
       .WaitBegin .Stopped "vm1", .WaitEnd .Stopped "vm1" true,
       .Update "vm1" "cloud1" { Memory := 16, Processors := 2 },
       .WaitBegin .Update "vm1", .WaitEnd .Update "vm1" true,
       .Action "vm1" "cloud1" "start",
       .WaitBegin .Available "vm1", .WaitEnd .Available "vm1" true] :=
  (C2_resize_above_ceiling scripted (fun _ => 3) resizedAbove
    (setFromSnapshot resizedAbove "cloud1" (snapshot "vm1" "ACTIVE" "OK")) session "vm1" "cloud1" []
    [snapshot "vm1" "ACTIVE" "OK", snapshot "vm1" "SHUTOFF" "OK", snapshot "vm1" "RESIZE" "OK",
     snapshot "vm1" "SHUTOFF" "OK", snapshot "vm1" "ACTIVE" "OK", snapshot "vm1" "ACTIVE" "OK"] []
    (by decide) (by decide) (by decide) (by decide) (by decide) (by decide)).1

/-- C3, amended. The stopped-after-resize wait does not end successfully on
an instance whose status is ACTIVE: for every snapshot with status ACTIVE the
probe returns the label RESIZE, which is in the pending list of the wait and
not in its target list; the probe returns a label of the target list only for
a snapshot with status SHUTOFF and health OK; and against a remote that
answers every `Get` with an ACTIVE instance the wait ends in the timeout. -/
theorem C3_wait_after_resize_on_active (client : IBMPIInstanceClient σ) (probes : Nat → Nat)
    (id cloud : String) (t : Nat) :
    (∀ s s1 pvm, client.Get id cloud s = (.ok pvm, s1) → pvm.Status = "ACTIVE" →
      isPIInstanceShutAfterResourceChange client id cloud s =
        ⟨[.Get id cloud], some ((some pvm, "RESIZE", none), s1)⟩) ∧
    "RESIZE" ∈ (updateStateConf client id cloud).Pending ∧
    "RESIZE" ∉ (updateStateConf client id cloud).Target ∧
    (∀ s s1 pvm res label err s2, client.Get id cloud s = (.ok pvm, s1) →
      (isPIInstanceShutAfterResourceChange client id cloud s).result =
        some ((res, label, err), s2) →
      (label ∈ (updateStateConf client id cloud).Target ↔
        pvm.Status = "SHUTOFF" ∧ pvm.Health = some ⟨"OK"⟩)) ∧
    ((∀ s, ∃ pvm, (client.Get id cloud s).1 = .ok pvm ∧ pvm.Status = "ACTIVE") →
      ∀ s, ∃ s', (isWaitforPIInstanceUpdate client probes id t cloud s).result =
        some (.error (.timeout (updateStateConf client id cloud).Target), s')) := by
  have hactive : ∀ s s1 pvm, client.Get id cloud s = (.ok pvm, s1) → pvm.Status = "ACTIVE" →
      isPIInstanceShutAfterResourceChange client id cloud s =
        ⟨[.Get id cloud], some ((some pvm, "RESIZE", none), s1)⟩ := by
    intro s s1 pvm hget hst
    rw [isPIInstanceShutAfterResourceChange_ok client id cloud s s1 pvm hget]
    have : shutoffAndHealthOk pvm = some false := by
      simp [shutoffAndHealthOk, hst]
    rw [this]
  have hpend : "RESIZE" ∈ (updateStateConf client id cloud).Pending := by
    show "RESIZE" ∈ ["RESIZE", "VERIFY_RESIZE"]
    decide
  have htarget : "RESIZE" ∉ (updateStateConf client id cloud).Target := by
    show "RESIZE" ∉ ["ACTIVE", "SHUTOFF", "OK"]
    decide
  refine ⟨hactive, hpend, htarget, ?_, ?_⟩
  · intro s s1 pvm res label err s2 hget
    rw [isPIInstanceShutAfterResourceChange_ok client id cloud s s1 pvm hget]
    rcases pvm with ⟨pid, name, status, health⟩
    simp only [shutoffAndHealthOk, updateStateConf, helpers.PIInstanceHealthOk]
    by_cases hst : status = "SHUTOFF"
    · rcases health with _ | ⟨⟨h⟩⟩
      · simp [hst]
      · by_cases hh : h = "OK"
        · simp only [hst, hh, if_true, decide_True]
          intro heq
          simp only [Option.some.injEq, Prod.mk.injEq] at heq
          obtain ⟨⟨-, rfl, -⟩, -⟩ := heq
          simp
        · simp only [hst, if_true, hh, decide_False]
          intro heq
          simp only [Option.some.injEq, Prod.mk.injEq] at heq
          obtain ⟨⟨-, rfl, -⟩, -⟩ := heq
          simp [hh]
    · simp only [if_neg hst]
      intro heq
      simp only [Option.some.injEq, Prod.mk.injEq] at heq
      obtain ⟨⟨-, rfl, -⟩, -⟩ := heq
      simp [hst]
  · intro hall s
    have hp := poll_pending (updateStateConf client id cloud) (by
      intro s0
      obtain ⟨pvm, hget, hst⟩ := hall s0
      refine ⟨_, _, _, _, hactive s0 (client.Get id cloud s0).2 pvm ?_ hst, htarget, hpend⟩
      rw [← hget])
      (probes (updateStateConf client id cloud).Timeout) s
    obtain ⟨s', hs'⟩ := hp
    refine ⟨s', ?_⟩
    simp only [isWaitforPIInstanceUpdate, run_bind, run_emit, StateChangeConf.WaitForState]
    revert hs'
    rcases (updateStateConf client id cloud).poll
      (probes (updateStateConf client id cloud).Timeout) s with ⟨ev, _ | ⟨r, s2⟩⟩
    · simp
    · intro h
      simp only [Option.some.injEq, Prod.mk.injEq] at h
      obtain ⟨rfl, rfl⟩ := h
      rfl

theorem C3_wait_after_resize_on_active_witness :
    isPIInstanceShutAfterResourceChange (steady (snapshot "vm1" "ACTIVE" "OK")) "vm1" "cloud1" 0 =
      ⟨[.Get "vm1" "cloud1"], some ((some (snapshot "vm1" "ACTIVE" "OK"), "RESIZE", none), 1)⟩ ∧
    ∃ s', (isWaitforPIInstanceUpdate (steady (snapshot "vm1" "ACTIVE" "OK")) (fun _ => 4)
        "vm1" 30 "cloud1" 0).result =
      some (.error (.timeout
        (updateStateConf (steady (snapshot "vm1" "ACTIVE" "OK")) "vm1" "cloud1").Target), s') :=
  ⟨(C3_wait_after_resize_on_active (steady (snapshot "vm1" "ACTIVE" "OK")) (fun _ => 4)
      "vm1" "cloud1" 30).1 0 1 (snapshot "vm1" "ACTIVE" "OK") (by decide) (by decide),
   (C3_wait_after_resize_on_active (steady (snapshot "vm1" "ACTIVE" "OK")) (fun _ => 4)
      "vm1" "cloud1" 30).2.2.2.2 (fun _ => ⟨snapshot "vm1" "ACTIVE" "OK", rfl, by decide⟩) 0⟩

/-- C3, as stated, fails: on a snapshot with status ACTIVE (health OK) the
probe of the stopped-after-resize wait returns RESIZE, which is not in the
target list of the wait but in its pending list, and the wait against a remote
that reports ACTIVE at every probe ends in the timeout after all its probes. -/
theorem C3_counterexample :
    (isPIInstanceShutAfterResourceChange (steady (snapshot "vm1" "ACTIVE" "OK"))
        "vm1" "cloud1" 0).result =
      some ((some (snapshot "vm1" "ACTIVE" "OK"), "RESIZE", none), 1) ∧
    ¬ ("RESIZE" ∈ (updateStateConf (steady (snapshot "vm1" "ACTIVE" "OK")) "vm1" "cloud1").Target ∧
       "RESIZE" ∉ (updateStateConf (steady (snapshot "vm1" "ACTIVE" "OK")) "vm1" "cloud1").Pending) ∧
    isWaitforPIInstanceUpdate (steady (snapshot "vm1" "ACTIVE" "OK")) (fun _ => 3)
        "vm1" 30 "cloud1" 0 =
      ⟨[.WaitBegin .Update "vm1", .Get "vm1" "cloud1", .Get "vm1" "cloud1", .Get "vm1" "cloud1",
        .WaitEnd .Update "vm1" false],
       some (.error (.timeout ["ACTIVE", "SHUTOFF", "OK"]), 3)⟩ := by
  refine ⟨by decide, ?_, ?_⟩
  · show ¬ ("RESIZE" ∈ ["ACTIVE", "SHUTOFF", "OK"] ∧ "RESIZE" ∉ ["RESIZE", "VERIFY_RESIZE"])
    decide
  · rfl

/-- C4, evaluated: on a snapshot with status ACTIVE and health WARNING the
probe of the available wait returns the label ACTIVE, which is in the target
list, and the wait ends successfully at its first probe. -/
theorem C4_available_ignores_health :
    (isPIInstanceRefreshFunc (steady (snapshot "vm1" "ACTIVE" "WARNING")) "vm1" "cloud1" 0).result =
      some ((some (snapshot "vm1" "ACTIVE" "WARNING"), "ACTIVE", none), 1) ∧
    "ACTIVE" ∈ (availableStateConf (steady (snapshot "vm1" "ACTIVE" "WARNING")) "vm1" "cloud1").Target ∧
    isWaitForPIInstanceAvailable (steady (snapshot "vm1" "ACTIVE" "WARNING")) (fun _ => 3)
        "vm1" 30 "cloud1" 0 =
      ⟨[.WaitBegin .Available "vm1", .Get "vm1" "cloud1", .WaitEnd .Available "vm1" true],
       some (.ok (some (snapshot "vm1" "ACTIVE" "WARNING")), 1)⟩ := by
  refine ⟨by decide, ?_, rfl⟩
  show "ACTIVE" ∈ ["OK", "ACTIVE", "OK"]
  decide

/-- C5, evaluated: against a remote on which the instance is still found, in
state DELETING, at every `Get`, the delete entry point issues the delete call,
probes once, takes the found instance for deleted, clears the id and returns
no error. -/
theorem C5_delete_unconfirmed :
    (steady (snapshot "vm1" "DELETING" "OK")).Get "vm1" "cloud1" 1 =
      (.ok (snapshot "vm1" "DELETING" "OK"), 2) ∧
    resourceIBMPIInstanceDelete (steady (snapshot "vm1" "DELETING" "OK")) (fun _ => 3)
        resizedWithin session 0 =
      ⟨[.Delete "vm1" "cloud1", .WaitBegin .Deleted "vm1", .Get "vm1" "cloud1",
        .WaitEnd .Deleted "vm1" true],
       some ((none, { resizedWithin with Id := "" }), 2)⟩ := by
  exact ⟨rfl, rfl⟩

/-- C6, amended. For each of the available, stopped-before-modify and
stopped-after-resize waits, whenever the `Get` of the probe succeeds the label
the probe returns is in the pending or the target list of the wait (a snapshot
outside the target condition yields the pending label BUILD, STOPPING or
RESIZE); so the wait never fails with an unexpected-state error of its own:
an error it returns is the timeout or the error of a failed `Get`. -/
theorem C6_labels_always_expected (client : IBMPIInstanceClient σ) (probes : Nat → Nat)
    (id cloud : String) (t : Nat) :
    (∀ s res label s1,
      (isPIInstanceRefreshFunc client id cloud s).result = some ((res, label, none), s1) →
      label ∈ (availableStateConf client id cloud).Pending ∨
      label ∈ (availableStateConf client id cloud).Target) ∧
    (∀ s res label s1,
      (isPIInstanceRefreshFuncOff client id cloud s).result = some ((res, label, none), s1) →
      label ∈ (stoppedStateConf client id cloud).Pending ∨
      label ∈ (stoppedStateConf client id cloud).Target) ∧
    (∀ s res label s1,
      (isPIInstanceShutAfterResourceChange client id cloud s).result =
        some ((res, label, none), s1) →
      label ∈ (updateStateConf client id cloud).Pending ∨
      label ∈ (updateStateConf client id cloud).Target) ∧
    (∀ s e s', (isWaitForPIInstanceAvailable client probes id t cloud s).result =
        some (.error e, s') →
      e = .timeout (availableStateConf client id cloud).Target ∨
      ∃ s0, (client.Get id cloud s0).1 = .error e) ∧
    (∀ s e s', (isWaitForPIInstanceStopped client probes id t cloud s).result =
        some (.error e, s') →
      e = .timeout (stoppedStateConf client id cloud).Target ∨
      ∃ s0, (client.Get id cloud s0).1 = .error e) ∧
    (∀ s e s', (isWaitforPIInstanceUpdate client probes id t cloud s).result =
        some (.error e, s') →
      e = .timeout (updateStateConf client id cloud).Target ∨
      ∃ s0, (client.Get id cloud s0).1 = .error e) := by
  have h1 : ∀ s res label s1,
      (isPIInstanceRefreshFunc client id cloud s).result = some ((res, label, none), s1) →
      label ∈ (availableStateConf client id cloud).Pending ∨
      label ∈ (availableStateConf client id cloud).Target := by
    intro s res label s1 h
    show label ∈ ["PENDING", "BUILD", "WARNING"] ∨ label ∈ ["OK", "ACTIVE", "OK"]
    rcases isPIInstanceRefreshFunc_label client id cloud s res label none s1 h with
      ⟨-, rfl | rfl⟩ | ⟨e, he, -⟩
    · right; decide
    · left; decide
    · cases he
  have h2 : ∀ s res label s1,
      (isPIInstanceRefreshFuncOff client id cloud s).result = some ((res, label, none), s1) →
      label ∈ (stoppedStateConf client id cloud).Pending ∨
      label ∈ (stoppedStateConf client id cloud).Target := by
    intro s res label s1 h
    show label ∈ ["STOPPING", "RESIZE", "VERIFY_RESIZE", "WARNING"] ∨ label ∈ ["OK", "SHUTOFF"]
    rcases isPIInstanceRefreshFuncOff_label client id cloud s res label none s1 h with
      ⟨-, rfl | rfl⟩ | ⟨e, he, -⟩
    · right; decide
    · left; decide
    · cases he
  have h3 : ∀ s res label s1,
      (isPIInstanceShutAfterResourceChange client id cloud s).result =
        some ((res, label, none), s1) →
      label ∈ (updateStateConf client id cloud).Pending ∨
      label ∈ (updateStateConf client id cloud).Target := by
    intro s res label s1 h
    show label ∈ ["RESIZE", "VERIFY_RESIZE"] ∨ label ∈ ["ACTIVE", "SHUTOFF", "OK"]
    rcases isPIInstanceShutAfterResourceChange_label client id cloud s res label none s1 h with
      ⟨-, rfl | rfl⟩ | ⟨e, he, -⟩
    · right; decide
    · left; decide
    · cases he
  refine ⟨h1, h2, h3, ?_, ?_, ?_⟩
  · intro s e s' h
    rw [isWaitForPIInstanceAvailable, wait_result] at h
    refine poll_error (availableStateConf client id cloud)
      (fun e => ∃ s0, (client.Get id cloud s0).1 = .error e) h1 ?_ _ s e s' h
    intro s0 res label e0 s1 hr
    rcases isPIInstanceRefreshFunc_label client id cloud s0 res label (some e0) s1 hr with
      ⟨he, -⟩ | ⟨e1, he, hg⟩
    · cases he
    · cases he; exact ⟨s0, hg⟩
  · intro s e s' h
    rw [isWaitForPIInstanceStopped, wait_result] at h
    refine poll_error (stoppedStateConf client id cloud)
      (fun e => ∃ s0, (client.Get id cloud s0).1 = .error e) h2 ?_ _ s e s' h
    intro s0 res label e0 s1 hr
    rcases isPIInstanceRefreshFuncOff_label client id cloud s0 res label (some e0) s1 hr with
      ⟨he, -⟩ | ⟨e1, he, hg⟩
    · cases he
    · cases he; exact ⟨s0, hg⟩
  · intro s e s' h
    rw [isWaitforPIInstanceUpdate, wait_result] at h
    refine poll_error (updateStateConf client id cloud)
      (fun e => ∃ s0, (client.Get id cloud s0).1 = .error e) h3 ?_ _ s e s' h
    intro s0 res label e0 s1 hr
    rcases isPIInstanceShutAfterResourceChange_label client id cloud s0 res label (some e0) s1 hr
      with ⟨he, -⟩ | ⟨e1, he, hg⟩
    · cases he
    · cases he; exact ⟨s0, hg⟩

theorem C6_labels_always_expected_witness :
    ("BUILD" ∈ (availableStateConf (steady (snapshot "vm1" "ERROR" "CRITICAL")) "vm1" "cloud1").Pending ∨
     "BUILD" ∈ (availableStateConf (steady (snapshot "vm1" "ERROR" "CRITICAL")) "vm1" "cloud1").Target) ∧
    (Error.timeout ["OK", "ACTIVE", "OK"] =
        .timeout (availableStateConf (steady (snapshot "vm1" "ERROR" "CRITICAL")) "vm1" "cloud1").Target ∨
      ∃ s0, ((steady (snapshot "vm1" "ERROR" "CRITICAL")).Get "vm1" "cloud1" s0).1 =
        .error (Error.timeout ["OK", "ACTIVE", "OK"])) :=
  ⟨(C6_labels_always_expected (steady (snapshot "vm1" "ERROR" "CRITICAL")) (fun _ => 3)
      "vm1" "cloud1" 30).1 0 (some (snapshot "vm1" "ERROR" "CRITICAL")) "BUILD" 1 rfl,
   (C6_labels_always_expected (steady (snapshot "vm1" "ERROR" "CRITICAL")) (fun _ => 3)
      "vm1" "cloud1" 30).2.2.2.1 0 (.timeout ["OK", "ACTIVE", "OK"]) 3 rfl⟩

/-- C6, as stated, fails: a snapshot with status ERROR and health CRITICAL,
both outside the pending and target lists of the three waits, makes the
probes return BUILD, STOPPING and RESIZE, each in the pending list of its
wait; the available wait then probes until its probes are used up and ends in
the timeout, not in an unexpected-state error. -/
theorem C6_counterexample :
    "ERROR" ∉ ["PENDING", "BUILD", "WARNING", "OK", "ACTIVE", "STOPPING", "RESIZE",
      "VERIFY_RESIZE", "SHUTOFF"] ∧
    "CRITICAL" ∉ ["PENDING", "BUILD", "WARNING", "OK", "ACTIVE", "STOPPING", "RESIZE",
      "VERIFY_RESIZE", "SHUTOFF"] ∧
    (isPIInstanceRefreshFunc (steady (snapshot "vm1" "ERROR" "CRITICAL")) "vm1" "cloud1" 0).result =
      some ((some (snapshot "vm1" "ERROR" "CRITICAL"), "BUILD", none), 1) ∧
    "BUILD" ∈ (availableStateConf (steady (snapshot "vm1" "ERROR" "CRITICAL")) "vm1" "cloud1").Pending ∧
    (isPIInstanceRefreshFuncOff (steady (snapshot "vm1" "ERROR" "CRITICAL")) "vm1" "cloud1" 0).result =
      some ((some (snapshot "vm1" "ERROR" "CRITICAL"), "STOPPING", none), 1) ∧
    "STOPPING" ∈ (stoppedStateConf (steady (snapshot "vm1" "ERROR" "CRITICAL")) "vm1" "cloud1").Pending ∧
    (isPIInstanceShutAfterResourceChange (steady (snapshot "vm1" "ERROR" "CRITICAL"))
        "vm1" "cloud1" 0).result =
      some ((some (snapshot "vm1" "ERROR" "CRITICAL"), "RESIZE", none), 1) ∧
    "RESIZE" ∈ (updateStateConf (steady (snapshot "vm1" "ERROR" "CRITICAL")) "vm1" "cloud1").Pending ∧
    isWaitForPIInstanceAvailable (steady (snapshot "vm1" "ERROR" "CRITICAL")) (fun _ => 3)
        "vm1" 30 "cloud1" 0 =
      ⟨[.WaitBegin .Available "vm1", .Get "vm1" "cloud1", .Get "vm1" "cloud1",
        .Get "vm1" "cloud1", .WaitEnd .Available "vm1" false],
       some (.error (.timeout ["OK", "ACTIVE", "OK"]), 3)⟩ := by
  refine ⟨by decide, by decide, by decide, ?_, by decide, ?_, by decide, ?_, rfl⟩
  · show "BUILD" ∈ ["PENDING", "BUILD", "WARNING"]
    decide
  · show "STOPPING" ∈ ["STOPPING", "RESIZE", "VERIFY_RESIZE", "WARNING"]
    decide
  · show "RESIZE" ∈ ["RESIZE", "VERIFY_RESIZE"]
    decide

/-- C7. An update whose recorded health status is WARNING, the session being
obtained, returns an error and makes no call on the instance client at all,
whatever fields changed. -/
theorem C7_update_refused_on_warning (client : IBMPIInstanceClient σ) (probes : Nat → Nat)
    (d : ResourceData) (m : ClientSession) (s : σ)
    (hsess : m.IBMPISession = .ok ()) (hhealth : d.health_status = "WARNING") :
    (resourceIBMPIInstanceUpdate client probes d m s).events = [] ∧
    (resourceIBMPIInstanceUpdate client probes d m s).result =
      some ((some (.errorf
        "The operation cannot be performed when the lpar health in the WARNING State"), d), s) := by
  simp only [resourceIBMPIInstanceUpdate, hsess, hhealth, if_true, run_pure, and_self]

theorem C7_update_refused_on_warning_witness :
    (resourceIBMPIInstanceUpdate scripted (fun _ => 3)
        { resizedAbove with health_status := "WARNING" } session []).events = [] ∧
    (resourceIBMPIInstanceUpdate scripted (fun _ => 3)
        { resizedAbove with health_status := "WARNING" } session []).result =
      some ((some (.errorf
        "The operation cannot be performed when the lpar health in the WARNING State"),
        { resizedAbove with health_status := "WARNING" }), []) :=
  C7_update_refused_on_warning scripted (fun _ => 3)
    { resizedAbove with health_status := "WARNING" } session [] (by decide) (by decide)

/-- C8. A processor type change in which every remote call and wait succeeds
(session obtained, health not WARNING, id parsed): unless the recorded status
is SHUTOFF the operation issues a stop action and waits for stopped; then, in
both cases, it issues one `Update` carrying only the new processor type, waits
for stopped, issues one start action and waits for available, in that order.
The sequence does not depend on the ceilings; it is followed by the steps of
the resize when memory or processors changed too, and by nothing otherwise. -/
theorem C8_processor_type_change (client : IBMPIInstanceClient σ) (probes : Nat → Nat)
    (d d' : ResourceData) (m : ClientSession) (id cloud : String) (rest : List String) (s s' : σ)
    (hsess : m.IBMPISession = .ok ()) (hhealth : d.health_status ≠ "WARNING")
    (hid : idParts d.Id = .ok (cloud :: id :: rest))
    (hproctype : d.HasChange .PIInstanceProcType = true)
    (hok : (resourceIBMPIInstanceUpdate client probes d m s).result = some ((none, d'), s')) :
    steps (resourceIBMPIInstanceUpdate client probes d m s).events =
      (if d.status = "SHUTOFF" then []
       else [.Action id cloud "immediate-shutdown",
             .WaitBegin .Stopped id, .WaitEnd .Stopped id true]) ++
      [.Update id cloud { ProcType := d.PIInstanceProcType },
       .WaitBegin .Stopped id, .WaitEnd .Stopped id true,
       .Action id cloud "start",
       .WaitBegin .Available id, .WaitEnd .Available id true] ++
      (if d.HasChange .PIInstanceMemory ∨ d.HasChange .PIInstanceProcessors then
        expectedResizeSteps d id cloud else []) := by
  rw [resourceIBMPIInstanceUpdate_success client probes d d' m id cloud rest s s' hsess hhealth
    hid hok, if_pos hproctype]
  rfl

theorem C8_processor_type_change_witness :
    steps (resourceIBMPIInstanceUpdate scripted (fun _ => 3) retyped session
        [snapshot "vm1" "STOPPING" "OK", snapshot "vm1" "SHUTOFF" "OK",
         snapshot "vm1" "SHUTOFF" "OK", snapshot "vm1" "ACTIVE" "OK",
         snapshot "vm1" "ACTIVE" "OK"]).events =
      [.Action "vm1" "cloud1" "immediate-shutdown",
       .WaitBegin .Stopped "vm1", .WaitEnd .Stopped "vm1" true,
       .Update "vm1" "cloud1" { ProcType := "dedicated" },
       .WaitBegin .Stopped "vm1", .WaitEnd .Stopped "vm1" true,
       .Action "vm1" "cloud1" "start",
       .WaitBegin .Available "vm1", .WaitEnd .Available "vm1" true] :=
  C8_processor_type_change scripted (fun _ => 3) retyped
    (setFromSnapshot retyped "cloud1" (snapshot "vm1" "ACTIVE" "OK")) session "vm1" "cloud1" []
    [snapshot "vm1" "STOPPING" "OK", snapshot "vm1" "SHUTOFF" "OK",
     snapshot "vm1" "SHUTOFF" "OK", snapshot "vm1" "ACTIVE" "OK", snapshot "vm1" "ACTIVE" "OK"] []
    (by decide) (by decide) (by decide) (by decide) (by decide)

/-- C9. A create whose user data `checkBase64` rejects (session obtained)
returns that error, leaves the resource data as it was and issues no call on
the instance client; `checkBase64` returns no error exactly when the decoder
of standard padded base64 accepts the input, and it accepts the empty
string. -/
theorem C9_user_data_validated (client : IBMPIInstanceClient σ) (probes : Nat → Nat)
    (d : ResourceData) (m : ClientSession) (s : σ) (e : Error)
    (hsess : m.IBMPISession = .ok ())
    (hbad : checkBase64 d.PIInstanceUserData = some e) :
    resourceIBMPIInstanceCreate client probes d m s = ⟨[], some ((some e, d), s)⟩ ∧
    (∀ input, checkBase64 input = none ↔
      ∃ data, base64.StdEncoding.DecodeString input = .ok data) ∧
    checkBase64 "" = none := by
  refine ⟨?_, ?_, rfl⟩
  · simp only [resourceIBMPIInstanceCreate, hsess, hbad, run_pure]
  · intro input
    unfold checkBase64
    rcases base64.StdEncoding.DecodeString input with e | data
    · simp
    · simp

theorem C9_user_data_validated_witness :
    resourceIBMPIInstanceCreate scripted (fun _ => 3) { requested with PIInstanceUserData := "#!/bin/sh" }
        session [snapshot "vm1" "ACTIVE" "OK"] =
      ⟨[], some ((some .corruptInput, { requested with PIInstanceUserData := "#!/bin/sh" }),
        [snapshot "vm1" "ACTIVE" "OK"])⟩ ∧
    (∀ input, checkBase64 input = none ↔
      ∃ data, base64.StdEncoding.DecodeString input = .ok data) ∧
    checkBase64 "" = none :=
  C9_user_data_validated scripted (fun _ => 3) { requested with PIInstanceUserData := "#!/bin/sh" }
    session [snapshot "vm1" "ACTIVE" "OK"] .corruptInput (by decide) (by decide)

/-- C10. A create for `N ≥ 1` replicants (session obtained, user data valid)
whose `Create` call succeeds and returns at least `N` instances: after the
create call the entry point runs the available wait on the first `N`
returned instance ids, one after the other in returned order; the waits on
`waited` succeeded, and either none is left, or the wait on the first id of `left`
failed, which ends the operation with the error of that wait, without a wait
on the ids after it. The operation returns no error only if none is left, and
it issues no `Delete` call. -/
theorem C10_replicants_waited_in_order (client : IBMPIInstanceClient σ) (probes : Nat → Nat)
    (d : ResourceData) (m : ClientSession) (s s1 : σ) (N : Nat) (pvm : List PVMInstance)
    (hsess : m.IBMPISession = .ok ())
    (hdata : checkBase64 d.PIInstanceUserData = none)
    (hN : 1 ≤ N) (hreplicants : d.PIInstanceReplicants = N)
    (hcreate : client.Create (createBody d) d.PICloudInstanceId s = (.ok pvm, s1))
    (hlen : N ≤ pvm.length) :
    ∃ waited left, (pvm.take N).map (fun p => p.PvmInstanceID) = waited ++ left ∧
      steps (resourceIBMPIInstanceCreate client probes d m s).events =
        .Create d.PICloudInstanceId (createBody d) :: (availableSteps waited ++ failedStep left) ∧
      (left = [] ∨
        ∃ id rest e s0 s' d', left = id :: rest ∧
          (isWaitForPIInstanceAvailable client probes id d.TimeoutCreate d.PICloudInstanceId
            s0).result = some (.error e, s') ∧
          (resourceIBMPIInstanceCreate client probes d m s).result = some ((some e, d'), s')) ∧
      (∀ d' s', (resourceIBMPIInstanceCreate client probes d m s).result =
          some ((none, d'), s') → left = []) ∧
      (resourceIBMPIInstanceCreate client probes d m s).events.filter Event.isDelete = [] := by
  obtain ⟨newId, hids⟩ := createdIds_eq d.PICloudInstanceId N pvm hN hlen
  obtain ⟨waited, left, hsplit, hsteps, hres⟩ := waitForEach_steps client probes d.TimeoutCreate
    d.PICloudInstanceId ((pvm.take N).map (fun p => p.PvmInstanceID)) s1
  have hrun : resourceIBMPIInstanceCreate client probes d m s =
      ⟨.Create d.PICloudInstanceId (createBody d) ::
          ((waitForEach client probes d.TimeoutCreate d.PICloudInstanceId none
            ((pvm.take N).map (fun p => p.PvmInstanceID)) >>= fun err =>
            match err with
            | some err => pure (some err, { d with Id := newId })
            | none => resourceIBMPIInstanceRead client { d with Id := newId } m) s1).events,
        ((waitForEach client probes d.TimeoutCreate d.PICloudInstanceId none
            ((pvm.take N).map (fun p => p.PvmInstanceID)) >>= fun err =>
            match err with
            | some err => pure (some err, { d with Id := newId })
            | none => resourceIBMPIInstanceRead client { d with Id := newId } m) s1).result⟩ := by
    simp only [resourceIBMPIInstanceCreate, hsess, hdata, run_bind, create_apply, hcreate,
      hreplicants, hids]
    rfl
  have key : steps (resourceIBMPIInstanceCreate client probes d m s).events =
        .Create d.PICloudInstanceId (createBody d) :: (availableSteps waited ++ failedStep left) ∧
      (left = [] ∨
        ∃ id rest e s0 s' d', left = id :: rest ∧
          (isWaitForPIInstanceAvailable client probes id d.TimeoutCreate d.PICloudInstanceId
            s0).result = some (.error e, s') ∧
          (resourceIBMPIInstanceCreate client probes d m s).result = some ((some e, d'), s')) := by
    rw [hrun]
    clear hrun
    simp only [run_bind]
    revert hsteps hres
    generalize waitForEach client probes d.TimeoutCreate d.PICloudInstanceId none
      ((pvm.take N).map (fun p => p.PvmInstanceID)) s1 = o
    rcases o with ⟨ev, _ | ⟨_ | e, s2⟩⟩
    · rintro - (⟨-, _, h⟩ | ⟨_, _, _, _, _, -, -, h⟩) <;> simp at h
    · rintro hsteps (⟨hleft, -⟩ | ⟨_, _, _, _, _, -, -, h⟩)
      · refine ⟨?_, Or.inl hleft⟩
        simp only at hsteps ⊢
        rw [steps_cons, steps_append, hsteps,
          resourceIBMPIInstanceRead_readOnly client { d with Id := newId } m s2]
        simp [Event.isGet]
      · simp at h
    · rintro hsteps (⟨-, _, h⟩ | ⟨id, rest, e', s0, s', hleft, hwait, h⟩)
      · simp at h
      · simp only [Option.some.injEq, Prod.mk.injEq] at h
        obtain ⟨rfl, rfl⟩ := h
        refine ⟨?_, Or.inr ⟨id, rest, e, s0, s2, { d with Id := newId }, hleft, hwait, rfl⟩⟩
        simp only at hsteps ⊢
        rw [steps_cons, steps_append, hsteps]
        simp [Event.isGet, run_pure, steps_nil]
  refine ⟨waited, left, hsplit, key.1, key.2, ?_, ?_⟩
  · intro d' s' hok
    rcases key.2 with h | ⟨_, _, _, _, _, _, -, -, h⟩
    · exact h
    · rw [hok] at h
      simp at h
  · rw [← filter_steps Event.isDelete (by intro e; cases e <;> simp [Event.isDelete, Event.isGet]),
      key.1]
    have h1 : ∀ ids, (availableSteps ids).filter Event.isDelete = [] := by
      intro ids
      induction ids with
      | nil => rfl
      | cons id ids ih => simpa [availableSteps, Event.isDelete] using ih
    have h2 : (failedStep left).filter Event.isDelete = [] := by
      cases left <;> rfl
    simp [List.filter_cons, Event.isDelete, h1, h2]

theorem C10_replicants_waited_in_order_witness :
    ∃ waited left,
      (List.take 3 [snapshot "vm1" "ACTIVE" "OK", snapshot "vm2" "ACTIVE" "OK",
        snapshot "vm3" "BUILD" "OK", snapshot "vm3" "ACTIVE" "OK"]).map
          (fun p => p.PvmInstanceID) = waited ++ left ∧
      steps (resourceIBMPIInstanceCreate scripted (fun _ => 3) requested session
        [snapshot "vm1" "ACTIVE" "OK", snapshot "vm2" "ACTIVE" "OK",
         snapshot "vm3" "BUILD" "OK", snapshot "vm3" "ACTIVE" "OK"]).events =
        .Create requested.PICloudInstanceId (createBody requested) ::
          (availableSteps waited ++ failedStep left) ∧
      (left = [] ∨
        ∃ id rest e s0 s' d', left = id :: rest ∧
          (isWaitForPIInstanceAvailable scripted (fun _ => 3) id requested.TimeoutCreate
            requested.PICloudInstanceId s0).result = some (.error e, s') ∧
          (resourceIBMPIInstanceCreate scripted (fun _ => 3) requested session
            [snapshot "vm1" "ACTIVE" "OK", snapshot "vm2" "ACTIVE" "OK",
             snapshot "vm3" "BUILD" "OK", snapshot "vm3" "ACTIVE" "OK"]).result =
            some ((some e, d'), s')) ∧
      (∀ d' s', (resourceIBMPIInstanceCreate scripted (fun _ => 3) requested session
          [snapshot "vm1" "ACTIVE" "OK", snapshot "vm2" "ACTIVE" "OK",
           snapshot "vm3" "BUILD" "OK", snapshot "vm3" "ACTIVE" "OK"]).result =
          some ((none, d'), s') → left = []) ∧
      (resourceIBMPIInstanceCreate scripted (fun _ => 3) requested session
        [snapshot "vm1" "ACTIVE" "OK", snapshot "vm2" "ACTIVE" "OK",
         snapshot "vm3" "BUILD" "OK", snapshot "vm3" "ACTIVE" "OK"]).events.filter
          Event.isDelete = [] :=
  C10_replicants_waited_in_order scripted (fun _ => 3) requested session
    [snapshot "vm1" "ACTIVE" "OK", snapshot "vm2" "ACTIVE" "OK",
     snapshot "vm3" "BUILD" "OK", snapshot "vm3" "ACTIVE" "OK"]
    [snapshot "vm1" "ACTIVE" "OK", snapshot "vm2" "ACTIVE" "OK",
     snapshot "vm3" "BUILD" "OK", snapshot "vm3" "ACTIVE" "OK"] 3
    [snapshot "vm1" "ACTIVE" "OK", snapshot "vm2" "ACTIVE" "OK",
     snapshot "vm3" "BUILD" "OK", snapshot "vm3" "ACTIVE" "OK"]
    (by decide) (by decide) (by decide) (by decide) (by decide) (by decide)

/-- C11, evaluated: a create for three replicants in container `cloud1` that
returns the instances `vm1`, `vm2`, `vm3` sets the id `vm1/vm2/vm3`, which
does not begin with the container id, and the read that follows takes `vm1`
for the container id; a create for one replicant sets `cloud1/vm1`. -/
theorem C11_multi_id_without_container :
    createdIds "cloud1" 3
        [snapshot "vm1" "ACTIVE" "OK", snapshot "vm2" "ACTIVE" "OK",
         snapshot "vm3" "ACTIVE" "OK"] =
      some (["vm1", "vm2", "vm3"], "vm1/vm2/vm3") ∧
    resourceIBMPIInstanceCreate scripted (fun _ => 3) requested session
        [snapshot "vm1" "ACTIVE" "OK", snapshot "vm2" "ACTIVE" "OK",
         snapshot "vm3" "ACTIVE" "OK"] =
      ⟨[.Create "cloud1" (createBody requested),
        .WaitBegin .Available "vm1", .Get "vm1" "cloud1", .WaitEnd .Available "vm1" true,
        .WaitBegin .Available "vm2", .Get "vm2" "cloud1", .WaitEnd .Available "vm2" true,
        .WaitBegin .Available "vm3", .Get "vm3" "cloud1", .WaitEnd .Available "vm3" true,
        .Get "vm2" "vm1"],
       some ((some (.requestFailure 404 "not found"),
         { requested with Id := "vm1/vm2/vm3" }), [])⟩ ∧
    "vm1/vm2/vm3" ≠ "cloud1/vm1/vm2/vm3" ∧
    (resourceIBMPIInstanceCreate scripted (fun _ => 3)
        { requested with PIInstanceReplicants := 1 } session
        [snapshot "vm1" "ACTIVE" "OK", snapshot "vm1" "ACTIVE" "OK"]).result =
      some ((none, setFromSnapshot
        { requested with PIInstanceReplicants := 1, Id := "cloud1/vm1" } "cloud1"
        (snapshot "vm1" "ACTIVE" "OK")), []) := by
  refine ⟨by decide, rfl, by decide, by decide⟩

/-- C12. The existence check on an id that parses into a container id and
an instance id (session obtained): when `Get` fails with a request failure of
status 404 it returns false with no error; when `Get` fails in any other way
it returns false with an error; when `Get` succeeds it returns no error and
true exactly when the fetched instance id equals the instance id part of the
composite id. In each case it issues that one `Get` and nothing else. -/
theorem C12_exists (client : IBMPIInstanceClient σ) (d : ResourceData) (m : ClientSession)
    (id cloud : String) (rest : List String) (s : σ)
    (hsess : m.IBMPISession = .ok ())
    (hid : idParts d.Id = .ok (cloud :: id :: rest)) :
    (∀ message s1, client.Get id cloud s = (.error (.requestFailure 404 message), s1) →
      resourceIBMPIInstanceExists client d m s =
        ⟨[.Get id cloud], some ((false, none), s1)⟩) ∧
    (∀ e s1, client.Get id cloud s = (.error e, s1) →
      (∀ message, e ≠ .requestFailure 404 message) →
      resourceIBMPIInstanceExists client d m s =
        ⟨[.Get id cloud],
          some ((false, some (.errorf ("Error communicating with the API: " ++ e.msg))), s1)⟩) ∧
    (∀ pvm s1, client.Get id cloud s = (.ok pvm, s1) →
      resourceIBMPIInstanceExists client d m s =
        ⟨[.Get id cloud], some ((decide (pvm.PvmInstanceID = id), none), s1)⟩) := by
  refine ⟨?_, ?_, ?_⟩
  · intro message s1 hget
    simp only [resourceIBMPIInstanceExists, hsess, hid, run_bind, get_apply, hget]
    rfl
  · intro e s1 hget hne
    simp only [resourceIBMPIInstanceExists, hsess, hid, run_bind, get_apply, hget]
    rfl
  · intro pvm s1 hget
    simp only [resourceIBMPIInstanceExists, hsess, hid, run_bind, get_apply, hget]
    rfl

theorem C12_exists_witness :
    resourceIBMPIInstanceExists scripted resizedWithin session [] =
        ⟨[.Get "vm1" "cloud1"], some ((false, none), [])⟩ ∧
    resourceIBMPIInstanceExists (refusing (.remote "connection reset")) resizedWithin session 0 =
        ⟨[.Get "vm1" "cloud1"],
          some ((false, some (.errorf "Error communicating with the API: connection reset")),
            1)⟩ ∧
    resourceIBMPIInstanceExists scripted resizedWithin session [snapshot "vm1" "ACTIVE" "OK"] =
        ⟨[.Get "vm1" "cloud1"], some ((true, none), [])⟩ ∧
    resourceIBMPIInstanceExists scripted resizedWithin session [snapshot "vm2" "ACTIVE" "OK"] =
        ⟨[.Get "vm1" "cloud1"], some ((false, none), [])⟩ :=
  ⟨(C12_exists scripted resizedWithin session "vm1" "cloud1" [] [] (by decide) (by decide)).1
      "not found" [] (by decide),
   (C12_exists (refusing (.remote "connection reset")) resizedWithin session "vm1" "cloud1" [] 0
      (by decide) (by decide)).2.1 (.remote "connection reset") 1 (by decide)
      (fun _ h => by cases h),
   (C12_exists scripted resizedWithin session "vm1" "cloud1" [] [snapshot "vm1" "ACTIVE" "OK"]
      (by decide) (by decide)).2.2 (snapshot "vm1" "ACTIVE" "OK") [] (by decide),
   (C12_exists scripted resizedWithin session "vm1" "cloud1" [] [snapshot "vm2" "ACTIVE" "OK"]
      (by decide) (by decide)).2.2 (snapshot "vm2" "ACTIVE" "OK") [] (by decide)⟩

/-- C13, amended. A failed remote call always ends the entry point with an
error, and that error is the error of the call itself for `Delete` in the
delete entry point and for the `Action` and `Update` calls of the processor
type block of the update (every error that block returns is the error of one
of its calls or waits, as returned). The other calls have their error
replaced: the error of `Create` by "Failed to provision the instance", the
error of the `Update` call of the in-place resize by "Failed to update the
lpar with the change", and whatever error `performChangeAndReboot` returns by
"Failed to perform the operation for the change". -/
theorem C13_error_propagation (client : IBMPIInstanceClient σ) (probes : Nat → Nat)
    (d : ResourceData) (m : ClientSession) :
    (∀ id cloud rest s s1 e,
      idParts d.Id = .ok (cloud :: id :: rest) →
      client.Delete id cloud s = (some e, s1) →
      (resourceIBMPIInstanceDelete client probes d m s).result = some ((some e, d), s1)) ∧
    (∀ id cloud rest s s' e,
      m.IBMPISession = .ok () → d.health_status ≠ "WARNING" →
      idParts d.Id = .ok (cloud :: id :: rest) →
      d.HasChange .PIInstanceProcType = true →
      (updateProcType client probes d id cloud s).result = some (some e, s') →
      (resourceIBMPIInstanceUpdate client probes d m s).result = some ((some e, d), s') ∧
      procTypeFailure client probes d id cloud e) ∧
    (∀ id cloud rest s s1 e,
      m.IBMPISession = .ok () → d.health_status ≠ "WARNING" →
      idParts d.Id = .ok (cloud :: id :: rest) →
      d.HasChange .PIInstanceProcType = true → d.status ≠ "SHUTOFF" →
      client.Action id cloud "immediate-shutdown" s = (.error e, s1) →
      (resourceIBMPIInstanceUpdate client probes d m s).result = some ((some e, d), s1)) ∧
    (∀ id cloud rest s s1 e,
      m.IBMPISession = .ok () → d.health_status ≠ "WARNING" →
      idParts d.Id = .ok (cloud :: id :: rest) →
      d.HasChange .PIInstanceProcType = true → d.status = "SHUTOFF" →
      client.Update id cloud { ProcType := d.PIInstanceProcType } s = (.error e, s1) →
      (resourceIBMPIInstanceUpdate client probes d m s).result = some ((some e, d), s1)) ∧
    (∀ id cloud rest s s1 s2 s3 resp ev1 r1 e,
      m.IBMPISession = .ok () → d.health_status ≠ "WARNING" →
      idParts d.Id = .ok (cloud :: id :: rest) →
      d.HasChange .PIInstanceProcType = true → d.status = "SHUTOFF" →
      client.Update id cloud { ProcType := d.PIInstanceProcType } s = (.ok resp, s1) →
      isWaitForPIInstanceStopped client probes id d.TimeoutUpdate cloud s1 =
        ⟨ev1, some (.ok r1, s2)⟩ →
      client.Action id cloud "start" s2 = (.error e, s3) →
      (resourceIBMPIInstanceUpdate client probes d m s).result = some ((some e, d), s3)) ∧
    (∀ s s1 e,
      m.IBMPISession = .ok () → checkBase64 d.PIInstanceUserData = none →
      client.Create (createBody d) d.PICloudInstanceId s = (.error e, s1) →
      (resourceIBMPIInstanceCreate client probes d m s).result =
        some ((some (.errorf "Failed to provision the instance"), d), s1)) ∧
    (∀ id cloud rest s s1 e,
      m.IBMPISession = .ok () → d.health_status ≠ "WARNING" →
      idParts d.Id = .ok (cloud :: id :: rest) →
      d.HasChange .PIInstanceProcType = false →
      (d.HasChange .PIInstanceMemory = true ∨ d.HasChange .PIInstanceProcessors = true) →
      ¬ (d.PIInstanceMemory > d.max_memory ∨ d.PIInstanceProcessors > d.max_processors) →
      client.Update id cloud
        { Memory := d.PIInstanceMemory, ProcType := d.PIInstanceProcType,
          Processors := d.PIInstanceProcessors, ServerName := d.PIInstanceName } s =
        (.error e, s1) →
      (resourceIBMPIInstanceUpdate client probes d m s).result =
        some ((some (.errorf "Failed to update the lpar with the change"), d), s1)) ∧
    (∀ id cloud rest s s' e,
      m.IBMPISession = .ok () → d.health_status ≠ "WARNING" →
      idParts d.Id = .ok (cloud :: id :: rest) →
      d.HasChange .PIInstanceProcType = false →
      (d.HasChange .PIInstanceMemory = true ∨ d.HasChange .PIInstanceProcessors = true) →
      (d.PIInstanceMemory > d.max_memory ∨ d.PIInstanceProcessors > d.max_processors) →
      (performChangeAndReboot client probes id cloud d.PIInstanceMemory
        d.PIInstanceProcessors s).result = some (some e, s') →
      (resourceIBMPIInstanceUpdate client probes d m s).result =
        some ((some (.errorf "Failed to perform the operation for the change"), d), s')) := by
  refine ⟨?_, ?_, ?_, ?_, ?_, ?_, ?_, ?_⟩
  · intro id cloud rest s s1 e hid hdelete
    rw [resourceIBMPIInstanceDelete_delete_fails client probes d m id cloud rest s s1 e hid
      hdelete]
  · intro id cloud rest s s' e hsess hhealth hid hproctype h
    rw [resourceIBMPIInstanceUpdate_procType_error client probes d m id cloud rest s s' e hsess
      hhealth hid hproctype h]
    exact ⟨rfl, updateProcType_error client probes d id cloud s s' e h⟩
  · intro id cloud rest s s1 e hsess hhealth hid hproctype hstatus h1
    rw [resourceIBMPIInstanceUpdate_procType_error client probes d m id cloud rest s s1 e hsess
      hhealth hid hproctype
      (by rw [updateProcType_stop_fails client probes d id cloud s s1 e hstatus h1])]
  · intro id cloud rest s s1 e hsess hhealth hid hproctype hstatus h1
    rw [resourceIBMPIInstanceUpdate_procType_error client probes d m id cloud rest s s1 e hsess
      hhealth hid hproctype
      (by rw [updateProcType_update_fails client probes d id cloud s s1 e hstatus h1])]
  · intro id cloud rest s s1 s2 s3 resp ev1 r1 e hsess hhealth hid hproctype hstatus h1 h2 h3
    rw [resourceIBMPIInstanceUpdate_procType_error client probes d m id cloud rest s s3 e hsess
      hhealth hid hproctype
      (by rw [updateProcType_start_fails client probes d id cloud s s1 s2 s3 e resp ev1 r1
        hstatus h1 h2 h3])]
  · intro s s1 e hsess hdata hcreate
    rw [resourceIBMPIInstanceCreate_create_fails client probes d m s s1 e hsess hdata hcreate]
  · intro id cloud rest s s1 e hsess hhealth hid hproctype hchanged hfit h1
    rw [resourceIBMPIInstanceUpdate_resize_error client probes d m id cloud rest s s1 _ hsess
      hhealth hid hproctype hchanged
      (by rw [updateMemoryProcessors_update_fails client probes d id cloud id cloud rest s s1 e
        hid hfit h1])]
  · intro id cloud rest s s' e hsess hhealth hid hproctype hchanged hbig h
    rw [resourceIBMPIInstanceUpdate_resize_error client probes d m id cloud rest s s' _ hsess
      hhealth hid hproctype hchanged
      (by rw [updateMemoryProcessors_reboot_fails client probes d id cloud s s' e hbig h])]

theorem C13_error_propagation_witness :
    (resourceIBMPIInstanceDelete (refusing (.remote "quota exceeded")) (fun _ => 3)
        retyped session 0).result =
      some ((some (.remote "quota exceeded"), retyped), 1) ∧
    (resourceIBMPIInstanceUpdate (refusing (.remote "quota exceeded")) (fun _ => 3)
        retyped session 0).result =
      some ((some (.remote "quota exceeded"), retyped), 1) :=
  ⟨(C13_error_propagation (refusing (.remote "quota exceeded")) (fun _ => 3) retyped
      session).1 "vm1" "cloud1" [] 0 1 (.remote "quota exceeded") (by decide) (by decide),
   (C13_error_propagation (refusing (.remote "quota exceeded")) (fun _ => 3) retyped
      session).2.2.1 "vm1" "cloud1" [] 0 1 (.remote "quota exceeded") (by decide) (by decide)
      (by decide) (by decide) (by decide) (by decide)⟩

/-- C13, as stated, fails: when `Create` fails with the error "quota exceeded"
the create entry point returns the different error "Failed to provision the
instance"; when the `Update` of an in-place resize fails with it the update
entry point returns "Failed to update the lpar with the change"; and when the
stop action inside `performChangeAndReboot` fails with it the update entry
point returns "Failed to perform the operation for the change". -/
theorem C13_counterexample :
    (refusing (.remote "quota exceeded")).Create (createBody requested) "cloud1" 0 =
      (.error (.remote "quota exceeded"), 1) ∧
    resourceIBMPIInstanceCreate (refusing (.remote "quota exceeded")) (fun _ => 3)
        requested session 0 =
      ⟨[.Create "cloud1" (createBody requested)],
        some ((some (.errorf "Failed to provision the instance"), requested), 1)⟩ ∧
    Error.errorf "Failed to provision the instance" ≠ .remote "quota exceeded" ∧
    resourceIBMPIInstanceUpdate (refusing (.remote "quota exceeded")) (fun _ => 3)
        resizedWithin session 0 =
      ⟨[.Update "vm1" "cloud1"
          { Memory := 4, ProcType := "shared", Processors := 2, ServerName := "lpar" }],
        some ((some (.errorf "Failed to update the lpar with the change"), resizedWithin), 1)⟩ ∧
    resourceIBMPIInstanceUpdate (refusing (.remote "quota exceeded")) (fun _ => 3)
        resizedAbove session 0 =
      ⟨[.Action "vm1" "cloud1" "immediate-shutdown"],
        some ((some (.errorf "Failed to perform the operation for the change"), resizedAbove),
          1)⟩ := by
  exact ⟨rfl, rfl, by decide, rfl, rfl⟩

/-- C14. `performChangeAndReboot` aborts at the first failing step and attempts
no rollback. Whichever of its six steps fails (stop action, stopped wait,
update call, post-resize wait, start action, available wait), the function
returns an error and its steps are those up to and including the failed one:
no remote call of a later step and no compensating call. In particular, when
the stop succeeded and the update call fails, the only action issued is the
stop, so no start follows. Conversely every run that returns an error ended at
one of these six steps. -/
theorem C14_abort_without_rollback (client : IBMPIInstanceClient σ) (probes : Nat → Nat)
    (id cloud : String) (mem procs : ℚ) :
    (∀ s s1 e,
      client.Action id cloud "immediate-shutdown" s = (.error e, s1) →
      (performChangeAndReboot client probes id cloud mem procs s).result = some (some e, s1) ∧
      steps (performChangeAndReboot client probes id cloud mem procs s).events =
        rebootAbortedAt id cloud { Memory := mem, Processors := procs } 1) ∧
    (∀ s s1 s2 ev1 e,
      client.Action id cloud "immediate-shutdown" s = (.ok (), s1) →
      isWaitForPIInstanceStopped client probes id 30 cloud s1 = ⟨ev1, some (.error e, s2)⟩ →
      (performChangeAndReboot client probes id cloud mem procs s).result =
        some (some (.errorf "Failed to stop the lpar"), s2) ∧
      steps (performChangeAndReboot client probes id cloud mem procs s).events =
        rebootAbortedAt id cloud { Memory := mem, Processors := procs } 2) ∧
    (∀ s s1 s2 s3 ev1 r1 e,
      client.Action id cloud "immediate-shutdown" s = (.ok (), s1) →
      isWaitForPIInstanceStopped client probes id 30 cloud s1 = ⟨ev1, some (.ok r1, s2)⟩ →
      client.Update id cloud { Memory := mem, Processors := procs } s2 = (.error e, s3) →
      (performChangeAndReboot client probes id cloud mem procs s).result =
        some (some (.errorf ("Failed to update the lpar with the change, " ++ e.msg)), s3) ∧
      steps (performChangeAndReboot client probes id cloud mem procs s).events =
        rebootAbortedAt id cloud { Memory := mem, Processors := procs } 3 ∧
      (performChangeAndReboot client probes id cloud mem procs s).events.filter Event.isAction =
        [.Action id cloud "immediate-shutdown"]) ∧
    (∀ s s1 s2 s3 s4 ev1 r1 resp ev2 e,
      client.Action id cloud "immediate-shutdown" s = (.ok (), s1) →
      isWaitForPIInstanceStopped client probes id 30 cloud s1 = ⟨ev1, some (.ok r1, s2)⟩ →
      client.Update id cloud { Memory := mem, Processors := procs } s2 = (.ok resp, s3) →
      isWaitforPIInstanceUpdate client probes id 30 cloud s3 = ⟨ev2, some (.error e, s4)⟩ →
      (performChangeAndReboot client probes id cloud mem procs s).result =
        some (some (.errorf
          ("Failed to get an update from the Service after the resource change, " ++ e.msg)),
          s4) ∧
      steps (performChangeAndReboot client probes id cloud mem procs s).events =
        rebootAbortedAt id cloud { Memory := mem, Processors := procs } 4) ∧
    (∀ s s1 s2 s3 s4 s5 ev1 r1 resp ev2 r2 e,
      client.Action id cloud "immediate-shutdown" s = (.ok (), s1) →
      isWaitForPIInstanceStopped client probes id 30 cloud s1 = ⟨ev1, some (.ok r1, s2)⟩ →
      client.Update id cloud { Memory := mem, Processors := procs } s2 = (.ok resp, s3) →
      isWaitforPIInstanceUpdate client probes id 30 cloud s3 = ⟨ev2, some (.ok r2, s4)⟩ →
      client.Action id cloud "start" s4 = (.error e, s5) →
      (performChangeAndReboot client probes id cloud mem procs s).result =
        some (some (.errorf ("The error from the start is " ++ e.msg)), s5) ∧
      steps (performChangeAndReboot client probes id cloud mem procs s).events =
        rebootAbortedAt id cloud { Memory := mem, Processors := procs } 5) ∧
    (∀ s s1 s2 s3 s4 s5 s6 ev1 r1 resp ev2 r2 ev3 e,
      client.Action id cloud "immediate-shutdown" s = (.ok (), s1) →
      isWaitForPIInstanceStopped client probes id 30 cloud s1 = ⟨ev1, some (.ok r1, s2)⟩ →
      client.Update id cloud { Memory := mem, Processors := procs } s2 = (.ok resp, s3) →
      isWaitforPIInstanceUpdate client probes id 30 cloud s3 = ⟨ev2, some (.ok r2, s4)⟩ →
      client.Action id cloud "start" s4 = (.ok (), s5) →
      isWaitForPIInstanceAvailable client probes id 30 cloud s5 = ⟨ev3, some (.error e, s6)⟩ →
      (performChangeAndReboot client probes id cloud mem procs s).result =
        some (some (.errorf ("Failed to stop the lpar " ++ e.msg)), s6) ∧
      steps (performChangeAndReboot client probes id cloud mem procs s).events =
        rebootAbortedAt id cloud { Memory := mem, Processors := procs } 6) ∧
    (∀ s e s',
      (performChangeAndReboot client probes id cloud mem procs s).result = some (some e, s') →
      ∃ k, 1 ≤ k ∧ k ≤ 6 ∧
        steps (performChangeAndReboot client probes id cloud mem procs s).events =
          rebootAbortedAt id cloud { Memory := mem, Processors := procs } k) := by
  have hS := fun s1 => isWaitForPIInstanceStopped_steps client probes id 30 cloud s1
  have hU := fun s1 => isWaitforPIInstanceUpdate_steps client probes id 30 cloud s1
  have hA := fun s1 => isWaitForPIInstanceAvailable_steps client probes id 30 cloud s1
  refine ⟨?_, ?_, ?_, ?_, ?_, ?_, ?_⟩
  · intro s s1 e h1
    rw [performChangeAndReboot_stop_fails client probes id cloud mem procs s s1 e h1]
    exact ⟨rfl, rfl⟩
  · intro s s1 s2 ev1 e h1 h2
    rw [performChangeAndReboot_stopped_fails client probes id cloud mem procs s s1 s2 e ev1 h1 h2]
    refine ⟨rfl, ?_⟩
    simp [steps_cons, Event.isGet, steps_of_wait (hS s1) h2, rebootAbortedAt, errIsNil]
  · intro s s1 s2 s3 ev1 r1 e h1 h2 h3
    rw [performChangeAndReboot_update_fails client probes id cloud mem procs s s1 s2 s3 e ev1 r1
      h1 h2 h3]
    have hsteps : steps (.Action id cloud "immediate-shutdown" :: ev1 ++
        [.Update id cloud { Memory := mem, Processors := procs }]) =
        rebootAbortedAt id cloud { Memory := mem, Processors := procs } 3 := by
      simp [steps_cons, steps_append, steps_nil, Event.isGet, steps_of_wait (hS s1) h2,
        rebootAbortedAt, errIsNil]
    refine ⟨rfl, hsteps, ?_⟩
    show List.filter Event.isAction _ = _
    rw [← filter_steps Event.isAction
      (by intro e; cases e <;> simp [Event.isAction, Event.isGet]), hsteps]
    rfl
  · intro s s1 s2 s3 s4 ev1 r1 resp ev2 e h1 h2 h3 h4
    rw [performChangeAndReboot_resized_fails client probes id cloud mem procs s s1 s2 s3 s4 e
      ev1 ev2 r1 resp h1 h2 h3 h4]
    refine ⟨rfl, ?_⟩
    simp [steps_cons, steps_append, Event.isGet, steps_of_wait (hS s1) h2,
      steps_of_wait (hU s3) h4, rebootAbortedAt, errIsNil]
  · intro s s1 s2 s3 s4 s5 ev1 r1 resp ev2 r2 e h1 h2 h3 h4 h5
    rw [performChangeAndReboot_start_fails client probes id cloud mem procs s s1 s2 s3 s4 s5 e
      ev1 ev2 r1 r2 resp h1 h2 h3 h4 h5]
    refine ⟨rfl, ?_⟩
    simp [steps_cons, steps_append, steps_nil, Event.isGet, steps_of_wait (hS s1) h2,
      steps_of_wait (hU s3) h4, rebootAbortedAt, errIsNil]
  · intro s s1 s2 s3 s4 s5 s6 ev1 r1 resp ev2 r2 ev3 e h1 h2 h3 h4 h5 h6
    rw [performChangeAndReboot_available_fails client probes id cloud mem procs s s1 s2 s3 s4 s5
      s6 e ev1 ev2 ev3 r1 r2 resp h1 h2 h3 h4 h5 h6]
    refine ⟨rfl, ?_⟩
    simp [steps_cons, steps_append, Event.isGet, steps_of_wait (hS s1) h2,
      steps_of_wait (hU s3) h4, steps_of_wait (hA s5) h6, rebootAbortedAt, errIsNil]
  · intro s e s' h
    exact performChangeAndReboot_aborted client probes id cloud mem procs s s' e h

theorem C14_abort_without_rollback_witness :
    (performChangeAndReboot (updateRefused (.remote "insufficient capacity")) (fun _ => 3)
        "vm1" "cloud1" 16 2 [snapshot "vm1" "SHUTOFF" "OK"]).result =
      some (some (.errorf
        ("Failed to update the lpar with the change, " ++
          (Error.remote "insufficient capacity").msg)), []) ∧
    steps (performChangeAndReboot (updateRefused (.remote "insufficient capacity")) (fun _ => 3)
        "vm1" "cloud1" 16 2 [snapshot "vm1" "SHUTOFF" "OK"]).events =
      rebootAbortedAt "vm1" "cloud1" { Memory := 16, Processors := 2 } 3 ∧
    (performChangeAndReboot (updateRefused (.remote "insufficient capacity")) (fun _ => 3)
        "vm1" "cloud1" 16 2 [snapshot "vm1" "SHUTOFF" "OK"]).events.filter Event.isAction =
      [.Action "vm1" "cloud1" "immediate-shutdown"] :=
  (C14_abort_without_rollback (updateRefused (.remote "insufficient capacity")) (fun _ => 3)
    "vm1" "cloud1" 16 2).2.2.1 [snapshot "vm1" "SHUTOFF" "OK"] [snapshot "vm1" "SHUTOFF" "OK"]
    [] [] [.WaitBegin .Stopped "vm1", .Get "vm1" "cloud1", .WaitEnd .Stopped "vm1" true]
    (some (snapshot "vm1" "SHUTOFF" "OK")) (.remote "insufficient capacity") rfl rfl rfl

/-- C15, evaluated: on a fetched snapshot with status SHUTOFF and no health
record the stopped probe does not return the label STOPPING: it dereferences
the nil `Health` and panics, and so does the stopped wait at that probe, while
the read entry point, which tests `Health` against nil, handles the same
snapshot. -/
theorem C15_stopped_probe_without_health :
    (steady { PvmInstanceID := "vm1", Status := "SHUTOFF" }).Get "vm1" "cloud1" 0 =
      (.ok { PvmInstanceID := "vm1", Status := "SHUTOFF", Health := none }, 1) ∧
    isPIInstanceRefreshFuncOff (steady { PvmInstanceID := "vm1", Status := "SHUTOFF" })
        "vm1" "cloud1" 0 = ⟨[.Get "vm1" "cloud1"], none⟩ ∧
    isWaitForPIInstanceStopped (steady { PvmInstanceID := "vm1", Status := "SHUTOFF" })
        (fun _ => 3) "vm1" 30 "cloud1" 0 =
      ⟨[.WaitBegin .Stopped "vm1", .Get "vm1" "cloud1"], none⟩ ∧
    (resourceIBMPIInstanceRead (steady { PvmInstanceID := "vm1", Status := "SHUTOFF" })
        resizedWithin session 0).result =
      some ((none, setFromSnapshot resizedWithin "cloud1"
        { PvmInstanceID := "vm1", Status := "SHUTOFF" }), 1) := by
  exact ⟨rfl, rfl, rfl, rfl⟩

/-- C16. The probe of the deleted wait treats any failure of `Get` as deleted:
whatever error `Get` returns, a 404 or any other, the probe returns the
NOT_FOUND label, which is in the target list of the wait, together with a nil
error; the probe never returns an error; and the deleted wait, given at least
one probe, ends successfully on that probe. -/
theorem C16_delete_probe_get_failure (client : IBMPIInstanceClient σ) (probes : Nat → Nat)
    (id cloud : String) (t : Nat) (s s1 : σ) (e : Error)
    (hget : client.Get id cloud s = (.error e, s1))
    (hprobes : 0 < probes (10 * 60)) :
    isPIInstanceDeleteRefreshFunc client id cloud s =
      ⟨[.Get id cloud], some ((none, helpers.PIInstanceNotFound, none), s1)⟩ ∧
    helpers.PIInstanceNotFound ∈ (deletedStateConf client id cloud).Target ∧
    (∀ s0 res label err s2,
      (isPIInstanceDeleteRefreshFunc client id cloud s0).result = some ((res, label, err), s2) →
      err = none) ∧
    isWaitForPIInstanceDeleted client probes id t cloud s =
      ⟨[.WaitBegin .Deleted id, .Get id cloud, .WaitEnd .Deleted id true],
        some (.ok none, s1)⟩ := by
  have hprobe : isPIInstanceDeleteRefreshFunc client id cloud s =
      ⟨[.Get id cloud], some ((none, helpers.PIInstanceNotFound, none), s1)⟩ := by
    simp only [isPIInstanceDeleteRefreshFunc, run_bind, get_apply, hget]
    rfl
  have htarget : helpers.PIInstanceNotFound ∈ (deletedStateConf client id cloud).Target := by
    show helpers.PIInstanceNotFound ∈ [helpers.PIInstanceNotFound]
    simp
  refine ⟨hprobe, htarget, ?_, ?_⟩
  · intro s0 res label err s2
    simp only [isPIInstanceDeleteRefreshFunc, run_bind, get_apply]
    rcases client.Get id cloud s0 with ⟨_ | pvm, s3⟩
    · simp only [run_pure, Option.some.injEq, Prod.mk.injEq]
      rintro ⟨⟨-, -, rfl⟩, -⟩
      rfl
    · simp only [run_pure, Option.some.injEq, Prod.mk.injEq]
      rintro ⟨⟨-, -, rfl⟩, -⟩
      rfl
  · obtain ⟨n, hn⟩ : ∃ n, probes (10 * 60) = n + 1 := ⟨probes (10 * 60) - 1, by omega⟩
    have hpoll : (deletedStateConf client id cloud).poll (probes (10 * 60)) s =
        ⟨[.Get id cloud], some (.ok none, s1)⟩ := by
      rw [hn]
      simp only [StateChangeConf.poll, run_bind]
      have : (deletedStateConf client id cloud).Refresh s =
          ⟨[.Get id cloud], some ((none, helpers.PIInstanceNotFound, none), s1)⟩ := hprobe
      rw [this]
      simp only [if_pos htarget]
      rfl
    simp only [isWaitForPIInstanceDeleted, run_bind, run_emit, StateChangeConf.WaitForState]
    have ht : (deletedStateConf client id cloud).Timeout = 10 * 60 := rfl
    rw [ht, hpoll]
    rfl

theorem C16_delete_probe_get_failure_witness :
    isPIInstanceDeleteRefreshFunc (refusing (.remote "connection reset")) "vm1" "cloud1" 0 =
      ⟨[.Get "vm1" "cloud1"], some ((none, helpers.PIInstanceNotFound, none), 1)⟩ ∧
    helpers.PIInstanceNotFound ∈
      (deletedStateConf (refusing (.remote "connection reset")) "vm1" "cloud1").Target ∧
    (∀ s0 res label err s2,
      (isPIInstanceDeleteRefreshFunc (refusing (.remote "connection reset")) "vm1" "cloud1"
        s0).result = some ((res, label, err), s2) → err = none) ∧
    isWaitForPIInstanceDeleted (refusing (.remote "connection reset")) (fun _ => 3)
        "vm1" 600 "cloud1" 0 =
      ⟨[.WaitBegin .Deleted "vm1", .Get "vm1" "cloud1", .WaitEnd .Deleted "vm1" true],
        some (.ok none, 1)⟩ :=
  C16_delete_probe_get_failure (refusing (.remote "connection reset")) (fun _ => 3)
    "vm1" "cloud1" 600 0 1 (.remote "connection reset") (by decide) (by decide)

end PIInstance
